import Mathlib

/-!
# GFS kernel module: file-handle codec, handle resolver and hidden-file ioctls

A shallow embedding of `gfs-kernel/src/gfs/ops_export.c` and of the hidden-file
part of `gfs-kernel/src/gfs/ioctl.c`.

Conventions of the embedding

* C unsigned integers are `Nat`, reduced with `u32`/`u64` at every cast or store
  of that width; C `int` values are `Int`.
* A pointer to an array of `__u32` words (`fh`) is a function from the word
  index to the word stored there; a store is `Function.update`.
* A `struct dentry *` result is a `dentry_ptr`: `NULL`, `ERR_PTR(e)` or a
  valid pointer.
* Functions of other compilation units (glock, rgrp, inode, dio, trans, quota)
  are collaborators: their outcomes are fields of a world record, and every
  call that acquires, releases or touches something is appended to a trace.
-/

namespace GFS

/-! ## Constants from the kernel headers -/

def EPERM : Int := 1
def ENOENT : Int := 2
def EIO : Int := 5
def ENOMEM : Int := 12
def EACCES : Int := 13
def EFAULT : Int := 14
def EINVAL : Int := 22
def ERANGE : Int := 34
def EOPNOTSUPP : Int := 95
def ESTALE : Int := 116

def TRUE : Int := 1
def FALSE : Int := 0

/-- Truncation to `uint32_t`. -/
def u32 (x : Nat) : Nat := x % 2 ^ 32

/-- Truncation to `uint64_t`. -/
def u64 (x : Nat) : Nat := x % 2 ^ 64

/-- Value of `atomic_inc` on an `atomic_t` (a 32-bit signed counter that wraps). -/
def atomic_inc (v : Int) : Int :=
  if v + 1 ≥ 2 ^ 31 then v + 1 - 2 ^ 32 else v + 1

/-! ## Byte order

`cpu_to_gfs32` and `gfs32_to_cpu` are macros of `gfs_ondisk.h`, which is not
part of the sources at hand; the pair of conversions is a parameter. -/

/-- The on-disk conversions of the host: the two 32-bit macros of `gfs_ondisk.h`. -/
structure ByteOrder where
  to_gfs32 : Nat → Nat
  from_gfs32 : Nat → Nat

/-- The macro `cpu_to_gfs32`, a function from `uint32_t` to `uint32_t`. -/
def cpu_to_gfs32 (bo : ByteOrder) (x : Nat) : Nat := u32 (bo.to_gfs32 (u32 x))

/-- The macro `gfs32_to_cpu`, a function from `uint32_t` to `uint32_t`. -/
def gfs32_to_cpu (bo : ByteOrder) (x : Nat) : Nat := u32 (bo.from_gfs32 (u32 x))

/-- Reversal of the four bytes of a 32-bit word. -/
def swab32 (x : Nat) : Nat :=
  ((x &&& 0xff) <<< 24) ||| ((x &&& 0xff00) <<< 8) |||
  ((x >>> 8) &&& 0xff00) ||| ((x >>> 24) &&& 0xff)

/-- A big-endian host: both conversions are the identity. -/
def bigEndianHost : ByteOrder := ⟨id, id⟩

/-- A little-endian host: both conversions reverse the bytes. -/
def littleEndianHost : ByteOrder := ⟨swab32, swab32⟩

/-! ## Data model of `ops_export.c` -/

/-- The `struct inode_cookie` of `ops_export.c`. -/
structure inode_cookie where
  formal_ino : Nat
  gen : Nat
  gen_valid : Int
deriving DecidableEq, Repr

/-- The `struct gfs_inum`. -/
structure gfs_inum where
  no_formal_ino : Nat
  no_addr : Nat
deriving DecidableEq, Repr

/-- The fields of `struct gfs_inode` read by the code modelled here. -/
structure gfs_inode where
  i_num : gfs_inum
deriving DecidableEq, Repr

/-- The fields of the VFS `struct inode` read by the code modelled here;
`ip` is `vn2ip(inode)`. -/
structure inode where
  i_generation : Nat
  ip : gfs_inode
deriving DecidableEq, Repr

/-- The fields of `struct dentry` read by the code modelled here;
`d_parent_inode` is `dentry->d_parent->d_inode`. -/
structure dentry where
  d_inode : inode
  d_parent_inode : inode
deriving DecidableEq, Repr

/-- A value of type `struct dentry *`. -/
inductive dentry_ptr where
  | NULL : dentry_ptr
  | ERR_PTR (e : Int) : dentry_ptr
  | ptr (d : dentry) : dentry_ptr
deriving DecidableEq, Repr

/-- The operation counters of `struct gfs_sbd` and the formal inode numbers of
its four hidden inodes (`sd_jiinode->i_num.no_formal_ino` and so on). -/
structure gfs_sbd where
  sd_ops_export : Int
  sd_fh2dentry_misses : Int
  sd_jiinode : gfs_inode
  sd_riinode : gfs_inode
  sd_qinode : gfs_inode
  sd_linode : gfs_inode
deriving DecidableEq, Repr

/-! ## `gfs_decode_fh` -/

/-- What `gfs_decode_fh` leaves behind: the pointer returned, the arguments of
the call of `find_exported_dentry` when it was made, and the superblock. -/
structure decode_result where
  ret : dentry_ptr
  resolver_call : Option (inode_cookie × inode_cookie)
  sdp : gfs_sbd

/-- The function `gfs_decode_fh`. The `switch` falls through from case 6 to
case 5 to case 3. `this` is uninitialised in C; each of its fields is assigned
before it is read. -/
def gfs_decode_fh (bo : ByteOrder)
    (find_exported_dentry : inode_cookie → inode_cookie → dentry_ptr)
    (sdp : gfs_sbd) (fh : Nat → Nat) (fh_len fh_type : Int) : decode_result :=
  let sdp := { sdp with sd_ops_export := atomic_inc sdp.sd_ops_export }
  if fh_type ≠ fh_len then ⟨dentry_ptr.NULL, none, sdp⟩ else
  -- memset(&parent, 0, sizeof(struct inode_cookie))
  let parent : inode_cookie := ⟨0, 0, 0⟩
  -- case 6:
  let parent := if fh_type = 6 then
      { parent with gen_valid := TRUE, gen := u32 (fh 5) }
    else parent
  -- case 5:
  let parent := if fh_type = 6 ∨ fh_type = 5 then
      let p := { parent with formal_ino := u64 (gfs32_to_cpu bo (fh 3) <<< 32) }
      { p with formal_ino := p.formal_ino ||| gfs32_to_cpu bo (fh 4) }
    else parent
  -- case 3:
  if fh_type = 6 ∨ fh_type = 5 ∨ fh_type = 3 then
    let this : inode_cookie := ⟨0, 0, 0⟩
    let this := { this with gen_valid := TRUE }
    let this := { this with gen := gfs32_to_cpu bo (fh 2) }
    let this := { this with formal_ino := u64 (gfs32_to_cpu bo (fh 0) <<< 32) }
    let this := { this with formal_ino := this.formal_ino ||| gfs32_to_cpu bo (fh 1) }
    ⟨find_exported_dentry this parent, some (this, parent), sdp⟩
  else
    -- default:
    ⟨dentry_ptr.NULL, none, sdp⟩

/-! ## `gfs_encode_fh` -/

/-- What `gfs_encode_fh` leaves behind: the value returned, the token buffer,
`*len` and the export counter of the superblock of the inode. -/
structure encode_result where
  ret : Int
  fh : Nat → Nat
  len : Int
  sd_ops_export : Int

/-- The function `gfs_encode_fh`; `len` is `*len` on entry and
`sd_ops_export` is `ip->i_sbd->sd_ops_export`. -/
def gfs_encode_fh (bo : ByteOrder) (sd_ops_export : Int) (d : dentry)
    (fh : Nat → Nat) (len : Int) (connectable : Int) : encode_result :=
  let inode := d.d_inode
  let ip := inode.ip
  let maxlen := len
  let sd_ops_export := atomic_inc sd_ops_export
  if maxlen < 3 then ⟨255, fh, len, sd_ops_export⟩ else
  let fh := Function.update fh 0 (cpu_to_gfs32 bo (u32 (ip.i_num.no_formal_ino >>> 32)))
  let fh := Function.update fh 1 (cpu_to_gfs32 bo (u32 (ip.i_num.no_formal_ino &&& 0xFFFFFFFF)))
  let fh := Function.update fh 2 (cpu_to_gfs32 bo inode.i_generation)
  let len := 3
  if maxlen < 5 ∨ connectable = 0 then ⟨3, fh, len, sd_ops_export⟩ else
  let inode := d.d_parent_inode
  let ip := inode.ip
  let fh := Function.update fh 3 (cpu_to_gfs32 bo (u32 (ip.i_num.no_formal_ino >>> 32)))
  let fh := Function.update fh 4 (cpu_to_gfs32 bo (u32 (ip.i_num.no_formal_ino &&& 0xFFFFFFFF)))
  let len := 5
  if maxlen < 6 then ⟨5, fh, len, sd_ops_export⟩ else
  let fh := Function.update fh 5 (cpu_to_gfs32 bo inode.i_generation)
  let len := 6
  ⟨6, fh, len, sd_ops_export⟩

/-! ## `gfs_get_dentry`

`GFS_MAGIC`, `GFS_METATYPE_DI`, `GFS_DIF_UNUSED` and `GFS_BLKST_USEDMETA` are
constants of `gfs_ondisk.h`, which is not part of the sources at hand; they are
parameters. -/

/-- The constants of `gfs_ondisk.h` that `gfs_get_dentry` compares against. -/
structure ondisk_consts where
  GFS_MAGIC : Nat
  GFS_METATYPE_DI : Nat
  GFS_DIF_UNUSED : Nat
  GFS_BLKST_USEDMETA : Nat
deriving DecidableEq, Repr

/-- The `struct gfs_meta_header`, as raw on-disk words. -/
structure gfs_meta_header where
  mh_magic : Nat
  mh_type : Nat
deriving DecidableEq, Repr

/-- The fields of the on-disk `struct gfs_dinode` read by `gfs_get_dentry`,
as raw on-disk words. -/
structure gfs_dinode where
  di_header : gfs_meta_header
  di_flags : Nat
deriving DecidableEq, Repr

/-- A `struct gfs_rgrpd *` that is not `NULL`: the resource group descriptor,
named by the address of its first block. -/
structure gfs_rgrpd where
  rd_addr : Nat
deriving DecidableEq, Repr

/-- The three lock holders of `gfs_get_dentry`. -/
inductive holder where
  | i_gh : holder
  | ri_gh : holder
  | rgd_gh : holder
deriving DecidableEq, Repr

/-- The collaborator calls of `gfs_get_dentry`, in the order they are made.
A call that can fail carries the error it returned. -/
inductive export_event where
  | glock_nq_num (number : Nat) (error : Int) : export_event
  | inode_get (create : Bool) (error : Int) : export_event
  | rindex_hold (error : Int) : export_event
  | blk2rgrpd (addr : Nat) : export_event
  | glock_nq_init (error : Int) : export_event
  | get_block_type (addr : Nat) : export_event
  | dread (addr : Nat) (error : Int) : export_event
  | brelse : export_event
  | glock_dq_uninit (gh : holder) : export_event
  | iget : export_event
  | inode_put : export_event
  | iput : export_event
  | d_alloc_anon : export_event
deriving DecidableEq, Repr

/-- The outcomes of the collaborators of `gfs_get_dentry` in one system state.
`inode_get_nocreate` and `inode_get_create` are `gfs_inode_get` with
`NO_CREATE` and with `CREATE`; `d_alloc_anon` tells whether the allocation of
the dentry succeeds. -/
structure export_world where
  glock_nq_num : Nat → Int
  inode_get_nocreate : gfs_inum → Int × Option gfs_inode
  rindex_hold : Int
  blk2rgrpd : Nat → Option gfs_rgrpd
  glock_nq_init : gfs_rgrpd → Int
  get_block_type : gfs_rgrpd → Nat → Nat
  dread : Nat → Int × gfs_dinode
  inode_get_create : gfs_inum → Int × gfs_inode
  iget : gfs_inode → Option inode
  d_alloc_anon : inode → Bool

/-- What `gfs_get_dentry` leaves behind. -/
structure get_dentry_result where
  ret : dentry_ptr
  sdp : gfs_sbd
  trace : List export_event

/-- The label `fail` of `gfs_get_dentry`. -/
def get_dentry_fail (sdp : gfs_sbd) (tr : List export_event) (error : Int) :
    get_dentry_result :=
  ⟨dentry_ptr.ERR_PTR error, sdp, tr ++ [export_event.glock_dq_uninit holder.i_gh]⟩

/-- The label `fail_rindex` of `gfs_get_dentry`. -/
def get_dentry_fail_rindex (sdp : gfs_sbd) (tr : List export_event) (error : Int) :
    get_dentry_result :=
  get_dentry_fail sdp (tr ++ [export_event.glock_dq_uninit holder.ri_gh]) error

/-- The label `fail_rgd` of `gfs_get_dentry`. -/
def get_dentry_fail_rgd (sdp : gfs_sbd) (tr : List export_event) (error : Int) :
    get_dentry_result :=
  get_dentry_fail_rindex sdp (tr ++ [export_event.glock_dq_uninit holder.rgd_gh]) error

/-- The label `fail_relse` of `gfs_get_dentry`. -/
def get_dentry_fail_relse (sdp : gfs_sbd) (tr : List export_event) (error : Int) :
    get_dentry_result :=
  get_dentry_fail_rgd sdp (tr ++ [export_event.brelse]) error

/-- The label `out` of `gfs_get_dentry`, reached with the `gfs_inode` in `ip`. -/
def get_dentry_out (w : export_world) (cookie : inode_cookie) (sdp : gfs_sbd)
    (tr : List export_event) (ip : gfs_inode) : get_dentry_result :=
  let tr := tr ++ [export_event.glock_dq_uninit holder.i_gh]
  let tr := tr ++ [export_event.iget, export_event.inode_put]
  match w.iget ip with
  | none => ⟨dentry_ptr.ERR_PTR (-ENOMEM), sdp, tr⟩
  | some inode =>
    if cookie.gen_valid ≠ 0 ∧ cookie.gen ≠ inode.i_generation then
      ⟨dentry_ptr.ERR_PTR (-ESTALE), sdp, tr ++ [export_event.iput]⟩
    else
      let tr := tr ++ [export_event.d_alloc_anon]
      if w.d_alloc_anon inode = false then
        ⟨dentry_ptr.ERR_PTR (-ENOMEM), sdp, tr ++ [export_event.iput]⟩
      else
        ⟨dentry_ptr.ptr ⟨inode, inode⟩, sdp, tr⟩

/-- The test of the on-disk header made by `gfs_get_dentry`: true when the
block read is not a dinode in use. -/
def dinode_header_mismatch (bo : ByteOrder) (k : ondisk_consts) (di : gfs_dinode) : Prop :=
  gfs32_to_cpu bo di.di_header.mh_magic ≠ k.GFS_MAGIC ∨
  gfs32_to_cpu bo di.di_header.mh_type ≠ k.GFS_METATYPE_DI ∨
  (gfs32_to_cpu bo di.di_flags &&& k.GFS_DIF_UNUSED) ≠ 0

instance (bo : ByteOrder) (k : ondisk_consts) (di : gfs_dinode) :
    Decidable (dinode_header_mismatch bo k di) :=
  inferInstanceAs (Decidable (_ ∨ _ ∨ _))

/-- The test made first by `gfs_get_dentry`: the cookie names no inode or one
of the four hidden inodes. -/
def cookie_rejected (sdp : gfs_sbd) (cookie : inode_cookie) : Prop :=
  cookie.formal_ino = 0 ∨
  cookie.formal_ino = sdp.sd_jiinode.i_num.no_formal_ino ∨
  cookie.formal_ino = sdp.sd_riinode.i_num.no_formal_ino ∨
  cookie.formal_ino = sdp.sd_qinode.i_num.no_formal_ino ∨
  cookie.formal_ino = sdp.sd_linode.i_num.no_formal_ino

instance (sdp : gfs_sbd) (cookie : inode_cookie) : Decidable (cookie_rejected sdp cookie) :=
  inferInstanceAs (Decidable (_ ∨ _ ∨ _ ∨ _ ∨ _))

/-- The function `gfs_get_dentry`. -/
def gfs_get_dentry (bo : ByteOrder) (k : ondisk_consts) (w : export_world)
    (sdp : gfs_sbd) (cookie : inode_cookie) : get_dentry_result :=
  let sdp := { sdp with sd_ops_export := atomic_inc sdp.sd_ops_export }
  if cookie_rejected sdp cookie then ⟨dentry_ptr.ERR_PTR (-EINVAL), sdp, []⟩ else
  let inum : gfs_inum := ⟨cookie.formal_ino, cookie.formal_ino⟩
  let error := w.glock_nq_num inum.no_formal_ino
  let tr := [export_event.glock_nq_num inum.no_formal_ino error]
  if error ≠ 0 then ⟨dentry_ptr.ERR_PTR error, sdp, tr⟩ else
  let error := (w.inode_get_nocreate inum).1
  let ip := (w.inode_get_nocreate inum).2
  let tr := tr ++ [export_event.inode_get false error]
  if error ≠ 0 then get_dentry_fail sdp tr error else
  match ip with
  | some ip => get_dentry_out w cookie sdp tr ip
  | none =>
    let error := w.rindex_hold
    let tr := tr ++ [export_event.rindex_hold error]
    if error ≠ 0 then get_dentry_fail sdp tr error else
    let error := -EINVAL
    let tr := tr ++ [export_event.blk2rgrpd inum.no_addr]
    match w.blk2rgrpd inum.no_addr with
    | none => get_dentry_fail_rindex sdp tr error
    | some rgd =>
      let error := w.glock_nq_init rgd
      let tr := tr ++ [export_event.glock_nq_init error]
      if error ≠ 0 then get_dentry_fail_rindex sdp tr error else
      let error := -ESTALE
      let tr := tr ++ [export_event.get_block_type inum.no_addr]
      if w.get_block_type rgd inum.no_addr ≠ k.GFS_BLKST_USEDMETA then
        get_dentry_fail_rgd sdp tr error
      else
      let error := (w.dread inum.no_addr).1
      let di := (w.dread inum.no_addr).2
      let tr := tr ++ [export_event.dread inum.no_addr error]
      if error ≠ 0 then get_dentry_fail_rgd sdp tr error else
      let error := -ESTALE
      if dinode_header_mismatch bo k di then get_dentry_fail_relse sdp tr error else
      let tr := tr ++ [export_event.brelse,
                       export_event.glock_dq_uninit holder.rgd_gh,
                       export_event.glock_dq_uninit holder.ri_gh]
      let error := (w.inode_get_create inum).1
      let ip := (w.inode_get_create inum).2
      let tr := tr ++ [export_event.inode_get true error]
      if error ≠ 0 then get_dentry_fail sdp tr error else
      let sdp := { sdp with sd_fh2dentry_misses := atomic_inc sdp.sd_fh2dentry_misses }
      get_dentry_out w cookie sdp tr ip

/-- The cookie is accepted and `gfs_get_dentry` finds the in-memory inode `ip`
under the inode lock: the path that jumps to `out` after the first
`gfs_inode_get`. -/
def found_in_memory (w : export_world) (sdp : gfs_sbd) (cookie : inode_cookie)
    (ip : gfs_inode) : Prop :=
  ¬ cookie_rejected sdp cookie ∧
  w.glock_nq_num cookie.formal_ino = 0 ∧
  w.inode_get_nocreate ⟨cookie.formal_ino, cookie.formal_ino⟩ = (0, some ip)

/-- The cookie is accepted, no in-memory inode exists, every lock is granted,
the block passes the bitmap and header checks and `gfs_inode_get` with `CREATE`
yields `ip`: the path that falls into `out` after the cache-miss count. -/
def materialised (bo : ByteOrder) (k : ondisk_consts) (w : export_world)
    (sdp : gfs_sbd) (cookie : inode_cookie) (ip : gfs_inode) : Prop :=
  ¬ cookie_rejected sdp cookie ∧
  w.glock_nq_num cookie.formal_ino = 0 ∧
  w.inode_get_nocreate ⟨cookie.formal_ino, cookie.formal_ino⟩ = (0, none) ∧
  w.rindex_hold = 0 ∧
  (∃ rgd, w.blk2rgrpd cookie.formal_ino = some rgd ∧
    w.glock_nq_init rgd = 0 ∧
    w.get_block_type rgd cookie.formal_ino = k.GFS_BLKST_USEDMETA) ∧
  (w.dread cookie.formal_ino).1 = 0 ∧
  ¬ dinode_header_mismatch bo k (w.dread cookie.formal_ino).2 ∧
  w.inode_get_create ⟨cookie.formal_ino, cookie.formal_ino⟩ = (0, ip)

/-- The backing block of the cookie has been reallocated: the bitmap of its
resource group does not say used-metadata, or the block read there is not a
dinode in use. -/
def block_reallocated (bo : ByteOrder) (k : ondisk_consts) (w : export_world)
    (cookie : inode_cookie) : Prop :=
  (∀ rgd, w.blk2rgrpd cookie.formal_ino = some rgd →
    w.get_block_type rgd cookie.formal_ino ≠ k.GFS_BLKST_USEDMETA) ∨
  dinode_header_mismatch bo k (w.dread cookie.formal_ino).2

/-! ## Hidden-file ioctls of `ioctl.c`

The hidden files are the journal index, the resource index, the quota file and
the license file. `sizeof(struct gfs_dinode)` and the macro `gfs_is_jdata` come
from headers that are not part of the sources at hand: the size is a field of
the world record and the macro is one of its collaborators. -/

/-- Length of the name buffers of `ioctl.c`. -/
def ARG_SIZE : Nat := 32

/-- The fields of `struct gfs_ioctl` read by the hidden-file ioctls. A string
of user space is the list of its characters, or `none` when reading it faults;
`gi_argv` gives the string behind each of the `gi_argc` pointers. -/
structure gfs_ioctl where
  gi_argc : Nat
  gi_argv : Nat → Option (List Char)
  gi_size : Nat
  gi_offset : Nat

/-- The collaborator calls of the hidden-file ioctls, in the order they are
made. A call that can fail carries the error it returned; `trans_begin` also
carries the two sizes it was called with. -/
inductive hfile_event where
  | gi2hip : hfile_event
  | access_ok : hfile_event
  | kmalloc : hfile_event
  | kfree : hfile_event
  | write_calc_reserv : hfile_event
  | glock_nq_init (error : Int) : hfile_event
  | glock_dq_uninit : hfile_event
  | memcpy_dinode : hfile_event
  | copy_to_user : hfile_event
  | readi : hfile_event
  | consist_inode : hfile_event
  | write_alloc_required (error : Int) : hfile_event
  | alloc_get : hfile_event
  | quota_hold_m (error : Int) : hfile_event
  | set_al_requested_meta (blocks : Nat) : hfile_event
  | inplace_reserve (error : Int) : hfile_event
  | trans_begin (blocks revokes : Nat) (error : Int) : hfile_event
  | writei : hfile_event
  | trans_end : hfile_event
  | assert_warn (ok : Bool) : hfile_event
  | inplace_release : hfile_event
  | quota_unhold_m : hfile_event
  | alloc_put : hfile_event
  | gl_vn_inc : hfile_event
  | truncatei : hfile_event
deriving DecidableEq, Repr

/-- The outcomes of the collaborators of the hidden-file ioctls in one system
state; `σ` is the state of the objects on disk, which only `gfs_writei` and
`gfs_truncatei` change. `capable_sys_admin` is `capable(CAP_SYS_ADMIN)`,
`write_calc_reserv` yields `(data_blocks, ind_blocks)`, `write_alloc_required`
yields the error and `alloc_required`, `ri_length` is
`al->al_rgd->rd_ri.ri_length` after `gfs_inplace_reserve`, and `al_alloced_meta`
is the field of that name after `gfs_writei`. -/
structure hfile_world (σ : Type) where
  capable_sys_admin : Bool
  sizeof_gfs_dinode : Nat
  access_ok : Nat → Bool
  kmalloc : Bool
  copy_to_user_fails : Bool
  glock_nq_init : gfs_inode → Int
  gfs_is_jdata : gfs_inode → Bool
  readi : σ → gfs_inode → Nat → Nat → Int
  write_calc_reserv : gfs_inode → Nat → Nat × Nat
  write_alloc_required : gfs_inode → Nat → Nat → Int × Int
  quota_hold_m : gfs_inode → Int
  inplace_reserve : gfs_inode → Int
  ri_length : gfs_inode → Nat
  trans_begin : Nat → Nat → Int
  writei : σ → gfs_inode → Nat → Nat → Int × σ
  al_alloced_meta : gfs_inode → Nat
  truncatei : σ → gfs_inode → Nat → Int × σ

/-- What a hidden-file ioctl leaves behind: the value returned, the state of
the objects on disk and the calls made. -/
structure hfile_result (σ : Type) where
  ret : Int
  fs : σ
  trace : List hfile_event

/-- The function `gi2hip`: the hidden inode named by the second argument, or
the error of the `ERR_PTR` returned. The name is cut to `ARG_SIZE - 1`
characters before it is compared. -/
def gi2hip (sdp : gfs_sbd) (gi : gfs_ioctl) : Except Int gfs_inode :=
  if gi.gi_argc ≠ 2 then Except.error (-EINVAL) else
  match gi.gi_argv 1 with
  | none => Except.error (-EFAULT)
  | some s =>
    let buf := s.take (ARG_SIZE - 1)
    if buf = "jindex".toList then Except.ok sdp.sd_jiinode
    else if buf = "rindex".toList then Except.ok sdp.sd_riinode
    else if buf = "quota".toList then Except.ok sdp.sd_qinode
    else if buf = "license".toList then Except.ok sdp.sd_linode
    else Except.error (-EINVAL)

/-- The function `gi_get_hfile_stat`. -/
def gi_get_hfile_stat {σ : Type} (w : hfile_world σ) (sdp : gfs_sbd) (gi : gfs_ioctl)
    (fs : σ) : hfile_result σ :=
  let tr := [hfile_event.gi2hip]
  match gi2hip sdp gi with
  | Except.error e => ⟨e, fs, tr⟩
  | Except.ok ip =>
    if gi.gi_size ≠ w.sizeof_gfs_dinode then ⟨-EINVAL, fs, tr⟩ else
    let tr := tr ++ [hfile_event.kmalloc]
    if w.kmalloc = false then ⟨-ENOMEM, fs, tr⟩ else
    let error := w.glock_nq_init ip
    let tr := tr ++ [hfile_event.glock_nq_init error]
    if error ≠ 0 then ⟨error, fs, tr ++ [hfile_event.kfree]⟩ else
    let tr := tr ++ [hfile_event.memcpy_dinode, hfile_event.glock_dq_uninit,
                     hfile_event.copy_to_user]
    let error : Int := if w.copy_to_user_fails then -EFAULT else w.sizeof_gfs_dinode
    ⟨error, fs, tr ++ [hfile_event.kfree]⟩

/-- The function `gi_do_hfile_read`. -/
def gi_do_hfile_read {σ : Type} (w : hfile_world σ) (sdp : gfs_sbd) (gi : gfs_ioctl)
    (fs : σ) : hfile_result σ :=
  if w.capable_sys_admin = false then ⟨-EACCES, fs, []⟩ else
  let tr := [hfile_event.gi2hip]
  match gi2hip sdp gi with
  | Except.error e => ⟨e, fs, tr⟩
  | Except.ok ip =>
    let tr := tr ++ [hfile_event.access_ok]
    if w.access_ok gi.gi_size = false then ⟨-EFAULT, fs, tr⟩ else
    let error := w.glock_nq_init ip
    let tr := tr ++ [hfile_event.glock_nq_init error]
    if error ≠ 0 then ⟨error, fs, tr⟩ else
    let error := w.readi fs ip gi.gi_offset gi.gi_size
    ⟨error, fs, tr ++ [hfile_event.readi, hfile_event.glock_dq_uninit]⟩

/-- The label `out` of `gi_do_hfile_write`. -/
def hfile_write_out {σ : Type} (fs : σ) (tr : List hfile_event) (error : Int) :
    hfile_result σ :=
  ⟨error, fs, tr ++ [hfile_event.gl_vn_inc, hfile_event.glock_dq_uninit]⟩

/-- The label `out_alloc` of `gi_do_hfile_write`. -/
def hfile_write_out_alloc {σ : Type} (alloc_required : Int) (fs : σ)
    (tr : List hfile_event) (error : Int) : hfile_result σ :=
  let tr := if alloc_required ≠ 0 then tr ++ [hfile_event.alloc_put] else tr
  hfile_write_out fs tr error

/-- The label `out_qs` of `gi_do_hfile_write`. -/
def hfile_write_out_qs {σ : Type} (alloc_required : Int) (fs : σ)
    (tr : List hfile_event) (error : Int) : hfile_result σ :=
  let tr := if alloc_required ≠ 0 then tr ++ [hfile_event.quota_unhold_m] else tr
  hfile_write_out_alloc alloc_required fs tr error

/-- The label `out_relse` of `gi_do_hfile_write`. -/
def hfile_write_out_relse {σ : Type} (w : hfile_world σ) (ip : gfs_inode)
    (alloc_required : Int) (fs : σ) (tr : List hfile_event) (error : Int) :
    hfile_result σ :=
  let tr := if alloc_required ≠ 0 then
      tr ++ [hfile_event.assert_warn (decide (error ≠ 0 ∨ w.al_alloced_meta ip ≠ 0)),
             hfile_event.inplace_release]
    else tr
  hfile_write_out_qs alloc_required fs tr error

/-- The function `gi_do_hfile_write`. The block counts are `unsigned int`. -/
def gi_do_hfile_write {σ : Type} (w : hfile_world σ) (sdp : gfs_sbd) (gi : gfs_ioctl)
    (fs : σ) : hfile_result σ :=
  if w.capable_sys_admin = false then ⟨-EACCES, fs, []⟩ else
  let tr := [hfile_event.gi2hip]
  match gi2hip sdp gi with
  | Except.error e => ⟨e, fs, tr⟩
  | Except.ok ip =>
    let tr := tr ++ [hfile_event.access_ok]
    if w.access_ok gi.gi_size = false then ⟨-EFAULT, fs, tr⟩ else
    let data_blocks := u32 (w.write_calc_reserv ip gi.gi_size).1
    let ind_blocks := u32 (w.write_calc_reserv ip gi.gi_size).2
    let tr := tr ++ [hfile_event.write_calc_reserv]
    let error := w.glock_nq_init ip
    let tr := tr ++ [hfile_event.glock_nq_init error]
    if error ≠ 0 then ⟨error, fs, tr⟩ else
    if w.gfs_is_jdata ip = false then
      hfile_write_out fs (tr ++ [hfile_event.consist_inode]) (- EIO)
    else
    let error := (w.write_alloc_required ip gi.gi_offset gi.gi_size).1
    let alloc_required := (w.write_alloc_required ip gi.gi_offset gi.gi_size).2
    let tr := tr ++ [hfile_event.write_alloc_required error]
    if error ≠ 0 then hfile_write_out fs tr error else
    if alloc_required ≠ 0 then
      let tr := tr ++ [hfile_event.alloc_get]
      let error := w.quota_hold_m ip
      let tr := tr ++ [hfile_event.quota_hold_m error]
      if error ≠ 0 then hfile_write_out_alloc alloc_required fs tr error else
      let tr := tr ++ [hfile_event.set_al_requested_meta (u32 (ind_blocks + data_blocks))]
      let error := w.inplace_reserve ip
      let tr := tr ++ [hfile_event.inplace_reserve error]
      if error ≠ 0 then hfile_write_out_qs alloc_required fs tr error else
      let blocks := u32 (1 + u32 (w.ri_length ip) + ind_blocks + data_blocks)
      let error := w.trans_begin blocks 1
      let tr := tr ++ [hfile_event.trans_begin blocks 1 error]
      if error ≠ 0 then hfile_write_out_relse w ip alloc_required fs tr error else
      let error := (w.writei fs ip gi.gi_offset gi.gi_size).1
      let fs := (w.writei fs ip gi.gi_offset gi.gi_size).2
      let tr := tr ++ [hfile_event.writei, hfile_event.trans_end]
      hfile_write_out_relse w ip alloc_required fs tr error
    else
      let blocks := u32 (1 + data_blocks)
      let error := w.trans_begin blocks 0
      let tr := tr ++ [hfile_event.trans_begin blocks 0 error]
      if error ≠ 0 then hfile_write_out_relse w ip alloc_required fs tr error else
      let error := (w.writei fs ip gi.gi_offset gi.gi_size).1
      let fs := (w.writei fs ip gi.gi_offset gi.gi_size).2
      let tr := tr ++ [hfile_event.writei, hfile_event.trans_end]
      hfile_write_out_relse w ip alloc_required fs tr error

/-- The function `gi_do_hfile_trunc`. -/
def gi_do_hfile_trunc {σ : Type} (w : hfile_world σ) (sdp : gfs_sbd) (gi : gfs_ioctl)
    (fs : σ) : hfile_result σ :=
  if w.capable_sys_admin = false then ⟨-EACCES, fs, []⟩ else
  let tr := [hfile_event.gi2hip]
  match gi2hip sdp gi with
  | Except.error e => ⟨e, fs, tr⟩
  | Except.ok ip =>
    let error := w.glock_nq_init ip
    let tr := tr ++ [hfile_event.glock_nq_init error]
    if error ≠ 0 then ⟨error, fs, tr⟩ else
    let error := (w.truncatei fs ip gi.gi_offset).1
    let fs := (w.truncatei fs ip gi.gi_offset).2
    ⟨error, fs, tr ++ [hfile_event.truncatei, hfile_event.gl_vn_inc,
                       hfile_event.glock_dq_uninit]⟩

/-! ## The calling process and the in-core dinode

`acl.c` and `gi_set_file_flag` read the credentials of `current` and the
in-core dinode `ip->i_di`. The file types, the dinode flags, the names of the
ACL attributes and the attribute type are constants of `gfs_ondisk.h`, `acl.h`
and `eattr.h`, which are not part of the sources at hand; they are
parameters. -/

/-- What the code reads of `current`: `current->fsuid`, `capable(CAP_FOWNER)`,
`capable(CAP_LINUX_IMMUTABLE)` and `current->fs->umask`. -/
structure task where
  fsuid : Nat
  cap_fowner : Bool
  cap_linux_immutable : Bool
  umask : Nat
deriving DecidableEq, Repr

/-- The fields of the in-core dinode `ip->i_di` read by `acl.c` and
`gi_set_file_flag`, in CPU byte order. -/
structure incore_dinode where
  di_uid : Nat
  di_type : Nat
  di_size : Nat
  di_flags : Nat
  di_eattr : Nat
deriving DecidableEq, Repr

/-- Bitwise complement of a 32-bit value. -/
def not32 (x : Nat) : Nat := 0xFFFFFFFF ^^^ u32 x

/-! ## `gi_set_file_flag` -/

/-- The constants of `gfs_ondisk.h` used by `gi_set_file_flag`. -/
structure flag_consts where
  GFS_FILE_REG : Nat
  GFS_FILE_DIR : Nat
  GFS_DIF_JDATA : Nat
  GFS_DIF_DIRECTIO : Nat
  GFS_DIF_IMMUTABLE : Nat
  GFS_DIF_APPENDONLY : Nat
  GFS_DIF_INHERIT_JDATA : Nat
  GFS_DIF_INHERIT_DIRECTIO : Nat
deriving DecidableEq, Repr

/-- The collaborator calls of `gi_set_file_flag`, in the order they are made. -/
inductive flag_event where
  | glock_nq_init (error : Int) : flag_event
  | trans_begin (blocks revokes : Nat) (error : Int) : flag_event
  | get_inode_buffer (error : Int) : flag_event
  | trans_add_bh : flag_event
  | dinode_out : flag_event
  | brelse : flag_event
  | trans_end : flag_event
  | glock_dq_uninit : flag_event
deriving DecidableEq, Repr

/-- The outcomes of the collaborators of `gi_set_file_flag` in one system state. -/
structure flag_world where
  glock_nq_init : Int
  trans_begin : Nat → Nat → Int
  get_inode_buffer : Int

/-- What `gi_set_file_flag` leaves behind: the value returned, the in-core
dinode and the calls made. -/
structure flag_result where
  ret : Int
  i_di : incore_dinode
  trace : List flag_event
deriving DecidableEq, Repr

/-- The label `out` of `gi_set_file_flag`. -/
def set_file_flag_out (i_di : incore_dinode) (tr : List flag_event) (error : Int) :
    flag_result :=
  ⟨error, i_di, tr ++ [flag_event.glock_dq_uninit]⟩

/-- The label `out_trans_end` of `gi_set_file_flag`. -/
def set_file_flag_out_trans_end (i_di : incore_dinode) (tr : List flag_event)
    (error : Int) : flag_result :=
  set_file_flag_out i_di (tr ++ [flag_event.trans_end]) error

/-- The chain of `strcmp` tests of `gi_set_file_flag`: the flag named by `buf`,
or the error with which the function jumps to `out`; `error` is `-EINVAL` when
the chain is entered. -/
def set_file_flag_select (k : flag_consts) (cur : task) (i_di : incore_dinode)
    (buf : List Char) : Except Int Nat :=
  if buf = "jdata".toList then
    if i_di.di_type ≠ k.GFS_FILE_REG ∨ i_di.di_size ≠ 0 then Except.error (-EINVAL)
    else Except.ok k.GFS_DIF_JDATA
  else if buf = "directio".toList then
    if i_di.di_type ≠ k.GFS_FILE_REG then Except.error (-EINVAL)
    else Except.ok k.GFS_DIF_DIRECTIO
  else if buf = "immutable".toList then
    if cur.cap_linux_immutable = false then Except.error (-EPERM)
    else Except.ok k.GFS_DIF_IMMUTABLE
  else if buf = "appendonly".toList then
    if cur.cap_linux_immutable = false then Except.error (-EPERM)
    else Except.ok k.GFS_DIF_APPENDONLY
  else if buf = "inherit_jdata".toList then
    if i_di.di_type ≠ k.GFS_FILE_DIR then Except.error (-EINVAL)
    else Except.ok k.GFS_DIF_INHERIT_JDATA
  else if buf = "inherit_directio".toList then
    if i_di.di_type ≠ k.GFS_FILE_DIR then Except.error (-EINVAL)
    else Except.ok k.GFS_DIF_INHERIT_DIRECTIO
  else Except.error (-EINVAL)

/-- The function `gi_set_file_flag`; `i_di` is `ip->i_di`. -/
def gi_set_file_flag (k : flag_consts) (w : flag_world) (cur : task)
    (i_di : incore_dinode) (gi : gfs_ioctl) : flag_result :=
  if gi.gi_argc ≠ 3 then ⟨-EINVAL, i_di, []⟩ else
  match gi.gi_argv 1 with
  | none => ⟨-EFAULT, i_di, []⟩
  | some s1 =>
    let buf := s1.take (ARG_SIZE - 1)
    if buf ≠ "set".toList ∧ buf ≠ "clear".toList then ⟨-EINVAL, i_di, []⟩ else
    let set : Int := if buf = "set".toList then TRUE else FALSE
    match gi.gi_argv 2 with
    | none => ⟨-EFAULT, i_di, []⟩
    | some s2 =>
      let buf := s2.take (ARG_SIZE - 1)
      let error := w.glock_nq_init
      let tr := [flag_event.glock_nq_init error]
      if error ≠ 0 then ⟨error, i_di, tr⟩ else
      if i_di.di_uid ≠ cur.fsuid ∧ cur.cap_fowner = false then
        set_file_flag_out i_di tr (-EACCES)
      else
      match set_file_flag_select k cur i_di buf with
      | Except.error e => set_file_flag_out i_di tr e
      | Except.ok flag =>
        let error := w.trans_begin 1 0
        let tr := tr ++ [flag_event.trans_begin 1 0 error]
        if error ≠ 0 then set_file_flag_out i_di tr error else
        let error := w.get_inode_buffer
        let tr := tr ++ [flag_event.get_inode_buffer error]
        if error ≠ 0 then set_file_flag_out_trans_end i_di tr error else
        let i_di := if set ≠ 0 then
            { i_di with di_flags := u32 (i_di.di_flags ||| u32 flag) }
          else
            { i_di with di_flags := u32 (i_di.di_flags &&& not32 flag) }
        let tr := tr ++ [flag_event.trans_add_bh, flag_event.dinode_out, flag_event.brelse]
        set_file_flag_out_trans_end i_di tr error

/-! ## `acl.c` -/

/-- The constants of `gfs_ondisk.h`, `acl.h` and `eattr.h` used by `acl.c`. -/
structure acl_consts where
  GFS_FILE_DIR : Nat
  GFS_FILE_LNK : Nat
  GFS_POSIX_ACL_ACCESS : List Char
  GFS_POSIX_ACL_ACCESS_LEN : Nat
  GFS_POSIX_ACL_DEFAULT : List Char
  GFS_POSIX_ACL_DEFAULT_LEN : Nat
  GFS_EATYPE_SYS : Nat
deriving DecidableEq, Repr

/-- The fields of `struct gfs_inode` read by `acl.c`: the mount argument
`i_sbd->sd_args.ar_posix_acls`, the journal block size `i_sbd->sd_jbsize` and
the in-core dinode. -/
structure acl_inode where
  ar_posix_acls : Int
  sd_jbsize : Nat
  i_di : incore_dinode
deriving DecidableEq, Repr

/-- An entry of a `struct posix_acl`. -/
structure posix_acl_entry where
  e_tag : Nat
  e_perm : Nat
  e_id : Nat
deriving DecidableEq, Repr

/-- The kernel's `struct posix_acl`. -/
structure posix_acl where
  a_count : Nat
  a_entries : List posix_acl_entry
deriving DecidableEq, Repr

/-- A value of type `struct posix_acl *`. -/
inductive acl_ptr where
  | NULL : acl_ptr
  | ERR_PTR (e : Int) : acl_ptr
  | ptr (acl : posix_acl) : acl_ptr
deriving DecidableEq, Repr

/-- The fields of `struct gfs_ea_request` set by `acl.c`; a pointer is `none`
when it is `NULL`. -/
structure gfs_ea_request where
  er_name : Option (List Char)
  er_name_len : Nat
  er_type : Nat
  er_data : Option (List Nat)
  er_data_len : Nat
deriving DecidableEq, Repr

/-- An attribute record found by `gfs_ea_find`; `ea_data_len` is what the macro
`GFS_EA_DATA_LEN` yields for it. -/
structure gfs_ea_header where
  ea_data_len : Nat
deriving DecidableEq, Repr

/-- The `struct gfs_ea_location`; `el_ea` is `none` when the pointer is `NULL`. -/
structure gfs_ea_location where
  el_ea : Option gfs_ea_header
deriving DecidableEq, Repr

/-- The request after `memset(&er, 0, sizeof(struct gfs_ea_request))`. -/
def ea_request_zero : gfs_ea_request := ⟨none, 0, 0, none, 0⟩

/-- The collaborator calls of `acl.c`, in the order they are made. A call that
can fail carries the error it returned; the attribute calls carry their
request. -/
inductive acl_event where
  | ea_find (er : gfs_ea_request) (error : Int) : acl_event
  | kmalloc : acl_event
  | ea_get_copy (error : Int) : acl_event
  | posix_acl_from_xattr : acl_event
  | kfree : acl_event
  | brelse : acl_event
  | posix_acl_valid (error : Int) : acl_event
  | posix_acl_equiv_mode (error : Int) : acl_event
  | posix_acl_release : acl_event
  | posix_acl_clone : acl_event
  | posix_acl_create_masq (error : Int) : acl_event
  | ea_check_size (er : gfs_ea_request) (error : Int) : acl_event
  | posix_acl_to_xattr : acl_event
deriving DecidableEq, Repr

/-- The outcomes of the collaborators of `acl.c` in one system state.
`ea_get_copy` yields the error and the bytes copied; `posix_acl_equiv_mode`
yields its return value and what it leaves in `*mode_p`;
`posix_acl_create_masq` yields its return value, the ACL as it leaves it and
what it leaves in `*mode_p`; `kmalloc` tells whether an allocation of the given
size succeeds. -/
structure acl_world where
  ea_find : acl_inode → gfs_ea_request → Int × gfs_ea_location
  kmalloc : Nat → Bool
  ea_get_copy : acl_inode → gfs_ea_location → Int × List Nat
  posix_acl_from_xattr : List Nat → Nat → acl_ptr
  posix_acl_valid : posix_acl → Int
  posix_acl_equiv_mode : posix_acl → Nat → Int × Nat
  posix_acl_clone : posix_acl → Option posix_acl
  posix_acl_create_masq : posix_acl → Nat → Int × posix_acl × Nat
  posix_acl_xattr_size : Nat → Nat
  ea_check_size : gfs_ea_request → Int
  posix_acl_to_xattr : posix_acl → Nat → List Nat

/-- The function `gfs_acl_validate_remove`. -/
def gfs_acl_validate_remove (k : acl_consts) (cur : task) (ip : acl_inode)
    (access : Int) : Int :=
  if ip.ar_posix_acls = 0 then -EOPNOTSUPP
  else if cur.fsuid ≠ ip.i_di.di_uid ∧ cur.cap_fowner = false then -EPERM
  else if ip.i_di.di_type = k.GFS_FILE_LNK then -EOPNOTSUPP
  else if access = 0 ∧ ip.i_di.di_type ≠ k.GFS_FILE_DIR then -EACCES
  else 0

/-- What `gfs_acl_validate_set` leaves behind: the value returned, `*mode`,
`*remove` and the calls made. -/
structure validate_set_result where
  ret : Int
  mode : Nat
  remove : Int
  trace : List acl_event
deriving DecidableEq, Repr

/-- The function `gfs_acl_validate_set`; `mode` and `remove` are `*mode` and
`*remove` on entry. The result is `none` when `posix_acl_from_xattr` returns
`NULL`, which `posix_acl_valid` then dereferences. -/
def gfs_acl_validate_set (k : acl_consts) (w : acl_world) (cur : task) (ip : acl_inode)
    (access : Int) (er : gfs_ea_request) (mode : Nat) (remove : Int) :
    Option validate_set_result :=
  let error := gfs_acl_validate_remove k cur ip access
  if error ≠ 0 then some ⟨error, mode, remove, []⟩ else
  match er.er_data with
  | none => some ⟨-EINVAL, mode, remove, []⟩
  | some data =>
    let tr := [acl_event.posix_acl_from_xattr]
    match w.posix_acl_from_xattr data er.er_data_len with
    | acl_ptr.ERR_PTR e => some ⟨e, mode, remove, tr⟩
    | acl_ptr.NULL => none
    | acl_ptr.ptr acl =>
      let error := w.posix_acl_valid acl
      let tr := tr ++ [acl_event.posix_acl_valid error]
      if error ≠ 0 then some ⟨error, mode, remove, tr ++ [acl_event.posix_acl_release]⟩ else
      if access ≠ 0 then
        let error := (w.posix_acl_equiv_mode acl mode).1
        let mode := (w.posix_acl_equiv_mode acl mode).2
        let tr := tr ++ [acl_event.posix_acl_equiv_mode error, acl_event.posix_acl_release]
        if error < 0 then some ⟨error, mode, remove, tr⟩ else
        let remove := if error = 0 then TRUE else remove
        some ⟨0, mode, remove, tr⟩
      else
        some ⟨0, mode, remove, tr⟩

/-- What `gfs_acl_get` leaves behind: the value returned, `*acl` and the calls
made. -/
structure acl_get_result where
  ret : Int
  acl : acl_ptr
  trace : List acl_event
deriving DecidableEq, Repr

/-- The request that `gfs_acl_get` builds for the kind asked for. -/
def acl_get_request (k : acl_consts) (access : Int) : gfs_ea_request :=
  let er := ea_request_zero
  let er := if access ≠ 0 then
      { er with er_name := some k.GFS_POSIX_ACL_ACCESS,
                er_name_len := k.GFS_POSIX_ACL_ACCESS_LEN }
    else
      { er with er_name := some k.GFS_POSIX_ACL_DEFAULT,
                er_name_len := k.GFS_POSIX_ACL_DEFAULT_LEN }
  { er with er_type := k.GFS_EATYPE_SYS }

/-- The function `gfs_acl_get`; `acl` is `*acl` on entry. -/
def gfs_acl_get (k : acl_consts) (w : acl_world) (ip : acl_inode) (access : Int)
    (acl : acl_ptr) : acl_get_result :=
  if ip.i_di.di_eattr = 0 then ⟨0, acl, []⟩ else
  let er := acl_get_request k access
  let error := (w.ea_find ip er).1
  let el := (w.ea_find ip er).2
  let tr := [acl_event.ea_find er error]
  if error ≠ 0 then ⟨error, acl, tr⟩ else
  match el.el_ea with
  | none => ⟨0, acl, tr⟩
  | some ea =>
    if ea.ea_data_len = 0 then ⟨error, acl, tr ++ [acl_event.brelse]⟩ else
    let tr := tr ++ [acl_event.kmalloc]
    if w.kmalloc ea.ea_data_len = false then ⟨-ENOMEM, acl, tr ++ [acl_event.brelse]⟩ else
    let error := (w.ea_get_copy ip el).1
    let data := (w.ea_get_copy ip el).2
    let tr := tr ++ [acl_event.ea_get_copy error]
    if error ≠ 0 then ⟨error, acl, tr ++ [acl_event.kfree, acl_event.brelse]⟩ else
    let acl := w.posix_acl_from_xattr data ea.ea_data_len
    let error := match acl with
      | acl_ptr.ERR_PTR e => e
      | _ => error
    ⟨error, acl, tr ++ [acl_event.posix_acl_from_xattr, acl_event.kfree, acl_event.brelse]⟩

/-- Modelled from the spec: the macro `DIV_RU` of `gfs.h`, which is not part of
the sources at hand: division rounded up to whole journal blocks, computed in
`unsigned int` as `(x + y - 1) / y`. -/
def DIV_RU (x y : Nat) : Nat := u32 (x + y + (2 ^ 32 - 1)) / y

/-- The variables of its caller that `gfs_acl_new_prep` writes through
pointers: `*mode`, `*a_data`, `*d_data`, `*size` and `*blocks`; a data pointer
is `none` when it is `NULL`, else the bytes it points to. -/
structure new_prep_vars where
  mode : Nat
  a_data : Option (List Nat)
  d_data : Option (List Nat)
  size : Nat
  blocks : Nat
deriving DecidableEq, Repr

/-- What `gfs_acl_new_prep` leaves behind. -/
structure new_prep_result where
  ret : Int
  vars : new_prep_vars
  trace : List acl_event
deriving DecidableEq, Repr

/-- The request that `gfs_acl_new_prep` builds for `gfs_ea_check_size`: all
zero but for the length of the name and the length `s` of the data. -/
def new_prep_request (k : acl_consts) (s : Nat) : gfs_ea_request :=
  { ea_request_zero with er_name_len := k.GFS_POSIX_ACL_DEFAULT_LEN, er_data_len := s }

/-- The label `out` of `gfs_acl_new_prep`. -/
def new_prep_out (vars : new_prep_vars) (tr : List acl_event) (error : Int) :
    new_prep_result :=
  ⟨error, vars, tr ++ [acl_event.posix_acl_release]⟩

/-- The function `gfs_acl_new_prep`; `vars` holds the variables of the caller
on entry. After `gfs_acl_get` has returned 0 its `*acl` is `NULL` or a valid
pointer, so the case of an error pointer is not reached. -/
def gfs_acl_new_prep (k : acl_consts) (w : acl_world) (cur : task) (dip : acl_inode)
    (type : Nat) (vars : new_prep_vars) : new_prep_result :=
  if dip.ar_posix_acls = 0 then ⟨0, vars, []⟩ else
  if type = k.GFS_FILE_LNK then ⟨0, vars, []⟩ else
  let g := gfs_acl_get k w dip FALSE acl_ptr.NULL
  let tr := g.trace
  if g.ret ≠ 0 then ⟨g.ret, vars, tr⟩ else
  match g.acl with
  | acl_ptr.NULL => ⟨0, { vars with mode := u32 (vars.mode &&& not32 cur.umask) }, tr⟩
  | acl_ptr.ERR_PTR e => ⟨e, vars, tr⟩
  | acl_ptr.ptr acl =>
    let tr := tr ++ [acl_event.posix_acl_clone]
    match w.posix_acl_clone acl with
    | none => new_prep_out vars tr (-ENOMEM)
    | some clone =>
      let tr := tr ++ [acl_event.posix_acl_release]
      let acl := clone
      let masq := w.posix_acl_create_masq acl vars.mode
      let error := masq.1
      let acl := masq.2.1
      let vars := { vars with mode := masq.2.2 }
      let tr := tr ++ [acl_event.posix_acl_create_masq error]
      if error < 0 then new_prep_out vars tr error else
      let set_a : Int := if error > 0 then TRUE else FALSE
      let error : Int := if error > 0 then 0 else error
      let set_d : Int := if type = k.GFS_FILE_DIR then TRUE else FALSE
      if set_a ≠ 0 ∨ set_d ≠ 0 then
        let s := u32 (w.posix_acl_xattr_size acl.a_count)
        let er := new_prep_request k s
        let error := w.ea_check_size er
        let tr := tr ++ [acl_event.ea_check_size er error]
        if error ≠ 0 then new_prep_out vars tr error else
        let b := DIV_RU er.er_data_len dip.sd_jbsize
        let b := if set_a ≠ 0 ∧ set_d ≠ 0 then u32 (b * 2) else b
        let b := u32 (b + 1)
        let tr := tr ++ [acl_event.kmalloc]
        if w.kmalloc s = false then new_prep_out vars tr (-ENOMEM) else
        let d := w.posix_acl_to_xattr acl s
        let tr := tr ++ [acl_event.posix_acl_to_xattr]
        let vars := if set_a ≠ 0 then { vars with a_data := some d } else vars
        let vars := if set_d ≠ 0 then { vars with d_data := some d } else vars
        let vars := { vars with size := s, blocks := b }
        new_prep_out vars tr 0
      else
        new_prep_out vars tr error

/-! ## Resources held by `gi_do_hfile_write` -/

/-- The things that `gi_do_hfile_write` acquires and has to give back. -/
inductive hfile_resource where
  | lock : hfile_resource
  | alloc : hfile_resource
  | quota : hfile_resource
  | reservation : hfile_resource
  | transaction : hfile_resource
deriving DecidableEq, Repr

/-- The resource that a call acquires; a call that returned an error acquires
nothing. `gfs_alloc_get` cannot fail. -/
def hfile_acquires : hfile_event → Option hfile_resource
  | hfile_event.glock_nq_init e => if e = 0 then some hfile_resource.lock else none
  | hfile_event.alloc_get => some hfile_resource.alloc
  | hfile_event.quota_hold_m e => if e = 0 then some hfile_resource.quota else none
  | hfile_event.inplace_reserve e => if e = 0 then some hfile_resource.reservation else none
  | hfile_event.trans_begin _ _ e => if e = 0 then some hfile_resource.transaction else none
  | _ => none

/-- The resource that a call releases. -/
def hfile_releases : hfile_event → Option hfile_resource
  | hfile_event.glock_dq_uninit => some hfile_resource.lock
  | hfile_event.alloc_put => some hfile_resource.alloc
  | hfile_event.quota_unhold_m => some hfile_resource.quota
  | hfile_event.inplace_release => some hfile_resource.reservation
  | hfile_event.trans_end => some hfile_resource.transaction
  | _ => none

/-- Runs a trace against the stack of the resources held, most recent first:
an acquisition is pushed, a release has to name the resource on top and pops
it. The result is the stack left at the end, or `none` when some release names
a resource that is not on top. -/
def hfile_held : List hfile_resource → List hfile_event → Option (List hfile_resource)
  | held, [] => some held
  | held, e :: es =>
    match hfile_acquires e with
    | some r => hfile_held (r :: held) es
    | none =>
      match hfile_releases e with
      | none => hfile_held held es
      | some r =>
        match held with
        | [] => none
        | top :: rest => if r = top then hfile_held rest es else none

/-- The sizes of the transactions begun in a trace: blocks and revokes of every
call of `gfs_trans_begin`. -/
def hfile_trans_sizes : List hfile_event → List (Nat × Nat)
  | [] => []
  | hfile_event.trans_begin blocks revokes _ :: es => (blocks, revokes) :: hfile_trans_sizes es
  | _ :: es => hfile_trans_sizes es

/-- The values stored into `al->al_requested_meta` in a trace. -/
def hfile_requested_meta : List hfile_event → List Nat
  | [] => []
  | hfile_event.set_al_requested_meta blocks :: es => blocks :: hfile_requested_meta es
  | _ :: es => hfile_requested_meta es

/-- The calls of a trace that take an allocation context, a quota hold or an
in-place reservation. -/
def hfile_alloc_calls (tr : List hfile_event) : List hfile_event :=
  tr.filter (fun e => match e with
    | hfile_event.alloc_get => true
    | hfile_event.quota_hold_m _ => true
    | hfile_event.inplace_reserve _ => true
    | _ => false)

/-! ## Locks held by `gfs_get_dentry` -/

/-- The things that `gfs_get_dentry` acquires and has to give back: its three
lock holders and the block buffer. -/
inductive export_resource where
  | lock (gh : holder) : export_resource
  | buffer : export_resource
deriving DecidableEq, Repr

/-- The resource that a call of `gfs_get_dentry` acquires; a call that returned
an error acquires nothing. -/
def export_acquires : export_event → Option export_resource
  | export_event.glock_nq_num _ e =>
    if e = 0 then some (export_resource.lock holder.i_gh) else none
  | export_event.rindex_hold e =>
    if e = 0 then some (export_resource.lock holder.ri_gh) else none
  | export_event.glock_nq_init e =>
    if e = 0 then some (export_resource.lock holder.rgd_gh) else none
  | export_event.dread _ e => if e = 0 then some export_resource.buffer else none
  | _ => none

/-- The resource that a call of `gfs_get_dentry` releases. -/
def export_releases : export_event → Option export_resource
  | export_event.glock_dq_uninit gh => some (export_resource.lock gh)
  | export_event.brelse => some export_resource.buffer
  | _ => none

/-- The calls that follow the label `out`: `gfs_iget`, `gfs_inode_put`, `iput`
and `d_alloc_anon`. The generation check lies between them. -/
def export_after_out : export_event → Bool
  | export_event.iget => true
  | export_event.inode_put => true
  | export_event.iput => true
  | export_event.d_alloc_anon => true
  | _ => false

/-- Runs a trace of `gfs_get_dentry` against the stack of the resources held,
most recent first: an acquisition is pushed, a release has to name the resource
on top and pops it, and a call that follows the label `out` has to find the
stack empty. The result is the stack left at the end, or `none` when one of
these rules is broken. -/
def export_held : List export_resource → List export_event → Option (List export_resource)
  | held, [] => some held
  | held, e :: es =>
    if export_after_out e = true ∧ held ≠ [] then none else
    match export_acquires e with
    | some r => export_held (r :: held) es
    | none =>
      match export_releases e with
      | none => export_held held es
      | some r =>
        match held with
        | [] => none
        | top :: rest => if r = top then export_held rest es else none

/-- The calls of a trace that consult the resource index, the region, its
bitmap or the block. -/
def export_region_calls (tr : List export_event) : List export_event :=
  tr.filter (fun e => match e with
    | export_event.rindex_hold _ => true
    | export_event.blk2rgrpd _ => true
    | export_event.glock_nq_init _ => true
    | export_event.get_block_type _ => true
    | export_event.dread _ _ => true
    | _ => false)

/-! ## `handle_roll` -/

/-- The function `handle_roll`: the value returned and the counter afterwards;
`a` is the `int` read from the counter. -/
def handle_roll (a : Int) : Nat × Int :=
  let x := a
  if x < 0 then (0, 0) else (u32 x.toNat, a)

/-! ## The change of mode of an object with an ACL (`acl.c`) -/

/-- The field of `struct iattr` read by `gfs_acl_chmod`. -/
structure iattr where
  ia_mode : Nat
deriving DecidableEq, Repr

/-- The collaborator calls of `gfs_acl_chmod`, in the order they are made. A
call that can fail carries the error it returned; `kmalloc` and
`posix_acl_to_xattr` carry the length they are given, `gfs_ea_acl_chmod` the
bytes it is given. -/
inductive chmod_event where
  | ea_find (er : gfs_ea_request) (error : Int) : chmod_event
  | kmalloc (len : Nat) : chmod_event
  | ea_get_copy (error : Int) : chmod_event
  | posix_acl_from_xattr (len : Nat) : chmod_event
  | posix_acl_chmod_masq (mode : Nat) (error : Int) : chmod_event
  | posix_acl_to_xattr (len : Nat) : chmod_event
  | ea_acl_chmod (data : List Nat) (error : Int) : chmod_event
  | posix_acl_release : chmod_event
  | kfree : chmod_event
  | brelse : chmod_event
  | setattr_simple (error : Int) : chmod_event
deriving DecidableEq, Repr

/-- The outcomes of the collaborators of `gfs_acl_chmod`: those of `acl_world`
and, besides, `posix_acl_chmod_masq`, which yields its return value and the ACL
as it leaves it, `gfs_ea_acl_chmod` and `gfs_setattr_simple`. -/
structure chmod_world extends acl_world where
  posix_acl_chmod_masq : posix_acl → Nat → Int × posix_acl
  ea_acl_chmod : acl_inode → gfs_ea_location → iattr → List Nat → Int
  setattr_simple : acl_inode → iattr → Int

/-- What `gfs_acl_chmod` leaves behind: the value returned and the calls made. -/
structure chmod_result where
  ret : Int
  trace : List chmod_event
deriving DecidableEq, Repr

/-- The request that `gfs_acl_chmod` builds for `gfs_ea_find`. -/
def acl_chmod_request (k : acl_consts) : gfs_ea_request :=
  { ea_request_zero with er_name := some k.GFS_POSIX_ACL_ACCESS,
                         er_name_len := k.GFS_POSIX_ACL_ACCESS_LEN,
                         er_type := k.GFS_EATYPE_SYS }

/-- The label `simple` of `gfs_acl_chmod`. -/
def acl_chmod_simple (w : chmod_world) (ip : acl_inode) (attr : iattr)
    (tr : List chmod_event) : chmod_result :=
  ⟨w.setattr_simple ip attr, tr ++ [chmod_event.setattr_simple (w.setattr_simple ip attr)]⟩

/-- The label `out` of `gfs_acl_chmod`. -/
def acl_chmod_out (tr : List chmod_event) (error : Int) : chmod_result :=
  ⟨error, tr ++ [chmod_event.brelse]⟩

/-- The label `out_kfree` of `gfs_acl_chmod`. -/
def acl_chmod_out_kfree (tr : List chmod_event) (error : Int) : chmod_result :=
  acl_chmod_out (tr ++ [chmod_event.kfree]) error

/-- The label `out_acl` of `gfs_acl_chmod`. -/
def acl_chmod_out_acl (tr : List chmod_event) (error : Int) : chmod_result :=
  acl_chmod_out_kfree (tr ++ [chmod_event.posix_acl_release]) error

/-- The function `gfs_acl_chmod`. The result is `none` where the C code hands
the `NULL` that `posix_acl_from_xattr` returned to `posix_acl_chmod_masq`, which
dereferences it. -/
def gfs_acl_chmod (k : acl_consts) (w : chmod_world) (ip : acl_inode) (attr : iattr) :
    Option chmod_result :=
  if ip.i_di.di_eattr = 0 then some (acl_chmod_simple w ip attr []) else
  let er := acl_chmod_request k
  let error := (w.ea_find ip er).1
  let el := (w.ea_find ip er).2
  let tr := [chmod_event.ea_find er error]
  if error ≠ 0 then some ⟨error, tr⟩ else
  match el.el_ea with
  | none => some (acl_chmod_simple w ip attr tr)
  | some ea =>
    if ea.ea_data_len = 0 then some (acl_chmod_simple w ip attr tr) else
    let tr := tr ++ [chmod_event.kmalloc ea.ea_data_len]
    if w.kmalloc ea.ea_data_len = false then some (acl_chmod_out tr (-ENOMEM)) else
    let error := (w.ea_get_copy ip el).1
    let data := (w.ea_get_copy ip el).2
    let tr := tr ++ [chmod_event.ea_get_copy error]
    if error ≠ 0 then some (acl_chmod_out_kfree tr error) else
    let tr := tr ++ [chmod_event.posix_acl_from_xattr ea.ea_data_len]
    match w.posix_acl_from_xattr data ea.ea_data_len with
    | acl_ptr.ERR_PTR e => some (acl_chmod_out_kfree tr e)
    | acl_ptr.NULL => none
    | acl_ptr.ptr acl =>
      let masq := w.posix_acl_chmod_masq acl attr.ia_mode
      let error := masq.1
      let acl := masq.2
      let tr := tr ++ [chmod_event.posix_acl_chmod_masq attr.ia_mode error]
      if error ≠ 0 then some (acl_chmod_out_acl tr error) else
      let data := w.posix_acl_to_xattr acl ea.ea_data_len
      let tr := tr ++ [chmod_event.posix_acl_to_xattr ea.ea_data_len]
      let error := w.ea_acl_chmod ip el attr data
      let tr := tr ++ [chmod_event.ea_acl_chmod data error]
      some (acl_chmod_out_acl tr error)

/-- No access ACL is stored for the object: it has no attribute store, or the
lookup succeeds and finds no record, or a record without data. -/
def chmod_no_acl (k : acl_consts) (w : chmod_world) (ip : acl_inode) : Prop :=
  ip.i_di.di_eattr = 0 ∨
  ((w.ea_find ip (acl_chmod_request k)).1 = 0 ∧
    ((w.ea_find ip (acl_chmod_request k)).2.el_ea = none ∨
     (w.ea_find ip (acl_chmod_request k)).2.el_ea = some ⟨0⟩))

instance (k : acl_consts) (w : chmod_world) (ip : acl_inode) :
    Decidable (chmod_no_acl k w ip) :=
  inferInstanceAs (Decidable (_ ∨ _))

/-- Whether a call is `gfs_setattr_simple`. -/
def chmod_is_simple : chmod_event → Bool
  | chmod_event.setattr_simple _ => true
  | _ => false

/-- Whether a call works on the ACL: the parse, the masking, the
serialisation or the write to the attribute store. -/
def chmod_is_acl_work : chmod_event → Bool
  | chmod_event.posix_acl_from_xattr _ => true
  | chmod_event.posix_acl_chmod_masq _ _ => true
  | chmod_event.posix_acl_to_xattr _ => true
  | chmod_event.ea_acl_chmod _ _ => true
  | _ => false

/-- Whether a call changes the object: `gfs_ea_acl_chmod` or
`gfs_setattr_simple`. -/
def chmod_is_commit : chmod_event → Bool
  | chmod_event.ea_acl_chmod _ _ => true
  | chmod_event.setattr_simple _ => true
  | _ => false

/-! ## The name of a child in its directory: `gfs_get_name` (`ops_export.c`) -/

/-- The fields of the VFS `struct inode` read by `gfs_get_name`; `ip` is
`vn2ip(inode)`. -/
structure name_inode where
  i_mode : Nat
  ip : gfs_inode
deriving DecidableEq, Repr

/-- The `struct get_name_filldir`: the formal inode number looked for and the
buffer of the caller, a byte for each index. -/
structure struct_get_name_filldir where
  formal_ino : Nat
  name : Nat → Nat

/-- An entry of a directory as the scan hands it to the callback: the bytes of
the name, their number, and the inode number. -/
structure dir_entry where
  name : List Nat
  length : Nat
  inum : gfs_inum
deriving DecidableEq, Repr

/-- The call `memcpy(dst, src, length)` on a buffer of bytes. -/
def memcpy (dst : Nat → Nat) (src : List Nat) (length : Nat) : Nat → Nat :=
  fun i => if i < length then src.getD i 0 else dst i

/-- The callback `get_name_filldir`: the value returned and the `struct
get_name_filldir` behind `opaque` afterwards. -/
def get_name_filldir (gnfd : struct_get_name_filldir) (name : List Nat) (length : Nat)
    (inum : gfs_inum) : Int × struct_get_name_filldir :=
  if inum.no_formal_ino ≠ gnfd.formal_ino then (0, gnfd) else
  let buf := memcpy gnfd.name name length
  let buf := Function.update buf length 0
  (1, { gnfd with name := buf })

/-- The outcomes of the collaborators of `gfs_get_name`: the macro `S_ISDIR`
of the kernel, the result of `gfs_glock_nq_init`, the entries that
`gfs_dir_read` hands to its callback, in order, and the value that
`gfs_dir_read` returns, given whether the callback stopped the scan. -/
structure name_world where
  S_ISDIR : Nat → Bool
  glock_nq_init : Int
  dir_entries : List dir_entry
  dir_read : Bool → Int

/-- Modelled from the spec: the scan of `gfs_dir_read` (`dir.c`, which is not
part of the sources at hand) hands the entries of the directory to the
callback one after the other and stops at the first for which the callback
returns a value other than 0. Yields whether the callback stopped the scan and
the `struct get_name_filldir` afterwards. -/
def dir_scan : List dir_entry → struct_get_name_filldir → Bool × struct_get_name_filldir
  | [], gnfd => (false, gnfd)
  | e :: es, gnfd =>
    let r := get_name_filldir gnfd e.name e.length e.inum
    if r.1 ≠ 0 then (true, r.2) else dir_scan es r.2

/-- Modelled from the spec: `gfs_dir_read` with the callback
`get_name_filldir`: the value returned and the `struct get_name_filldir`
afterwards. -/
def gfs_dir_read (w : name_world) (gnfd : struct_get_name_filldir) :
    Int × struct_get_name_filldir :=
  (w.dir_read (dir_scan w.dir_entries gnfd).1, (dir_scan w.dir_entries gnfd).2)

/-- The operator `!` of C on an `int` or a `char`: 1 for 0, else 0. -/
def c_lnot (x : Int) : Nat := if x = 0 then 1 else 0

/-- The test `!error & !*name` of `gfs_get_name`, with the bitwise operator, as
the `if` reads it. -/
def get_name_test (error : Int) (name0 : Nat) : Bool :=
  (c_lnot error &&& c_lnot (name0 : Int)) ≠ 0

/-- The documented test, after the words of the specification: error code 0
and no name found, that is `!error && !*name` with the logical operator,
which looks at `*name` only if `error` is 0. -/
def get_name_test_documented (error : Int) (name0 : Nat) : Bool :=
  if c_lnot error ≠ 0 then (if c_lnot (name0 : Int) ≠ 0 then true else false) else false

/-- The collaborator calls of `gfs_get_name`, in the order they are made. -/
inductive name_event where
  | glock_nq_init (error : Int) : name_event
  | dir_read (error : Int) : name_event
  | glock_dq_uninit : name_event
deriving DecidableEq, Repr

/-- What `gfs_get_name` leaves behind: the value returned, the buffer `name`,
the counter `sd_ops_export` and the calls made. -/
structure get_name_result where
  ret : Int
  name : Nat → Nat
  sd_ops_export : Int
  trace : List name_event

/-- The function `gfs_get_name`; `dir` is `parent->d_inode`, `inode` is
`child->d_inode`, and `sd_ops_export` is the counter of the file system of
`dir`. -/
def gfs_get_name (w : name_world) (sd_ops_export : Int) (dir : Option name_inode)
    (name : Nat → Nat) (inode : Option name_inode) : get_name_result :=
  match dir with
  | none => ⟨-EINVAL, name, sd_ops_export, []⟩
  | some dir =>
    let sd_ops_export := atomic_inc sd_ops_export
    if w.S_ISDIR dir.i_mode = false then ⟨-EINVAL, name, sd_ops_export, []⟩ else
    match inode with
    | none => ⟨-EINVAL, name, sd_ops_export, []⟩
    | some inode =>
      let ip := inode.ip
      let name := Function.update name 0 0
      let gnfd : struct_get_name_filldir := ⟨ip.i_num.no_formal_ino, name⟩
      let error := w.glock_nq_init
      let tr := [name_event.glock_nq_init error]
      if error ≠ 0 then ⟨error, gnfd.name, sd_ops_export, tr⟩ else
      let error := (gfs_dir_read w gnfd).1
      let gnfd := (gfs_dir_read w gnfd).2
      let tr := tr ++ [name_event.dir_read error]
      let tr := tr ++ [name_event.glock_dq_uninit]
      let error := if get_name_test error (gnfd.name 0) = true then -ENOENT else error
      ⟨error, gnfd.name, sd_ops_export, tr⟩

/-- Whether the lock of the directory is held after a run of calls, starting
from `held`; `none` if the lock is taken while held or released while not
held. -/
def name_lock_held : Bool → List name_event → Option Bool
  | held, [] => some held
  | held, name_event.glock_nq_init e :: tr =>
    if held = true then none else name_lock_held (decide (e = 0)) tr
  | held, name_event.dir_read _ :: tr => name_lock_held held tr
  | held, name_event.glock_dq_uninit :: tr =>
    if held = true then name_lock_held false tr else none

/-! ## The tunable parameters: `gi_set_tune` (`ioctl.c`) -/

/-- The fields of `struct gfs_tune` that `gi_set_tune` writes, each an
`unsigned int`. -/
structure gfs_tune where
  gt_ilimit1 : Nat
  gt_ilimit1_tries : Nat
  gt_ilimit1_min : Nat
  gt_ilimit2 : Nat
  gt_ilimit2_tries : Nat
  gt_ilimit2_min : Nat
  gt_demote_secs : Nat
  gt_incore_log_blocks : Nat
  gt_jindex_refresh_secs : Nat
  gt_depend_secs : Nat
  gt_scand_secs : Nat
  gt_recoverd_secs : Nat
  gt_logd_secs : Nat
  gt_quotad_secs : Nat
  gt_inoded_secs : Nat
  gt_quota_simul_sync : Nat
  gt_quota_warn_period : Nat
  gt_atime_quantum : Nat
  gt_quota_quantum : Nat
  gt_quota_scale_num : Nat
  gt_quota_scale_den : Nat
  gt_quota_enforce : Nat
  gt_quota_account : Nat
  gt_new_files_jdata : Nat
  gt_new_files_directio : Nat
  gt_max_atomic_write : Nat
  gt_max_readahead : Nat
  gt_lockdump_size : Nat
  gt_stall_secs : Nat
  gt_complain_secs : Nat
  gt_reclaim_limit : Nat
  gt_entries_per_readdir : Nat
  gt_prefetch_secs : Nat
  gt_statfs_slots : Nat
  gt_max_mhc : Nat
  gt_greedy_default : Nat
  gt_greedy_quantum : Nat
  gt_greedy_max : Nat
deriving DecidableEq, Repr

/-- The daemons that `gi_set_tune` wakes. -/
inductive tune_daemon where
  | sd_scand_process : tune_daemon
  | sd_recoverd_process : tune_daemon
  | sd_logd_process : tune_daemon
  | sd_quotad_process : tune_daemon
  | sd_inoded_process : tune_daemon
deriving DecidableEq, Repr

/-- The collaborator calls of `gi_set_tune` after the parse, in the order they
are made. -/
inductive tune_event where
  | wake_up_process (p : tune_daemon) : tune_event
  | log_flush : tune_event
  | sync_meta : tune_event
  | quota_sync : tune_event
deriving DecidableEq, Repr

/-- The outcomes of the collaborators of `gi_set_tune`: `capable(CAP_SYS_ADMIN)`,
and what `sscanf` makes of a string: `sscanf_u` is the number stored when
`sscanf(value, "%u", &x)` returns 1, `sscanf_uu` the two numbers stored when
`sscanf(value, "%u %u", &x, &y)` returns 2; each is `none` when `sscanf`
returns another value. -/
structure tune_world where
  capable_sys_admin : Bool
  sscanf_u : List Char → Option Nat
  sscanf_uu : List Char → Option (Nat × Nat)

/-- What `gi_set_tune` leaves behind: the value returned, the tunables and the
calls made. -/
structure tune_result where
  ret : Int
  gt : gfs_tune
  trace : List tune_event
deriving DecidableEq, Repr

/-- The operator `!!` of C on an `unsigned int`. -/
def c_lnot_lnot (x : Nat) : Nat := if x = 0 then 0 else 1

/-- A branch of `gi_set_tune` of the shape `if (sscanf(value, "%u", &x) != 1)
return -EINVAL; tune_set(f, x);`, followed by the calls `after`; `set` is the
assignment to the field. -/
def tune_branch (w : tune_world) (gt : gfs_tune) (value : List Char)
    (set : gfs_tune → Nat → gfs_tune) (after : List tune_event) : tune_result :=
  match w.sscanf_u value with
  | none => ⟨-EINVAL, gt, []⟩
  | some x =>
    let x := u32 x
    ⟨0, set gt x, after⟩

/-- A branch of `gi_set_tune` of the shape `if (sscanf(value, "%u", &x) != 1 ||
!x) return -EINVAL; tune_set(f, x);`. -/
def tune_branch_nonzero (w : tune_world) (gt : gfs_tune) (value : List Char)
    (set : gfs_tune → Nat → gfs_tune) : tune_result :=
  match w.sscanf_u value with
  | none => ⟨-EINVAL, gt, []⟩
  | some x =>
    let x := u32 x
    if x = 0 then ⟨-EINVAL, gt, []⟩ else
    ⟨0, set gt x, []⟩

/-- The branch `quota_scale` of `gi_set_tune`. -/
def tune_branch_quota_scale (w : tune_world) (gt : gfs_tune) (value : List Char) :
    tune_result :=
  match w.sscanf_uu value with
  | none => ⟨-EINVAL, gt, []⟩
  | some (x, y) =>
    let x := u32 x
    let y := u32 y
    if y = 0 then ⟨-EINVAL, gt, []⟩ else
    let gt := { gt with gt_quota_scale_num := x }
    let gt := { gt with gt_quota_scale_den := y }
    ⟨0, gt, []⟩

/-- The branch `quota_enforce` of `gi_set_tune`. -/
def tune_branch_quota_enforce (w : tune_world) (gt : gfs_tune) (value : List Char) :
    tune_result :=
  match w.sscanf_u value with
  | none => ⟨-EINVAL, gt, []⟩
  | some x =>
    let x := c_lnot_lnot (u32 x)
    let gt := { gt with gt_quota_enforce := x }
    let gt := if x ≠ 0 then { gt with gt_quota_account := 1 } else gt
    ⟨0, gt, []⟩

/-- The branch `quota_account` of `gi_set_tune`; the loop runs twice. -/
def tune_branch_quota_account (w : tune_world) (gt : gfs_tune) (value : List Char) :
    tune_result :=
  match w.sscanf_u value with
  | none => ⟨-EINVAL, gt, []⟩
  | some x =>
    let x := c_lnot_lnot (u32 x)
    let gt := { gt with gt_quota_account := x }
    if x ≠ 0 then ⟨0, gt, []⟩ else
    let gt := { gt with gt_quota_enforce := 0 }
    ⟨0, gt, [tune_event.log_flush, tune_event.sync_meta, tune_event.quota_sync,
             tune_event.log_flush, tune_event.sync_meta, tune_event.quota_sync]⟩

/-- The chain of `strcmp` of `gi_set_tune`, on the two strings as copied. -/
def set_tune_param (w : tune_world) (gt : gfs_tune) (param value : List Char) :
    tune_result :=
  if param = "ilimit1".toList then
    tune_branch w gt value (fun gt x => { gt with gt_ilimit1 := x }) []
  else if param = "ilimit1_tries".toList then
    tune_branch w gt value (fun gt x => { gt with gt_ilimit1_tries := x }) []
  else if param = "ilimit1_min".toList then
    tune_branch w gt value (fun gt x => { gt with gt_ilimit1_min := x }) []
  else if param = "ilimit2".toList then
    tune_branch w gt value (fun gt x => { gt with gt_ilimit2 := x }) []
  else if param = "ilimit2_tries".toList then
    tune_branch w gt value (fun gt x => { gt with gt_ilimit2_tries := x }) []
  else if param = "ilimit2_min".toList then
    tune_branch w gt value (fun gt x => { gt with gt_ilimit2_min := x }) []
  else if param = "demote_secs".toList then
    tune_branch w gt value (fun gt x => { gt with gt_demote_secs := x }) []
  else if param = "incore_log_blocks".toList then
    tune_branch w gt value (fun gt x => { gt with gt_incore_log_blocks := x }) []
  else if param = "jindex_refresh_secs".toList then
    tune_branch w gt value (fun gt x => { gt with gt_jindex_refresh_secs := x }) []
  else if param = "depend_secs".toList then
    tune_branch w gt value (fun gt x => { gt with gt_depend_secs := x }) []
  else if param = "scand_secs".toList then
    tune_branch w gt value (fun gt x => { gt with gt_scand_secs := x })
      [tune_event.wake_up_process tune_daemon.sd_scand_process]
  else if param = "recoverd_secs".toList then
    tune_branch w gt value (fun gt x => { gt with gt_recoverd_secs := x })
      [tune_event.wake_up_process tune_daemon.sd_recoverd_process]
  else if param = "logd_secs".toList then
    tune_branch w gt value (fun gt x => { gt with gt_logd_secs := x })
      [tune_event.wake_up_process tune_daemon.sd_logd_process]
  else if param = "quotad_secs".toList then
    tune_branch w gt value (fun gt x => { gt with gt_quotad_secs := x })
      [tune_event.wake_up_process tune_daemon.sd_quotad_process]
  else if param = "inoded_secs".toList then
    tune_branch w gt value (fun gt x => { gt with gt_inoded_secs := x })
      [tune_event.wake_up_process tune_daemon.sd_inoded_process]
  else if param = "quota_simul_sync".toList then
    tune_branch_nonzero w gt value (fun gt x => { gt with gt_quota_simul_sync := x })
  else if param = "quota_warn_period".toList then
    tune_branch w gt value (fun gt x => { gt with gt_quota_warn_period := x }) []
  else if param = "atime_quantum".toList then
    tune_branch w gt value (fun gt x => { gt with gt_atime_quantum := x }) []
  else if param = "quota_quantum".toList then
    tune_branch w gt value (fun gt x => { gt with gt_quota_quantum := x }) []
  else if param = "quota_scale".toList then
    tune_branch_quota_scale w gt value
  else if param = "quota_enforce".toList then
    tune_branch_quota_enforce w gt value
  else if param = "quota_account".toList then
    tune_branch_quota_account w gt value
  else if param = "new_files_jdata".toList then
    tune_branch w gt value (fun gt x => { gt with gt_new_files_jdata := c_lnot_lnot x }) []
  else if param = "new_files_directio".toList then
    tune_branch w gt value (fun gt x => { gt with gt_new_files_directio := c_lnot_lnot x }) []
  else if param = "max_atomic_write".toList then
    tune_branch_nonzero w gt value (fun gt x => { gt with gt_max_atomic_write := x })
  else if param = "max_readahead".toList then
    tune_branch w gt value (fun gt x => { gt with gt_max_readahead := x }) []
  else if param = "lockdump_size".toList then
    tune_branch_nonzero w gt value (fun gt x => { gt with gt_lockdump_size := x })
  else if param = "stall_secs".toList then
    tune_branch_nonzero w gt value (fun gt x => { gt with gt_stall_secs := x })
  else if param = "complain_secs".toList then
    tune_branch w gt value (fun gt x => { gt with gt_complain_secs := x }) []
  else if param = "reclaim_limit".toList then
    tune_branch w gt value (fun gt x => { gt with gt_reclaim_limit := x }) []
  else if param = "entries_per_readdir".toList then
    tune_branch_nonzero w gt value (fun gt x => { gt with gt_entries_per_readdir := x })
  else if param = "prefetch_secs".toList then
    tune_branch w gt value (fun gt x => { gt with gt_prefetch_secs := x }) []
  else if param = "statfs_slots".toList then
    tune_branch_nonzero w gt value (fun gt x => { gt with gt_statfs_slots := x })
  else if param = "max_mhc".toList then
    tune_branch w gt value (fun gt x => { gt with gt_max_mhc := x }) []
  else if param = "greedy_default".toList then
    tune_branch_nonzero w gt value (fun gt x => { gt with gt_greedy_default := x })
  else if param = "greedy_quantum".toList then
    tune_branch_nonzero w gt value (fun gt x => { gt with gt_greedy_quantum := x })
  else if param = "greedy_max".toList then
    tune_branch_nonzero w gt value (fun gt x => { gt with gt_greedy_max := x })
  else ⟨-EINVAL, gt, []⟩

/-- The function `gi_set_tune`; `gt` is `sdp->sd_tune`. Each of the two strings
is cut to `ARG_SIZE - 1` characters. -/
def gi_set_tune (w : tune_world) (gt : gfs_tune) (gi : gfs_ioctl) : tune_result :=
  if w.capable_sys_admin = false then ⟨-EACCES, gt, []⟩ else
  if gi.gi_argc ≠ 3 then ⟨-EINVAL, gt, []⟩ else
  match gi.gi_argv 1 with
  | none => ⟨-EFAULT, gt, []⟩
  | some p =>
    let param := p.take (ARG_SIZE - 1)
    match gi.gi_argv 2 with
    | none => ⟨-EFAULT, gt, []⟩
    | some v =>
      let value := v.take (ARG_SIZE - 1)
      set_tune_param w gt param value

/-- The names that `gi_set_tune` knows, in the order of its chain of
`strcmp`. -/
def tune_names : List (List Char) :=
  ["ilimit1".toList,
   "ilimit1_tries".toList,
   "ilimit1_min".toList,
   "ilimit2".toList,
   "ilimit2_tries".toList,
   "ilimit2_min".toList,
   "demote_secs".toList,
   "incore_log_blocks".toList,
   "jindex_refresh_secs".toList,
   "depend_secs".toList,
   "scand_secs".toList,
   "recoverd_secs".toList,
   "logd_secs".toList,
   "quotad_secs".toList,
   "inoded_secs".toList,
   "quota_simul_sync".toList,
   "quota_warn_period".toList,
   "atime_quantum".toList,
   "quota_quantum".toList,
   "quota_scale".toList,
   "quota_enforce".toList,
   "quota_account".toList,
   "new_files_jdata".toList,
   "new_files_directio".toList,
   "max_atomic_write".toList,
   "max_readahead".toList,
   "lockdump_size".toList,
   "stall_secs".toList,
   "complain_secs".toList,
   "reclaim_limit".toList,
   "entries_per_readdir".toList,
   "prefetch_secs".toList,
   "statfs_slots".toList,
   "max_mhc".toList,
   "greedy_default".toList,
   "greedy_quantum".toList,
   "greedy_max".toList]

/-- The invariant of the tunables: enforcing quotas implies accounting for
them. -/
def tune_invariant (gt : gfs_tune) : Prop :=
  gt.gt_quota_enforce = 1 → gt.gt_quota_account = 1

instance (gt : gfs_tune) : Decidable (tune_invariant gt) :=
  inferInstanceAs (Decidable (_ → _))

/-- The names of the tunables that `gi_set_tune` refuses to set to 0. -/
def tune_names_nonzero : List (List Char) :=
  ["quota_simul_sync".toList, "max_atomic_write".toList, "lockdump_size".toList,
   "stall_secs".toList, "entries_per_readdir".toList, "statfs_slots".toList,
   "greedy_default".toList, "greedy_quantum".toList, "greedy_max".toList]

/-- What a branch of `gi_set_tune` may leave behind: an error `-EINVAL` with
the tunables as they were and no call made, or 0 with quota enforcement off,
quota accounting at 1, or both as they were. -/
def tune_outcome (gt : gfs_tune) (r : tune_result) : Prop :=
  (r.ret = -EINVAL ∧ r.gt = gt ∧ r.trace = []) ∨
  (r.ret = 0 ∧ (r.gt.gt_quota_enforce = 0 ∨ r.gt.gt_quota_account = 1 ∨
    (r.gt.gt_quota_enforce = gt.gt_quota_enforce ∧
     r.gt.gt_quota_account = gt.gt_quota_account)))

/-! ## Concrete states used in the examples -/

/-- A superblock whose hidden inodes have the formal inode numbers 1 to 4. -/
def sbd0 : gfs_sbd :=
  { sd_ops_export := 0, sd_fh2dentry_misses := 0,
    sd_jiinode := ⟨⟨1, 1⟩⟩, sd_riinode := ⟨⟨2, 2⟩⟩,
    sd_qinode := ⟨⟨3, 3⟩⟩, sd_linode := ⟨⟨4, 4⟩⟩ }

/-- A dentry of generation 7 whose parent has generation 1. -/
def dentry0 : dentry :=
  { d_inode := ⟨7, ⟨⟨0x1234567890, 0x1234567890⟩⟩⟩,
    d_parent_inode := ⟨1, ⟨⟨0x55, 0x55⟩⟩⟩ }

/-- A resolver that finds nothing. -/
def no_dentry : inode_cookie → inode_cookie → dentry_ptr := fun _ _ => dentry_ptr.NULL

/-- A token buffer of zero words. -/
def fh_zero : Nat → Nat := fun _ => 0

/-- A choice of the on-disk constants. -/
def consts0 : ondisk_consts :=
  { GFS_MAGIC := 0x01161970, GFS_METATYPE_DI := 4, GFS_DIF_UNUSED := 4,
    GFS_BLKST_USEDMETA := 3 }

/-- A dinode block with a good header. -/
def dinode_good : gfs_dinode := ⟨⟨0x01161970, 4⟩, 0⟩

/-- A block that holds no dinode. -/
def dinode_bad : gfs_dinode := ⟨⟨0, 0⟩, 0⟩

/-- The in-memory inode of formal number 100. -/
def ip100 : gfs_inode := ⟨⟨100, 100⟩⟩

/-- The cookie of a 3-word token for inode 100, generation 9. -/
def cookie100 : inode_cookie := ⟨100, 9, 1⟩

/-- A state in which inode 100 is in memory with generation 9 while its block
is free in the bitmap and holds no dinode. -/
def world_cached : export_world :=
  { glock_nq_num := fun _ => 0,
    inode_get_nocreate := fun _ => (0, some ip100),
    rindex_hold := 0,
    blk2rgrpd := fun _ => some ⟨64⟩,
    glock_nq_init := fun _ => 0,
    get_block_type := fun _ _ => 0,
    dread := fun _ => (0, dinode_bad),
    inode_get_create := fun _ => (0, ip100),
    iget := fun ip => some ⟨9, ip⟩,
    d_alloc_anon := fun _ => true }

/-- A state in which inode 100 is not in memory and its block is free in the
bitmap. -/
def world_freed : export_world :=
  { world_cached with inode_get_nocreate := fun _ => (0, none) }

/-- A state in which inode 100 is not in memory, its block is a dinode in use
and the inode read from it has generation 10. -/
def world_reused : export_world :=
  { world_cached with
    inode_get_nocreate := fun _ => (0, none),
    get_block_type := fun _ _ => 3,
    dread := fun _ => (0, dinode_good),
    iget := fun ip => some ⟨10, ip⟩ }

/-- A caller without `CAP_SYS_ADMIN`; every collaborator succeeds and no hidden
file is flagged journaled-data. The state on disk is a number that
`gfs_writei` and `gfs_truncatei` increase. -/
def hworld_user : hfile_world Nat :=
  { capable_sys_admin := false,
    sizeof_gfs_dinode := 232,
    access_ok := fun _ => true,
    kmalloc := true,
    copy_to_user_fails := false,
    glock_nq_init := fun _ => 0,
    gfs_is_jdata := fun _ => false,
    readi := fun _ _ _ n => n,
    write_calc_reserv := fun _ _ => (1, 0),
    write_alloc_required := fun _ _ _ => (0, 0),
    quota_hold_m := fun _ => 0,
    inplace_reserve := fun _ => 0,
    ri_length := fun _ => 1,
    trans_begin := fun _ _ => 0,
    writei := fun fs _ _ n => (n, fs + 1),
    al_alloced_meta := fun _ => 0,
    truncatei := fun fs _ _ => (0, fs + 1) }

/-- The same state with a caller that holds `CAP_SYS_ADMIN`. -/
def hworld_admin : hfile_world Nat :=
  { hworld_user with capable_sys_admin := true }

/-- A request that names the quota file and carries a buffer of the size of a
dinode. -/
def gi_quota : gfs_ioctl :=
  { gi_argc := 2,
    gi_argv := fun i => if i = 1 then some "quota".toList else some [],
    gi_size := 232,
    gi_offset := 0 }

/-- A state for `gi_do_hfile_write` in which the hidden files are flagged
journaled-data, the write needs 3 data blocks and 2 indirect blocks, new
allocation is required and the resource group has a bitmap of 5 blocks. -/
def hworld_alloc : hfile_world Nat :=
  { hworld_admin with
    gfs_is_jdata := fun _ => true,
    write_calc_reserv := fun _ _ => (3, 2),
    write_alloc_required := fun _ _ _ => (0, 1),
    ri_length := fun _ => 5 }

/-- A choice of the flag constants. -/
def fconsts0 : flag_consts :=
  { GFS_FILE_REG := 1, GFS_FILE_DIR := 2,
    GFS_DIF_JDATA := 0x1, GFS_DIF_DIRECTIO := 0x10,
    GFS_DIF_IMMUTABLE := 0x20, GFS_DIF_APPENDONLY := 0x40,
    GFS_DIF_INHERIT_DIRECTIO := 0x40000000, GFS_DIF_INHERIT_JDATA := 0x80000000 }

/-- A choice of the constants of `acl.c`. -/
def aconsts0 : acl_consts :=
  { GFS_FILE_DIR := 2, GFS_FILE_LNK := 5,
    GFS_POSIX_ACL_ACCESS := "posix_acl_access".toList, GFS_POSIX_ACL_ACCESS_LEN := 16,
    GFS_POSIX_ACL_DEFAULT := "posix_acl_default".toList, GFS_POSIX_ACL_DEFAULT_LEN := 17,
    GFS_EATYPE_SYS := 2 }

/-- The process of user 500, without capabilities, with umask 022. -/
def task500 : task :=
  { fsuid := 500, cap_fowner := false, cap_linux_immutable := false, umask := 0o022 }

/-- The process of user 501, without capabilities, with umask 022. -/
def task501 : task := { task500 with fsuid := 501 }

/-- The in-core dinode of a regular file of user 500 without attributes. -/
def di_regular : incore_dinode :=
  { di_uid := 500, di_type := 1, di_size := 0, di_flags := 0, di_eattr := 0 }

/-- A regular file of user 500 on a mount with ACL support and journal blocks
of 4072 bytes. -/
def ip_regular : acl_inode := { ar_posix_acls := 1, sd_jbsize := 4072, i_di := di_regular }

/-- The same file on a mount without ACL support. -/
def ip_no_acls : acl_inode := { ip_regular with ar_posix_acls := 0 }

/-- A state in which the lock, the transaction and the dinode buffer are all
granted. -/
def fworld0 : flag_world :=
  { glock_nq_init := 0, trans_begin := fun _ _ => 0, get_inode_buffer := 0 }

/-- The request `set_file_flag set immutable`. -/
def gi_set_immutable : gfs_ioctl :=
  { gi_argc := 3,
    gi_argv := fun i => if i = 1 then some "set".toList
      else if i = 2 then some "immutable".toList else some "set_file_flag".toList,
    gi_size := 0,
    gi_offset := 0 }

/-- One step of the loop of the kernel's `posix_acl_equiv_mode` over the
entries of an ACL: the mode bits gathered so far and the `not_equiv` flag, or
`none` once an entry has an unknown tag. The tags are `ACL_USER_OBJ` (1),
`ACL_USER` (2), `ACL_GROUP_OBJ` (4), `ACL_GROUP` (8), `ACL_MASK` (16) and
`ACL_OTHER` (32). -/
def equiv_mode_step (st : Option (Nat × Int)) (pa : posix_acl_entry) : Option (Nat × Int) :=
  match st with
  | none => none
  | some (mode, not_equiv) =>
    if pa.e_tag = 1 then some (mode ||| ((pa.e_perm &&& 7) <<< 6), not_equiv)
    else if pa.e_tag = 4 then some (mode ||| ((pa.e_perm &&& 7) <<< 3), not_equiv)
    else if pa.e_tag = 32 then some (mode ||| (pa.e_perm &&& 7), not_equiv)
    else if pa.e_tag = 16 then
      some ((mode &&& not32 0o070) ||| ((pa.e_perm &&& 7) <<< 3), 1)
    else if pa.e_tag = 2 ∨ pa.e_tag = 8 then some (mode, 1)
    else none

/-- The kernel's `posix_acl_equiv_mode`, as an example of the collaborator: 0
and the permission bits when the ACL has the three base entries only, 1 when it
has more, `-EINVAL` on an unknown tag. -/
def linux_posix_acl_equiv_mode (acl : posix_acl) (mode_p : Nat) : Int × Nat :=
  match acl.a_entries.foldl equiv_mode_step (some (0, 0)) with
  | none => (-EINVAL, mode_p)
  | some (mode, not_equiv) => (not_equiv, u32 ((mode_p &&& not32 0o777) ||| mode))

/-- An ACL that says what the mode 0644 says: owner `rw-`, group `r--`,
other `r--`. -/
def acl_0644 : posix_acl := ⟨3, [⟨1, 6, 0⟩, ⟨4, 4, 0⟩, ⟨32, 4, 0⟩]⟩

/-- A state in which an object with attributes has a default ACL of three
entries and no access ACL, every allocation succeeds, a non-empty blob parses
to `acl_0644`, and the create-time masking reports a change. -/
def aworld0 : acl_world :=
  { ea_find := fun _ er =>
      if er.er_name = some "posix_acl_default".toList then (0, ⟨some ⟨28⟩⟩) else (0, ⟨none⟩),
    kmalloc := fun _ => true,
    ea_get_copy := fun _ _ => (0, [2, 0, 0, 0]),
    posix_acl_from_xattr := fun data _ =>
      if data = [] then acl_ptr.NULL else acl_ptr.ptr acl_0644,
    posix_acl_valid := fun _ => 0,
    posix_acl_equiv_mode := linux_posix_acl_equiv_mode,
    posix_acl_clone := fun acl => some acl,
    posix_acl_create_masq := fun acl mode => (1, acl, mode &&& 0o755),
    posix_acl_xattr_size := fun n => 4 + 8 * n,
    ea_check_size := fun _ => 0,
    posix_acl_to_xattr := fun acl _ => acl.a_entries.map (fun pa => pa.e_perm) }

/-- A directory of user 500 with an attribute store, on a mount with ACL
support and journal blocks of 4072 bytes. -/
def dip_attrs : acl_inode :=
  { ar_posix_acls := 1, sd_jbsize := 4072,
    i_di := { di_uid := 500, di_type := 2, di_size := 0, di_flags := 0, di_eattr := 4242 } }

/-- The same directory without an attribute store. -/
def dip_plain : acl_inode :=
  { dip_attrs with i_di := { dip_attrs.i_di with di_eattr := 0 } }

/-- The variables of a caller of `gfs_acl_new_prep` that asks for mode 0666. -/
def vars0 : new_prep_vars :=
  { mode := 0o666, a_data := none, d_data := none, size := 0, blocks := 0 }

/-- A request that carries a blob. -/
def er_blob : gfs_ea_request :=
  { er_name := some "posix_acl_access".toList, er_name_len := 16, er_type := 2,
    er_data := some [2, 0, 0, 0], er_data_len := 28 }

/-- The state `aworld0` with a `gfs_ea_check_size` that rejects every request. -/
def aworld_reject : acl_world :=
  { aworld0 with ea_check_size := fun _ => -ERANGE }

/-- An ACL that says what the mode 0600 says. -/
def acl_0600 : posix_acl := ⟨3, [⟨1, 6, 0⟩, ⟨4, 0, 0⟩, ⟨32, 0, 0⟩]⟩

/-- A state in which an object with attributes has an access ACL of three
entries, every call succeeds, the masking for a change of mode yields
`acl_0600`, `gfs_ea_acl_chmod` returns 0 and `gfs_setattr_simple` returns 0. -/
def cworld0 : chmod_world :=
  { toacl_world :=
      { aworld0 with
        ea_find := fun _ er =>
          if er.er_name = some "posix_acl_access".toList then (0, ⟨some ⟨28⟩⟩)
          else (0, ⟨none⟩) },
    posix_acl_chmod_masq := fun _ _ => (0, acl_0600),
    ea_acl_chmod := fun _ _ _ _ => 0,
    setattr_simple := fun _ _ => 0 }

/-- A directory with the entries `a` (inode 7) and `bc` (inode 9), read
without error. -/
def nworld0 : name_world :=
  { S_ISDIR := fun m => m &&& 0o170000 = 0o040000,
    glock_nq_init := 0,
    dir_entries := [⟨[97], 1, ⟨7, 70⟩⟩, ⟨[98, 99], 2, ⟨9, 90⟩⟩],
    dir_read := fun _ => 0 }

/-- The inode of a directory. -/
def inode_dir : name_inode := ⟨0o040755, ⟨⟨1, 10⟩⟩⟩

/-- The inode with formal number 9. -/
def inode_9 : name_inode := ⟨0o100644, ⟨⟨9, 90⟩⟩⟩

/-- The inode with formal number 8, which is in no directory. -/
def inode_8 : name_inode := ⟨0o100644, ⟨⟨8, 80⟩⟩⟩

/-- The process with `CAP_SYS_ADMIN`, and a `sscanf` that reads one decimal
digit, or two with a blank between them. -/
def tworld0 : tune_world :=
  { capable_sys_admin := true,
    sscanf_u := fun s =>
      match s with
      | [c] => if c.isDigit then some (c.toNat - 48) else none
      | _ => none,
    sscanf_uu := fun s =>
      match s with
      | [c, b, d] =>
        if b = Char.ofNat 32 ∧ c.isDigit ∧ d.isDigit then some (c.toNat - 48, d.toNat - 48)
        else none
      | _ => none }

/-- Tunables with quota enforcement and accounting on, all others 0. -/
def tune0 : gfs_tune :=
  { gt_ilimit1 := 0, gt_ilimit1_tries := 0, gt_ilimit1_min := 0, gt_ilimit2 := 0,
    gt_ilimit2_tries := 0, gt_ilimit2_min := 0, gt_demote_secs := 0,
    gt_incore_log_blocks := 0, gt_jindex_refresh_secs := 0, gt_depend_secs := 0,
    gt_scand_secs := 0, gt_recoverd_secs := 0, gt_logd_secs := 0, gt_quotad_secs := 0,
    gt_inoded_secs := 0, gt_quota_simul_sync := 64, gt_quota_warn_period := 0,
    gt_atime_quantum := 0, gt_quota_quantum := 0, gt_quota_scale_num := 1,
    gt_quota_scale_den := 1, gt_quota_enforce := 1, gt_quota_account := 1,
    gt_new_files_jdata := 0, gt_new_files_directio := 0, gt_max_atomic_write := 4,
    gt_max_readahead := 0, gt_lockdump_size := 131072, gt_stall_secs := 600,
    gt_complain_secs := 0, gt_reclaim_limit := 0, gt_entries_per_readdir := 32,
    gt_prefetch_secs := 0, gt_statfs_slots := 64, gt_max_mhc := 0,
    gt_greedy_default := 100, gt_greedy_quantum := 25, gt_greedy_max := 250 }

/-- The request to set the tunable `param` to `value`. -/
def gi_tune (param value : String) : gfs_ioctl :=
  { gi_argc := 3,
    gi_argv := fun i =>
      if i = 1 then some param.toList else if i = 2 then some value.toList else some [],
    gi_size := 0, gi_offset := 0 }

/-! ## Arithmetic of the two halves of a formal inode number -/

theorem u32_of_lt {x : Nat} (h : x < 2 ^ 32) : u32 x = x := Nat.mod_eq_of_lt h

theorem u32_lt (x : Nat) : u32 x < 2 ^ 32 := Nat.mod_lt _ (by norm_num)

theorem join_halves (n : Nat) (h : n < 2 ^ 64) :
    u64 (u32 (n >>> 32) <<< 32) ||| u32 (n &&& 0xFFFFFFFF) = n := by
  have hand : n &&& 0xFFFFFFFF = n % 2 ^ 32 := Nat.and_pow_two_sub_one_eq_mod n 32
  have hlo : u32 (n &&& 0xFFFFFFFF) = n % 2 ^ 32 := by
    rw [hand]; exact u32_of_lt (Nat.mod_lt _ (by norm_num))
  have hhi : u64 (u32 (n >>> 32) <<< 32) = 2 ^ 32 * (n / 2 ^ 32) := by
    rw [Nat.shiftLeft_eq, Nat.shiftRight_eq_div_pow]
    unfold u64 u32
    omega
  rw [hlo, hhi, ← Nat.mul_add_lt_is_or (Nat.mod_lt _ (by norm_num))]
  omega


/-! ## Byte reversal -/

theorem swab32_lt (x : Nat) : swab32 x < 2 ^ 32 := by
  unfold swab32
  have h1 : (x &&& 0xff) <<< 24 < 2 ^ 32 := by
    have : x &&& 0xff ≤ 0xff := Nat.and_le_right
    rw [Nat.shiftLeft_eq]; omega
  have h2 : (x &&& 0xff00) <<< 8 < 2 ^ 32 := by
    have : x &&& 0xff00 ≤ 0xff00 := Nat.and_le_right
    rw [Nat.shiftLeft_eq]; omega
  have h3 : (x >>> 8) &&& 0xff00 < 2 ^ 32 := by
    have : (x >>> 8) &&& 0xff00 ≤ 0xff00 := Nat.and_le_right
    omega
  have h4 : (x >>> 24) &&& 0xff < 2 ^ 32 := by
    have : (x >>> 24) &&& 0xff ≤ 0xff := Nat.and_le_right
    omega
  exact Nat.or_lt_two_pow (Nat.or_lt_two_pow (Nat.or_lt_two_pow h1 h2) h3) h4

theorem testBit_mask_low_byte (j : Nat) : Nat.testBit 255 j = decide (j < 8) :=
  Nat.testBit_two_pow_sub_one 8 j

theorem testBit_mask_second_byte (j : Nat) :
    Nat.testBit 65280 j = (decide (8 ≤ j) && decide (j < 16)) := by
  have h : (65280 : Nat) = 255 <<< 8 := by decide
  rw [h, Nat.testBit_shiftLeft, testBit_mask_low_byte]
  by_cases h8 : 8 ≤ j
  · have : (j - 8 < 8) ↔ j < 16 := by omega
    simp [h8, this]
  · simp [h8]

/-- Reversing the bytes of a 32-bit word twice gives the word back. -/
theorem swab32_swab32 (x : Nat) (hx : x < 2 ^ 32) : swab32 (swab32 x) = x := by
  apply Nat.eq_of_testBit_eq
  intro i
  by_cases hi : i < 32
  · unfold swab32
    simp only [Nat.testBit_or, Nat.testBit_and, Nat.testBit_shiftLeft, Nat.testBit_shiftRight,
      testBit_mask_low_byte, testBit_mask_second_byte]
    interval_cases i <;> simp
  · have hi2 : 2 ^ 32 ≤ 2 ^ i := Nat.pow_le_pow_right (by norm_num) (by omega)
    rw [Nat.testBit_lt_two_pow (lt_of_lt_of_le (swab32_lt _) hi2),
        Nat.testBit_lt_two_pow (lt_of_lt_of_le hx hi2)]

/-- On a little-endian host `gfs32_to_cpu` undoes `cpu_to_gfs32`. -/
theorem littleEndian_inverse (x : Nat) (hx : x < 2 ^ 32) :
    gfs32_to_cpu littleEndianHost (cpu_to_gfs32 littleEndianHost x) = x := by
  unfold gfs32_to_cpu cpu_to_gfs32 littleEndianHost
  dsimp only
  rw [u32_of_lt hx, u32_of_lt (swab32_lt x), u32_of_lt (swab32_lt x), swab32_swab32 x hx,
    u32_of_lt hx]

/-! ## The file-handle codec -/

theorem bigEndian_inverse (x : Nat) (hx : x < 2 ^ 32) :
    gfs32_to_cpu bigEndianHost (cpu_to_gfs32 bigEndianHost x) = x := by
  simp [gfs32_to_cpu, cpu_to_gfs32, bigEndianHost, u32]
  omega

/-- The two cookies that `gfs_decode_fh` hands to `find_exported_dentry` for a
token of an accepted length. -/
theorem decode_accepts (bo : ByteOrder)
    (find_exported_dentry : inode_cookie → inode_cookie → dentry_ptr)
    (sdp : gfs_sbd) (fh : Nat → Nat) (n : Int) (hn : n = 3 ∨ n = 5 ∨ n = 6) :
    (gfs_decode_fh bo find_exported_dentry sdp fh n n).resolver_call =
      some (⟨u64 (gfs32_to_cpu bo (fh 0) <<< 32) ||| gfs32_to_cpu bo (fh 1),
             gfs32_to_cpu bo (fh 2), TRUE⟩,
            ⟨if n = 3 then 0
               else u64 (gfs32_to_cpu bo (fh 3) <<< 32) ||| gfs32_to_cpu bo (fh 4),
             if n = 6 then u32 (fh 5) else 0,
             if n = 6 then TRUE else 0⟩) := by
  rcases hn with h | h | h <;> subst h <;> simp [gfs_decode_fh]

/-- The first three words that `gfs_encode_fh` writes when the buffer holds at
least three, and the lengths it can return then. -/
theorem encode_words (bo : ByteOrder) (cnt : Int) (d : dentry) (fh : Nat → Nat)
    (maxlen connectable : Int) (hmax : 3 ≤ maxlen) :
    ((gfs_encode_fh bo cnt d fh maxlen connectable).ret = 3 ∨
     (gfs_encode_fh bo cnt d fh maxlen connectable).ret = 5 ∨
     (gfs_encode_fh bo cnt d fh maxlen connectable).ret = 6) ∧
    (gfs_encode_fh bo cnt d fh maxlen connectable).fh 0 =
      cpu_to_gfs32 bo (u32 (d.d_inode.ip.i_num.no_formal_ino >>> 32)) ∧
    (gfs_encode_fh bo cnt d fh maxlen connectable).fh 1 =
      cpu_to_gfs32 bo (u32 (d.d_inode.ip.i_num.no_formal_ino &&& 0xFFFFFFFF)) ∧
    (gfs_encode_fh bo cnt d fh maxlen connectable).fh 2 =
      cpu_to_gfs32 bo d.d_inode.i_generation := by
  have hm : ¬ maxlen < 3 := by omega
  unfold gfs_encode_fh
  simp only [hm, if_false]
  split_ifs <;> simp [Function.update_apply]

/-- C1: for every object with a 64-bit formal inode number and a 32-bit
generation, every connectable flag and every capacity `maxlen ≥ 3`, decoding
the token written by `gfs_encode_fh`, with `fh_type = fh_len` the length it
returned, hands the resolver a `this` cookie whose `formal_ino` and `gen` are
those of the object, provided `gfs32_to_cpu` undoes `cpu_to_gfs32`. -/
theorem decode_encode_this (bo : ByteOrder)
    (find_exported_dentry : inode_cookie → inode_cookie → dentry_ptr)
    (sdp : gfs_sbd) (cnt : Int) (d : dentry) (fh : Nat → Nat)
    (maxlen connectable : Int)
    (hinv : ∀ x, x < 2 ^ 32 → gfs32_to_cpu bo (cpu_to_gfs32 bo x) = x)
    (hino : d.d_inode.ip.i_num.no_formal_ino < 2 ^ 64)
    (hgen : d.d_inode.i_generation < 2 ^ 32)
    (hmax : 3 ≤ maxlen) :
    (gfs_decode_fh bo find_exported_dentry sdp
        (gfs_encode_fh bo cnt d fh maxlen connectable).fh
        (gfs_encode_fh bo cnt d fh maxlen connectable).ret
        (gfs_encode_fh bo cnt d fh maxlen connectable).ret).resolver_call.map
      (fun c => (c.1.formal_ino, c.1.gen))
      = some (d.d_inode.ip.i_num.no_formal_ino, d.d_inode.i_generation) := by
  have h0 := hinv _ (u32_lt (d.d_inode.ip.i_num.no_formal_ino >>> 32))
  have h1 := hinv _ (u32_lt (d.d_inode.ip.i_num.no_formal_ino &&& 0xFFFFFFFF))
  have h2 := hinv _ hgen
  have hj := join_halves _ hino
  obtain ⟨hr, e0, e1, e2⟩ := encode_words bo cnt d fh maxlen connectable hmax
  rw [decode_accepts bo find_exported_dentry sdp _ _ hr, e0, e1, e2, h0, h1, h2]
  simp only [Option.map_some', hj]

/-- C1 at a 6-word token on a little-endian host. -/
theorem decode_encode_this_witness :
    (gfs_decode_fh littleEndianHost no_dentry sbd0
        (gfs_encode_fh littleEndianHost 0 dentry0 fh_zero 6 1).fh
        (gfs_encode_fh littleEndianHost 0 dentry0 fh_zero 6 1).ret
        (gfs_encode_fh littleEndianHost 0 dentry0 fh_zero 6 1).ret).resolver_call.map
      (fun c => (c.1.formal_ino, c.1.gen))
      = some (0x1234567890, 7) :=
  decode_encode_this littleEndianHost no_dentry sbd0 0 dentry0 fh_zero 6 1
    littleEndian_inverse (by decide) (by decide) (by decide)

/-- C2: on a little-endian host the 6-word token of a dentry whose parent has
generation 1 decodes to a parent cookie of generation `0x01000000`: word 5 is
byte-swapped by `gfs_encode_fh` and read back raw by `gfs_decode_fh`, while
the generation of the object itself, word 2, comes back as 7. -/
theorem decode_encode_parent_gen_little_endian :
    dentry0.d_parent_inode.i_generation = 1 ∧
    (gfs_encode_fh littleEndianHost 0 dentry0 fh_zero 6 1).ret = 6 ∧
    (gfs_decode_fh littleEndianHost no_dentry sbd0
        (gfs_encode_fh littleEndianHost 0 dentry0 fh_zero 6 1).fh 6 6).resolver_call.map
      (fun c => (c.1.gen, c.2.gen, c.2.gen_valid)) = some (7, 0x01000000, 1) := by
  decide

/-- The parent generation that `gfs_decode_fh` recovers from a 6-word token of
`gfs_encode_fh` is the on-disk word, `cpu_to_gfs32` of the generation. -/
theorem decode_encode_parent_gen_raw (bo : ByteOrder)
    (find_exported_dentry : inode_cookie → inode_cookie → dentry_ptr)
    (sdp : gfs_sbd) (cnt : Int) (d : dentry) (fh : Nat → Nat)
    (maxlen connectable : Int) (hmax : 6 ≤ maxlen) (hc : connectable ≠ 0) :
    (gfs_encode_fh bo cnt d fh maxlen connectable).ret = 6 ∧
    (gfs_decode_fh bo find_exported_dentry sdp
        (gfs_encode_fh bo cnt d fh maxlen connectable).fh 6 6).resolver_call.map
      (fun c => c.2.gen) = some (cpu_to_gfs32 bo d.d_parent_inode.i_generation) := by
  have h3 : ¬ maxlen < 3 := by omega
  have h5 : ¬ (maxlen < 5 ∨ connectable = 0) := by
    intro h; rcases h with h | h
    · omega
    · exact hc h
  have h6 : ¬ maxlen < 6 := by omega
  rw [decode_accepts bo find_exported_dentry sdp _ 6 (Or.inr (Or.inr rfl))]
  simp [gfs_encode_fh, h3, h5, h6, cpu_to_gfs32, u32]

/-- C3, as stated, fails: a token of 4 words is refused with `NULL`, not with
`ERR_PTR(-EINVAL)`. -/
theorem decode_bad_length_not_einval :
    ¬ (∀ (bo : ByteOrder) (find_exported_dentry : inode_cookie → inode_cookie → dentry_ptr)
        (sdp : gfs_sbd) (fh : Nat → Nat) (fh_len fh_type : Int),
        fh_len ≠ 3 → fh_len ≠ 5 → fh_len ≠ 6 →
        (gfs_decode_fh bo find_exported_dentry sdp fh fh_len fh_type).ret
          = dentry_ptr.ERR_PTR (-EINVAL)) := by
  intro h
  have h4 := h bigEndianHost no_dentry sbd0 fh_zero 4 4 (by decide) (by decide) (by decide)
  revert h4
  decide

/-- C3, amended: for every token whose length is not 3, 5 or 6 words, whatever
its type, `gfs_decode_fh` returns `NULL` and does not call
`find_exported_dentry`. -/
theorem decode_bad_length_null (bo : ByteOrder)
    (find_exported_dentry : inode_cookie → inode_cookie → dentry_ptr)
    (sdp : gfs_sbd) (fh : Nat → Nat) (fh_len fh_type : Int)
    (h3 : fh_len ≠ 3) (h5 : fh_len ≠ 5) (h6 : fh_len ≠ 6) :
    (gfs_decode_fh bo find_exported_dentry sdp fh fh_len fh_type).ret = dentry_ptr.NULL ∧
    (gfs_decode_fh bo find_exported_dentry sdp fh fh_len fh_type).resolver_call = none := by
  unfold gfs_decode_fh
  by_cases ht : fh_type = fh_len
  · subst ht
    simp [h3, h5, h6]
  · simp [ht]

/-- C3, amended, at a token of 4 words. -/
theorem decode_bad_length_null_witness :
    (gfs_decode_fh bigEndianHost no_dentry sbd0 fh_zero 4 4).ret = dentry_ptr.NULL ∧
    (gfs_decode_fh bigEndianHost no_dentry sbd0 fh_zero 4 4).resolver_call = none :=
  decode_bad_length_null bigEndianHost no_dentry sbd0 fh_zero 4 4
    (by decide) (by decide) (by decide)

/-- C4: `gfs_encode_fh` returns 255 exactly when `maxlen < 3`, and then leaves
`*len` alone; otherwise it returns 3 when `maxlen < 5` or `connectable` is
false, 5 when connectable and `maxlen = 5`, 6 when connectable and
`maxlen ≥ 6`, and then `*len` is the value returned, which is at most `maxlen`. -/
theorem encode_length (bo : ByteOrder) (cnt : Int) (d : dentry) (fh : Nat → Nat)
    (maxlen connectable : Int) :
    ((gfs_encode_fh bo cnt d fh maxlen connectable).ret = 255 ↔ maxlen < 3) ∧
    (maxlen < 3 → (gfs_encode_fh bo cnt d fh maxlen connectable).len = maxlen) ∧
    (3 ≤ maxlen → (maxlen < 5 ∨ connectable = 0) →
      (gfs_encode_fh bo cnt d fh maxlen connectable).ret = 3) ∧
    (connectable ≠ 0 → maxlen = 5 →
      (gfs_encode_fh bo cnt d fh maxlen connectable).ret = 5) ∧
    (connectable ≠ 0 → 6 ≤ maxlen →
      (gfs_encode_fh bo cnt d fh maxlen connectable).ret = 6) ∧
    (3 ≤ maxlen →
      (gfs_encode_fh bo cnt d fh maxlen connectable).len =
        (gfs_encode_fh bo cnt d fh maxlen connectable).ret ∧
      (gfs_encode_fh bo cnt d fh maxlen connectable).ret ≤ maxlen) := by
  unfold gfs_encode_fh
  dsimp only
  split_ifs with h3 h5 h6 <;> dsimp only <;>
    refine ⟨?_, ?_, ?_, ?_, ?_, ?_⟩ <;> omega

/-- C4 at a connectable request with room for exactly 5 words. -/
theorem encode_length_witness :
    (gfs_encode_fh bigEndianHost 0 dentry0 fh_zero 5 1).ret = 5 :=
  (encode_length bigEndianHost 0 dentry0 fh_zero 5 1).2.2.2.1 (by decide) rfl

/-- C5: for every accepted token, of `fh_type = fh_len = n` in 3, 5 or 6, the
`this` cookie handed on has `gen_valid` set, and the parent cookie has
`gen_valid` set exactly when `n = 6`; for 3 words the parent cookie is all
zero, and for 5 words its `gen` and `gen_valid` are zero and only `formal_ino`
is filled from words 3 and 4. -/
theorem decode_gen_valid (bo : ByteOrder)
    (find_exported_dentry : inode_cookie → inode_cookie → dentry_ptr)
    (sdp : gfs_sbd) (fh : Nat → Nat) (n : Int) (hn : n = 3 ∨ n = 5 ∨ n = 6) :
    ∃ this parent,
      (gfs_decode_fh bo find_exported_dentry sdp fh n n).resolver_call
        = some (this, parent) ∧
      this.gen_valid = TRUE ∧
      (parent.gen_valid ≠ 0 ↔ n = 6) ∧
      (n = 3 → parent = ⟨0, 0, 0⟩) ∧
      (n = 5 → parent.gen = 0 ∧ parent.gen_valid = 0 ∧
        parent.formal_ino =
          u64 (gfs32_to_cpu bo (fh 3) <<< 32) ||| gfs32_to_cpu bo (fh 4)) := by
  refine ⟨_, _, decode_accepts bo find_exported_dentry sdp fh n hn, rfl, ?_, ?_, ?_⟩
  · rcases hn with h | h | h <;> subst h <;> simp [TRUE]
  · intro h; subst h; simp
  · intro h; subst h; simp

/-- C5 at a 5-word token. -/
theorem decode_gen_valid_witness :
    ∃ this parent,
      (gfs_decode_fh bigEndianHost no_dentry sbd0 fh_zero 5 5).resolver_call
        = some (this, parent) ∧
      this.gen_valid = TRUE ∧
      (parent.gen_valid ≠ 0 ↔ (5 : Int) = 6) ∧
      ((5 : Int) = 3 → parent = ⟨0, 0, 0⟩) ∧
      ((5 : Int) = 5 → parent.gen = 0 ∧ parent.gen_valid = 0 ∧
        parent.formal_ino =
          u64 (gfs32_to_cpu bigEndianHost (fh_zero 3) <<< 32) |||
            gfs32_to_cpu bigEndianHost (fh_zero 4)) :=
  decode_gen_valid bigEndianHost no_dentry sbd0 fh_zero 5 (by decide)

/-! ## The handle resolver -/

theorem cookie_rejected_counter (sdp : gfs_sbd) (cookie : inode_cookie) (v : Int) :
    cookie_rejected { sdp with sd_ops_export := v } cookie ↔ cookie_rejected sdp cookie :=
  Iff.rfl

/-- The run of `gfs_get_dentry` when the in-memory inode is found. -/
theorem get_dentry_of_found (bo : ByteOrder) (k : ondisk_consts) (w : export_world)
    (sdp : gfs_sbd) (cookie : inode_cookie) (ip : gfs_inode)
    (h : found_in_memory w sdp cookie ip) :
    gfs_get_dentry bo k w sdp cookie =
      get_dentry_out w cookie { sdp with sd_ops_export := atomic_inc sdp.sd_ops_export }
        [export_event.glock_nq_num cookie.formal_ino 0, export_event.inode_get false 0] ip := by
  obtain ⟨hrej, hlock, hget⟩ := h
  have hrej2 := (cookie_rejected_counter sdp cookie (atomic_inc sdp.sd_ops_export)).not.mpr hrej
  unfold gfs_get_dentry
  simp [hrej2, hlock, hget]

/-- The run of `gfs_get_dentry` when the inode is read from its block. -/
theorem get_dentry_of_materialised (bo : ByteOrder) (k : ondisk_consts) (w : export_world)
    (sdp : gfs_sbd) (cookie : inode_cookie) (ip : gfs_inode)
    (h : materialised bo k w sdp cookie ip) :
    gfs_get_dentry bo k w sdp cookie =
      get_dentry_out w cookie
        { sdp with sd_ops_export := atomic_inc sdp.sd_ops_export,
                   sd_fh2dentry_misses := atomic_inc sdp.sd_fh2dentry_misses }
        [export_event.glock_nq_num cookie.formal_ino 0, export_event.inode_get false 0,
         export_event.rindex_hold 0, export_event.blk2rgrpd cookie.formal_ino,
         export_event.glock_nq_init 0, export_event.get_block_type cookie.formal_ino,
         export_event.dread cookie.formal_ino 0, export_event.brelse,
         export_event.glock_dq_uninit holder.rgd_gh,
         export_event.glock_dq_uninit holder.ri_gh,
         export_event.inode_get true 0] ip := by
  obtain ⟨hrej, hlock, hget, hri, ⟨rgd, hrgd, hrl, hbt⟩, hrd, hhdr, hcr⟩ := h
  have hrej2 := (cookie_rejected_counter sdp cookie (atomic_inc sdp.sd_ops_export)).not.mpr hrej
  unfold gfs_get_dentry
  simp [hrej2, hlock, hget, hri, hrgd, hrl, hbt, hrd, hhdr, hcr]

/-- The label `out` makes no call on the resource index, the region, its bitmap
or the block. -/
theorem get_dentry_out_region_calls (w : export_world) (cookie : inode_cookie)
    (sdp : gfs_sbd) (tr : List export_event) (ip : gfs_inode) :
    export_region_calls (get_dentry_out w cookie sdp tr ip).trace = export_region_calls tr := by
  unfold get_dentry_out
  cases w.iget ip with
  | none => simp [export_region_calls]
  | some inode =>
    dsimp only
    split_ifs <;> simp [export_region_calls]

/-- C6: an identity whose `formal_ino` is that of the journal-index,
resource-index, quota or license inode is refused with `-EINVAL`, and no
collaborator has been called by then: no lock, no region lookup, no block
read. -/
theorem get_dentry_rejects_hidden (bo : ByteOrder) (k : ondisk_consts) (w : export_world)
    (sdp : gfs_sbd) (cookie : inode_cookie)
    (h : cookie.formal_ino = sdp.sd_jiinode.i_num.no_formal_ino ∨
         cookie.formal_ino = sdp.sd_riinode.i_num.no_formal_ino ∨
         cookie.formal_ino = sdp.sd_qinode.i_num.no_formal_ino ∨
         cookie.formal_ino = sdp.sd_linode.i_num.no_formal_ino) :
    (gfs_get_dentry bo k w sdp cookie).ret = dentry_ptr.ERR_PTR (-EINVAL) ∧
    (gfs_get_dentry bo k w sdp cookie).trace = [] := by
  have hrej : cookie_rejected { sdp with sd_ops_export := atomic_inc sdp.sd_ops_export } cookie :=
    Or.inr h
  unfold gfs_get_dentry
  simp [hrej]

/-- C6 at the cookie of the quota inode. -/
theorem get_dentry_rejects_hidden_witness :
    (gfs_get_dentry bigEndianHost consts0 world_cached sbd0 ⟨3, 0, 0⟩).ret
      = dentry_ptr.ERR_PTR (-EINVAL) ∧
    (gfs_get_dentry bigEndianHost consts0 world_cached sbd0 ⟨3, 0, 0⟩).trace = [] :=
  get_dentry_rejects_hidden bigEndianHost consts0 world_cached sbd0 ⟨3, 0, 0⟩
    (Or.inr (Or.inr (Or.inl rfl)))

/-- C7, as stated, fails: inode 100 is in memory while its block is free in the
bitmap and holds no dinode, and `gfs_get_dentry` returns a dentry for it. -/
theorem get_dentry_cached_ignores_block :
    ¬ cookie_rejected sbd0 cookie100 ∧
    world_cached.blk2rgrpd 100 = some ⟨64⟩ ∧
    world_cached.get_block_type ⟨64⟩ 100 ≠ consts0.GFS_BLKST_USEDMETA ∧
    dinode_header_mismatch bigEndianHost consts0 (world_cached.dread 100).2 ∧
    (gfs_get_dentry bigEndianHost consts0 world_cached sbd0 cookie100).ret
      = dentry_ptr.ptr ⟨⟨9, ip100⟩, ⟨9, ip100⟩⟩ := by
  decide

/-- C7, amended: when no in-memory inode exists for the identity and its
backing block has been reallocated, `gfs_get_dentry` never returns a dentry;
and it fails with `-ESTALE` whenever the identity is accepted and the inode
lock, the in-memory lookup, the resource-index hold, the region lookup and the
region lock succeed and, where the bitmap says used-metadata, so does the block
read. For an accepted identity a failure of the inode lock, of the in-memory
lookup, of the resource-index hold, of the region lock or of the block read is
returned as the error of that call, and a region lookup that finds no region
gives `-EINVAL`. When the in-memory lookup yields an inode, no call is made on
the resource index, the region, its bitmap or the block. -/
theorem get_dentry_reallocated (bo : ByteOrder) (k : ondisk_consts) (w : export_world)
    (sdp : gfs_sbd) (cookie : inode_cookie) :
    ((w.inode_get_nocreate ⟨cookie.formal_ino, cookie.formal_ino⟩).2 = none →
      block_reallocated bo k w cookie →
      (∀ d, (gfs_get_dentry bo k w sdp cookie).ret ≠ dentry_ptr.ptr d) ∧
      (¬ cookie_rejected sdp cookie →
        w.glock_nq_num cookie.formal_ino = 0 →
        (w.inode_get_nocreate ⟨cookie.formal_ino, cookie.formal_ino⟩).1 = 0 →
        w.rindex_hold = 0 →
        ∀ rgd, w.blk2rgrpd cookie.formal_ino = some rgd →
          w.glock_nq_init rgd = 0 →
          (w.get_block_type rgd cookie.formal_ino = k.GFS_BLKST_USEDMETA →
            (w.dread cookie.formal_ino).1 = 0) →
          (gfs_get_dentry bo k w sdp cookie).ret = dentry_ptr.ERR_PTR (-ESTALE))) ∧
    (¬ cookie_rejected sdp cookie →
      (w.glock_nq_num cookie.formal_ino ≠ 0 →
        (gfs_get_dentry bo k w sdp cookie).ret =
          dentry_ptr.ERR_PTR (w.glock_nq_num cookie.formal_ino)) ∧
      (w.glock_nq_num cookie.formal_ino = 0 →
        ((w.inode_get_nocreate ⟨cookie.formal_ino, cookie.formal_ino⟩).1 ≠ 0 →
          (gfs_get_dentry bo k w sdp cookie).ret = dentry_ptr.ERR_PTR
            (w.inode_get_nocreate ⟨cookie.formal_ino, cookie.formal_ino⟩).1) ∧
        (w.inode_get_nocreate ⟨cookie.formal_ino, cookie.formal_ino⟩ = (0, none) →
          (w.rindex_hold ≠ 0 →
            (gfs_get_dentry bo k w sdp cookie).ret = dentry_ptr.ERR_PTR w.rindex_hold) ∧
          (w.rindex_hold = 0 →
            (w.blk2rgrpd cookie.formal_ino = none →
              (gfs_get_dentry bo k w sdp cookie).ret = dentry_ptr.ERR_PTR (-EINVAL)) ∧
            (∀ rgd, w.blk2rgrpd cookie.formal_ino = some rgd →
              (w.glock_nq_init rgd ≠ 0 →
                (gfs_get_dentry bo k w sdp cookie).ret =
                  dentry_ptr.ERR_PTR (w.glock_nq_init rgd)) ∧
              (w.glock_nq_init rgd = 0 →
                w.get_block_type rgd cookie.formal_ino = k.GFS_BLKST_USEDMETA →
                (w.dread cookie.formal_ino).1 ≠ 0 →
                (gfs_get_dentry bo k w sdp cookie).ret =
                  dentry_ptr.ERR_PTR (w.dread cookie.formal_ino).1)))))) ∧
    (∀ ip, (w.inode_get_nocreate ⟨cookie.formal_ino, cookie.formal_ino⟩).2 = some ip →
      export_region_calls (gfs_get_dentry bo k w sdp cookie).trace = []) := by
  refine ⟨?_, ?_, ?_⟩
  · intro habsent hre
    constructor
    · intro d
      unfold gfs_get_dentry
      by_cases h1 : cookie_rejected
          { sdp with sd_ops_export := atomic_inc sdp.sd_ops_export } cookie
      · simp only [h1, if_true]
        exact fun h => dentry_ptr.noConfusion h
      by_cases h2 : w.glock_nq_num cookie.formal_ino = 0
      swap
      · simp only [h1, h2, if_false, ne_eq, not_false_eq_true, if_true]
        exact fun h => dentry_ptr.noConfusion h
      by_cases h3 : (w.inode_get_nocreate ⟨cookie.formal_ino, cookie.formal_ino⟩).1 = 0
      swap
      · simp only [h1, h2, h3, if_false, ne_eq, not_false_eq_true, not_true_eq_false, if_true,
          get_dentry_fail]
        exact fun h => dentry_ptr.noConfusion h
      by_cases h4 : w.rindex_hold = 0
      swap
      · simp only [h1, h2, h3, h4, habsent, if_false, ne_eq, not_false_eq_true,
          not_true_eq_false, if_true, get_dentry_fail]
        exact fun h => dentry_ptr.noConfusion h
      cases hrgd : w.blk2rgrpd cookie.formal_ino with
      | none =>
        simp only [h1, h2, h3, h4, habsent, hrgd, if_false, ne_eq, not_false_eq_true,
          not_true_eq_false, if_true, get_dentry_fail_rindex, get_dentry_fail]
        exact fun h => dentry_ptr.noConfusion h
      | some rgd =>
        by_cases h5 : w.glock_nq_init rgd = 0
        swap
        · simp only [h1, h2, h3, h4, h5, habsent, hrgd, if_false, ne_eq, not_false_eq_true,
            not_true_eq_false, if_true, get_dentry_fail_rindex, get_dentry_fail]
          exact fun h => dentry_ptr.noConfusion h
        by_cases h6 : w.get_block_type rgd cookie.formal_ino = k.GFS_BLKST_USEDMETA
        swap
        · simp only [h1, h2, h3, h4, h5, h6, habsent, hrgd, if_false, ne_eq, not_false_eq_true,
            not_true_eq_false, if_true, get_dentry_fail_rgd, get_dentry_fail_rindex,
            get_dentry_fail]
          exact fun h => dentry_ptr.noConfusion h
        by_cases h7 : (w.dread cookie.formal_ino).1 = 0
        swap
        · simp only [h1, h2, h3, h4, h5, h6, h7, habsent, hrgd, if_false, ne_eq,
            not_false_eq_true, not_true_eq_false, if_true, get_dentry_fail_rgd,
            get_dentry_fail_rindex, get_dentry_fail]
          exact fun h => dentry_ptr.noConfusion h
        have h8 : dinode_header_mismatch bo k (w.dread cookie.formal_ino).2 := by
          rcases hre with hb | hh
          · exact absurd h6 (hb rgd hrgd)
          · exact hh
        simp only [h1, h2, h3, h4, h5, h6, h7, h8, habsent, hrgd, if_false, ne_eq,
          not_false_eq_true, not_true_eq_false, if_true, get_dentry_fail_relse,
          get_dentry_fail_rgd, get_dentry_fail_rindex, get_dentry_fail]
        exact fun h => dentry_ptr.noConfusion h
    · intro hrej hlock hget hri rgd hrgd hrl hrd
      have hrej2 := (cookie_rejected_counter sdp cookie (atomic_inc sdp.sd_ops_export)).not.mpr hrej
      unfold gfs_get_dentry
      simp only [hrej2, hlock, hget, habsent, hri, hrgd, hrl, if_false, ne_eq, not_true_eq_false]
      by_cases hbt : w.get_block_type rgd cookie.formal_ino = k.GFS_BLKST_USEDMETA
      · have hh : dinode_header_mismatch bo k (w.dread cookie.formal_ino).2 := by
          rcases hre with hb | hh
          · exact absurd hbt (hb rgd hrgd)
          · exact hh
        simp [hbt, hrd hbt, hh, get_dentry_fail_relse, get_dentry_fail_rgd,
          get_dentry_fail_rindex, get_dentry_fail]
      · simp [hbt, get_dentry_fail_rgd, get_dentry_fail_rindex, get_dentry_fail]
  · intro hrej
    have hrej2 :=
      (cookie_rejected_counter sdp cookie (atomic_inc sdp.sd_ops_export)).not.mpr hrej
    refine ⟨?_, ?_⟩
    · intro hlock
      simp [gfs_get_dentry, hrej2, hlock]
    intro hlock
    refine ⟨?_, ?_⟩
    · intro hget
      simp [gfs_get_dentry, hrej2, hlock, hget, get_dentry_fail]
    intro hget
    refine ⟨?_, ?_⟩
    · intro hri
      simp [gfs_get_dentry, hrej2, hlock, hget, hri, get_dentry_fail]
    intro hri
    refine ⟨?_, ?_⟩
    · intro hrgd
      simp [gfs_get_dentry, hrej2, hlock, hget, hri, hrgd, get_dentry_fail_rindex,
        get_dentry_fail]
    intro rgd hrgd
    refine ⟨?_, ?_⟩
    · intro hrl
      simp [gfs_get_dentry, hrej2, hlock, hget, hri, hrgd, hrl, get_dentry_fail_rindex,
        get_dentry_fail]
    · intro hrl hbt hrd
      simp [gfs_get_dentry, hrej2, hlock, hget, hri, hrgd, hrl, hbt, hrd, get_dentry_fail_rgd,
        get_dentry_fail_rindex, get_dentry_fail]
  · intro ip hip
    by_cases h1 : cookie_rejected
        { sdp with sd_ops_export := atomic_inc sdp.sd_ops_export } cookie
    · simp [gfs_get_dentry, h1, export_region_calls]
    by_cases h2 : w.glock_nq_num cookie.formal_ino = 0
    swap
    · simp [gfs_get_dentry, h1, h2, export_region_calls]
    by_cases h3 : (w.inode_get_nocreate ⟨cookie.formal_ino, cookie.formal_ino⟩).1 = 0
    swap
    · simp [gfs_get_dentry, h1, h2, h3, get_dentry_fail, export_region_calls]
    have hfound : found_in_memory w sdp cookie ip :=
      ⟨(cookie_rejected_counter sdp cookie _).not.mp h1, h2, Prod.ext h3 hip⟩
    rw [get_dentry_of_found bo k w sdp cookie ip hfound, get_dentry_out_region_calls]
    rfl

/-- C7, amended, at inode 100: absent from memory with its block free the call
fails with `-ESTALE`, and found in memory no call consults the region. -/
theorem get_dentry_reallocated_witness :
    (gfs_get_dentry bigEndianHost consts0 world_freed sbd0 cookie100).ret
      = dentry_ptr.ERR_PTR (-ESTALE) ∧
    export_region_calls
      (gfs_get_dentry bigEndianHost consts0 world_cached sbd0 cookie100).trace = [] :=
  ⟨((get_dentry_reallocated bigEndianHost consts0 world_freed sbd0 cookie100).1 rfl
      (Or.inr (by decide))).2 (by decide) rfl rfl rfl ⟨64⟩ rfl rfl (fun _ => rfl),
   (get_dentry_reallocated bigEndianHost consts0 world_cached sbd0 cookie100).2.2 ip100 rfl⟩

/-- C8: when the identity carries an expected generation and `gfs_get_dentry`
obtains a live inode for it, from memory or from a block that passed the bitmap
and header checks, a differing current generation makes it fail with
`-ESTALE`; with equal generations the check passes and the result is the
dentry allocated for the inode, or `-ENOMEM` when that allocation fails. -/
theorem get_dentry_generation (bo : ByteOrder) (k : ondisk_consts) (w : export_world)
    (sdp : gfs_sbd) (cookie : inode_cookie) (ip : gfs_inode) (inode : inode)
    (hpath : found_in_memory w sdp cookie ip ∨ materialised bo k w sdp cookie ip)
    (hlive : w.iget ip = some inode)
    (hvalid : cookie.gen_valid ≠ 0) :
    (cookie.gen ≠ inode.i_generation →
      (gfs_get_dentry bo k w sdp cookie).ret = dentry_ptr.ERR_PTR (-ESTALE)) ∧
    (cookie.gen = inode.i_generation →
      (gfs_get_dentry bo k w sdp cookie).ret =
        if w.d_alloc_anon inode = true then dentry_ptr.ptr ⟨inode, inode⟩
        else dentry_ptr.ERR_PTR (-ENOMEM)) := by
  have hout : ∀ (s : gfs_sbd) (tr : List export_event),
      (cookie.gen ≠ inode.i_generation →
        (get_dentry_out w cookie s tr ip).ret = dentry_ptr.ERR_PTR (-ESTALE)) ∧
      (cookie.gen = inode.i_generation →
        (get_dentry_out w cookie s tr ip).ret =
          if w.d_alloc_anon inode = true then dentry_ptr.ptr ⟨inode, inode⟩
          else dentry_ptr.ERR_PTR (-ENOMEM)) := by
    intro s tr
    unfold get_dentry_out
    rw [hlive]
    constructor
    · intro hne
      simp [hvalid, hne]
    · intro heq
      cases hd : w.d_alloc_anon inode <;> simp [heq, hd]
  rcases hpath with h | h
  · rw [get_dentry_of_found bo k w sdp cookie ip h]
    exact hout _ _
  · rw [get_dentry_of_materialised bo k w sdp cookie ip h]
    exact hout _ _

/-- C8 at inode 100 read from a block that now holds generation 10 while the
cookie expects generation 9. -/
theorem get_dentry_generation_witness :
    (gfs_get_dentry bigEndianHost consts0 world_reused sbd0 cookie100).ret
      = dentry_ptr.ERR_PTR (-ESTALE) :=
  (get_dentry_generation bigEndianHost consts0 world_reused sbd0 cookie100 ip100 ⟨10, ip100⟩
    (Or.inr ⟨by decide, rfl, rfl, rfl, ⟨⟨64⟩, rfl, rfl, rfl⟩, rfl, by decide, rfl⟩)
    rfl (by decide)).1 (by decide)

/-! ## The hidden-file ioctls -/

/-- C9, as stated, fails: a caller without `CAP_SYS_ADMIN` gets the stat of the
quota file; `gi_get_hfile_stat` resolves the name, takes the lock and copies
the dinode out. -/
theorem hfile_stat_without_capability :
    hworld_user.capable_sys_admin = false ∧
    (gi_get_hfile_stat hworld_user sbd0 gi_quota 0).ret = 232 ∧
    (gi_get_hfile_stat hworld_user sbd0 gi_quota 0).trace =
      [hfile_event.gi2hip, hfile_event.kmalloc, hfile_event.glock_nq_init 0,
       hfile_event.memcpy_dinode, hfile_event.glock_dq_uninit,
       hfile_event.copy_to_user, hfile_event.kfree] := by
  decide

/-- C9, amended: read, write and truncate of a hidden file fail with `-EACCES`
for every caller without `CAP_SYS_ADMIN`, before any other call is made and
with the state on disk untouched; `gi_get_hfile_stat` makes no capability
check, its outcome is the same with and without the capability. -/
theorem hfile_capability_up_front {σ : Type} (w : hfile_world σ) (sdp : gfs_sbd)
    (gi : gfs_ioctl) (fs : σ) (hcap : w.capable_sys_admin = false) :
    ((gi_do_hfile_read w sdp gi fs).ret = -EACCES ∧
      (gi_do_hfile_read w sdp gi fs).trace = [] ∧
      (gi_do_hfile_read w sdp gi fs).fs = fs) ∧
    ((gi_do_hfile_write w sdp gi fs).ret = -EACCES ∧
      (gi_do_hfile_write w sdp gi fs).trace = [] ∧
      (gi_do_hfile_write w sdp gi fs).fs = fs) ∧
    ((gi_do_hfile_trunc w sdp gi fs).ret = -EACCES ∧
      (gi_do_hfile_trunc w sdp gi fs).trace = [] ∧
      (gi_do_hfile_trunc w sdp gi fs).fs = fs) ∧
    (∀ b : Bool, gi_get_hfile_stat { w with capable_sys_admin := b } sdp gi fs =
      gi_get_hfile_stat w sdp gi fs) := by
  refine ⟨?_, ?_, ?_, fun _ => rfl⟩
  · simp [gi_do_hfile_read, hcap]
  · simp [gi_do_hfile_write, hcap]
  · simp [gi_do_hfile_trunc, hcap]

/-- C9, amended, at a caller without the capability asking for the quota file. -/
theorem hfile_capability_up_front_witness :
    (gi_do_hfile_write hworld_user sbd0 gi_quota 0).ret = -EACCES ∧
    (gi_do_hfile_write hworld_user sbd0 gi_quota 0).trace = [] :=
  ⟨(hfile_capability_up_front hworld_user sbd0 gi_quota 0 rfl).2.1.1,
   (hfile_capability_up_front hworld_user sbd0 gi_quota 0 rfl).2.1.2.1⟩

/-- C10: a write by a caller with `CAP_SYS_ADMIN` to a validly named hidden
file that is not flagged journaled-data, with a readable buffer and the lock
granted, returns `- EIO` and leaves the state on disk as it was: after the lock
only `gfs_consist_inode`, the bump of the lock version and the release of the
lock are called, so nothing is written, no transaction is begun and no
allocation, quota hold or reservation is taken. Whatever the buffer check and
the lock say, the state on disk is unchanged. -/
theorem hfile_write_not_jdata {σ : Type} (w : hfile_world σ) (sdp : gfs_sbd)
    (gi : gfs_ioctl) (fs : σ) (ip : gfs_inode)
    (hcap : w.capable_sys_admin = true)
    (hname : gi2hip sdp gi = Except.ok ip)
    (hjd : w.gfs_is_jdata ip = false) :
    (gi_do_hfile_write w sdp gi fs).fs = fs ∧
    (w.access_ok gi.gi_size = true → w.glock_nq_init ip = 0 →
      (gi_do_hfile_write w sdp gi fs).ret = - EIO ∧
      (gi_do_hfile_write w sdp gi fs).trace =
        [hfile_event.gi2hip, hfile_event.access_ok, hfile_event.write_calc_reserv,
         hfile_event.glock_nq_init 0, hfile_event.consist_inode,
         hfile_event.gl_vn_inc, hfile_event.glock_dq_uninit]) := by
  constructor
  · unfold gi_do_hfile_write
    simp only [hcap, hname, hjd]
    by_cases ha : w.access_ok gi.gi_size = false
    · simp [ha]
    · by_cases hl : w.glock_nq_init ip = 0
      · simp [ha, hl, hfile_write_out]
      · simp [ha, hl]
  · intro ha hl
    unfold gi_do_hfile_write
    simp [hcap, hname, hjd, ha, hl, hfile_write_out]

/-- C10 at an administrative write to the quota file, which is not flagged
journaled-data. -/
theorem hfile_write_not_jdata_witness :
    (gi_do_hfile_write hworld_admin sbd0 gi_quota 0).fs = 0 ∧
    (gi_do_hfile_write hworld_admin sbd0 gi_quota 0).ret = - EIO :=
  ⟨(hfile_write_not_jdata hworld_admin sbd0 gi_quota 0 ⟨⟨3, 3⟩⟩ rfl rfl rfl).1,
   ((hfile_write_not_jdata hworld_admin sbd0 gi_quota 0 ⟨⟨3, 3⟩⟩ rfl rfl rfl).2
      rfl rfl).1⟩

/-! ## Resources of `gi_do_hfile_write` -/

/-- C11: whatever the lock, the alloc-required query, the quota hold, the
in-place reservation, the transaction begin and the write return, the calls of
`gi_do_hfile_write` are well bracketed: run against the stack of resources
held, every release names the resource acquired last, nothing is held at the
end, and the releases are the acquisitions in reverse order. -/
theorem hfile_write_releases_all {σ : Type} (w : hfile_world σ) (sdp : gfs_sbd)
    (gi : gfs_ioctl) (fs : σ) :
    hfile_held [] (gi_do_hfile_write w sdp gi fs).trace = some [] ∧
    (gi_do_hfile_write w sdp gi fs).trace.filterMap hfile_releases =
      ((gi_do_hfile_write w sdp gi fs).trace.filterMap hfile_acquires).reverse := by
  by_cases hcap : w.capable_sys_admin = false
  · simp [gi_do_hfile_write, hcap, hfile_held]
  cases hname : gi2hip sdp gi with
  | error e =>
    simp [gi_do_hfile_write, hcap, hname, hfile_held, hfile_acquires, hfile_releases]
  | ok ip =>
    by_cases ha : w.access_ok gi.gi_size = false
    · simp [gi_do_hfile_write, hcap, hname, ha, hfile_held, hfile_acquires, hfile_releases]
    by_cases hl : w.glock_nq_init ip = 0
    swap
    · simp [gi_do_hfile_write, hcap, hname, ha, hl, hfile_held, hfile_acquires,
        hfile_releases]
    by_cases hj : w.gfs_is_jdata ip = false
    · simp [gi_do_hfile_write, hfile_write_out, hcap, hname, ha, hl, hj, hfile_held,
        hfile_acquires, hfile_releases]
    by_cases hq : (w.write_alloc_required ip gi.gi_offset gi.gi_size).1 = 0
    swap
    · simp [gi_do_hfile_write, hfile_write_out, hcap, hname, ha, hl, hj, hq, hfile_held,
        hfile_acquires, hfile_releases]
    by_cases hr : (w.write_alloc_required ip gi.gi_offset gi.gi_size).2 = 0
    · by_cases ht : w.trans_begin (u32 (1 + u32 (w.write_calc_reserv ip gi.gi_size).1)) 0 = 0
      · simp [gi_do_hfile_write, hfile_write_out_relse, hfile_write_out_qs,
          hfile_write_out_alloc, hfile_write_out, hcap, hname, ha, hl, hj, hq, hr, ht,
          hfile_held, hfile_acquires, hfile_releases]
      · simp [gi_do_hfile_write, hfile_write_out_relse, hfile_write_out_qs,
          hfile_write_out_alloc, hfile_write_out, hcap, hname, ha, hl, hj, hq, hr, ht,
          hfile_held, hfile_acquires, hfile_releases]
    by_cases hqh : w.quota_hold_m ip = 0
    swap
    · simp [gi_do_hfile_write, hfile_write_out_alloc, hfile_write_out, hcap, hname, ha, hl,
        hj, hq, hr, hqh, hfile_held, hfile_acquires, hfile_releases]
    by_cases hir : w.inplace_reserve ip = 0
    swap
    · simp [gi_do_hfile_write, hfile_write_out_qs, hfile_write_out_alloc, hfile_write_out,
        hcap, hname, ha, hl, hj, hq, hr, hqh, hir, hfile_held, hfile_acquires,
        hfile_releases]
    by_cases ht : w.trans_begin
        (u32 (1 + u32 (w.ri_length ip) + u32 (w.write_calc_reserv ip gi.gi_size).2 +
          u32 (w.write_calc_reserv ip gi.gi_size).1)) 1 = 0
    · simp [gi_do_hfile_write, hfile_write_out_relse, hfile_write_out_qs,
        hfile_write_out_alloc, hfile_write_out, hcap, hname, ha, hl, hj, hq, hr, hqh, hir,
        ht, hfile_held, hfile_acquires, hfile_releases]
    · simp [gi_do_hfile_write, hfile_write_out_relse, hfile_write_out_qs,
        hfile_write_out_alloc, hfile_write_out, hcap, hname, ha, hl, hj, hq, hr, hqh, hir,
        ht, hfile_held, hfile_acquires, hfile_releases]

/-- C13: when `gi_do_hfile_write` reaches the sizing of its transaction (caller
with `CAP_SYS_ADMIN`, valid name, readable buffer, lock granted, journaled-data
file, alloc-required query answered) and the block counts fit an
`unsigned int`: if allocation is required and the quota hold succeeds it stores
`ind_blocks + data_blocks` in `al_requested_meta`, and once the reservation
succeeds too it begins one transaction, of `1 + ri_length + ind_blocks +
data_blocks` blocks and 1 revoke; if no allocation is required it begins one
transaction of `1 + data_blocks` blocks and 0 revokes and makes no call for an
allocation context, a quota hold or a reservation. -/
theorem hfile_write_trans_size {σ : Type} (w : hfile_world σ) (sdp : gfs_sbd)
    (gi : gfs_ioctl) (fs : σ) (ip : gfs_inode)
    (hcap : w.capable_sys_admin = true)
    (hname : gi2hip sdp gi = Except.ok ip)
    (ha : w.access_ok gi.gi_size = true)
    (hl : w.glock_nq_init ip = 0)
    (hj : w.gfs_is_jdata ip = true)
    (hq : (w.write_alloc_required ip gi.gi_offset gi.gi_size).1 = 0)
    (hfit : 1 + w.ri_length ip + (w.write_calc_reserv ip gi.gi_size).2 +
      (w.write_calc_reserv ip gi.gi_size).1 < 2 ^ 32) :
    ((w.write_alloc_required ip gi.gi_offset gi.gi_size).2 ≠ 0 →
      w.quota_hold_m ip = 0 →
      hfile_requested_meta (gi_do_hfile_write w sdp gi fs).trace =
        [(w.write_calc_reserv ip gi.gi_size).2 + (w.write_calc_reserv ip gi.gi_size).1]) ∧
    ((w.write_alloc_required ip gi.gi_offset gi.gi_size).2 ≠ 0 →
      w.quota_hold_m ip = 0 → w.inplace_reserve ip = 0 →
      hfile_trans_sizes (gi_do_hfile_write w sdp gi fs).trace =
        [(1 + w.ri_length ip + (w.write_calc_reserv ip gi.gi_size).2 +
          (w.write_calc_reserv ip gi.gi_size).1, 1)]) ∧
    ((w.write_alloc_required ip gi.gi_offset gi.gi_size).2 = 0 →
      hfile_trans_sizes (gi_do_hfile_write w sdp gi fs).trace =
        [(1 + (w.write_calc_reserv ip gi.gi_size).1, 0)] ∧
      hfile_alloc_calls (gi_do_hfile_write w sdp gi fs).trace = [] ∧
      hfile_requested_meta (gi_do_hfile_write w sdp gi fs).trace = []) := by
  have hd : u32 (w.write_calc_reserv ip gi.gi_size).1 = (w.write_calc_reserv ip gi.gi_size).1 :=
    u32_of_lt (by omega)
  have hi : u32 (w.write_calc_reserv ip gi.gi_size).2 = (w.write_calc_reserv ip gi.gi_size).2 :=
    u32_of_lt (by omega)
  have hri : u32 (w.ri_length ip) = w.ri_length ip := u32_of_lt (by omega)
  have hsum : u32 (1 + w.ri_length ip + (w.write_calc_reserv ip gi.gi_size).2 +
      (w.write_calc_reserv ip gi.gi_size).1) =
      1 + w.ri_length ip + (w.write_calc_reserv ip gi.gi_size).2 +
      (w.write_calc_reserv ip gi.gi_size).1 := u32_of_lt hfit
  have hid : u32 ((w.write_calc_reserv ip gi.gi_size).2 + (w.write_calc_reserv ip gi.gi_size).1)
      = (w.write_calc_reserv ip gi.gi_size).2 + (w.write_calc_reserv ip gi.gi_size).1 :=
    u32_of_lt (by omega)
  have h1d : u32 (1 + (w.write_calc_reserv ip gi.gi_size).1) =
      1 + (w.write_calc_reserv ip gi.gi_size).1 := u32_of_lt (by omega)
  refine ⟨?_, ?_, ?_⟩
  · intro hr hqh
    by_cases hir : w.inplace_reserve ip = 0
    · by_cases ht : w.trans_begin (1 + w.ri_length ip + (w.write_calc_reserv ip gi.gi_size).2 +
          (w.write_calc_reserv ip gi.gi_size).1) 1 = 0
      · simp [gi_do_hfile_write, hfile_write_out_relse, hfile_write_out_qs,
          hfile_write_out_alloc, hfile_write_out, hcap, hname, ha, hl, hj, hq, hr, hqh, hir,
          ht, hd, hi, hri, hsum, hid, hfile_requested_meta]
      · simp [gi_do_hfile_write, hfile_write_out_relse, hfile_write_out_qs,
          hfile_write_out_alloc, hfile_write_out, hcap, hname, ha, hl, hj, hq, hr, hqh, hir,
          ht, hd, hi, hri, hsum, hid, hfile_requested_meta]
    · simp [gi_do_hfile_write, hfile_write_out_qs, hfile_write_out_alloc, hfile_write_out,
        hcap, hname, ha, hl, hj, hq, hr, hqh, hir, hd, hi, hid, hfile_requested_meta]
  · intro hr hqh hir
    by_cases ht : w.trans_begin (1 + w.ri_length ip + (w.write_calc_reserv ip gi.gi_size).2 +
        (w.write_calc_reserv ip gi.gi_size).1) 1 = 0
    · simp [gi_do_hfile_write, hfile_write_out_relse, hfile_write_out_qs,
        hfile_write_out_alloc, hfile_write_out, hcap, hname, ha, hl, hj, hq, hr, hqh, hir,
        ht, hd, hi, hri, hsum, hid, hfile_trans_sizes]
    · simp [gi_do_hfile_write, hfile_write_out_relse, hfile_write_out_qs,
        hfile_write_out_alloc, hfile_write_out, hcap, hname, ha, hl, hj, hq, hr, hqh, hir,
        ht, hd, hi, hri, hsum, hid, hfile_trans_sizes]
  · intro hr
    by_cases ht : w.trans_begin (1 + (w.write_calc_reserv ip gi.gi_size).1) 0 = 0
    · simp [gi_do_hfile_write, hfile_write_out_relse, hfile_write_out_qs,
        hfile_write_out_alloc, hfile_write_out, hcap, hname, ha, hl, hj, hq, hr, ht, hd, h1d,
        hfile_trans_sizes, hfile_alloc_calls, hfile_requested_meta]
    · simp [gi_do_hfile_write, hfile_write_out_relse, hfile_write_out_qs,
        hfile_write_out_alloc, hfile_write_out, hcap, hname, ha, hl, hj, hq, hr, ht, hd, h1d,
        hfile_trans_sizes, hfile_alloc_calls, hfile_requested_meta]

/-- C13 at a write that needs 3 data and 2 indirect blocks in a resource group
with a bitmap of 5 blocks. -/
theorem hfile_write_trans_size_witness :
    hfile_trans_sizes (gi_do_hfile_write hworld_alloc sbd0 gi_quota 0).trace = [(11, 1)] :=
  (hfile_write_trans_size hworld_alloc sbd0 gi_quota 0 ⟨⟨3, 3⟩⟩ rfl rfl rfl rfl rfl rfl
    (by decide)).2.1 (by decide) rfl rfl

/-! ## `gi_set_file_flag` -/

/-- C12: for a well-formed request to set or clear `immutable` or `appendonly`
with the lock granted, a caller who neither owns the file nor holds
`CAP_FOWNER` gets `-EACCES`, and a caller who passes that test but lacks
`CAP_LINUX_IMMUTABLE`, the owner included, gets `-EPERM`; in both cases the
in-core dinode is unchanged and the only calls made are the lock and its
release, so no transaction is begun. -/
theorem set_file_flag_immutable_denied (k : flag_consts) (w : flag_world) (cur : task)
    (i_di : incore_dinode) (gi : gfs_ioctl) (s1 s2 : List Char)
    (hargc : gi.gi_argc = 3)
    (harg1 : gi.gi_argv 1 = some s1)
    (hset : s1.take (ARG_SIZE - 1) = "set".toList ∨ s1.take (ARG_SIZE - 1) = "clear".toList)
    (harg2 : gi.gi_argv 2 = some s2)
    (hflag : s2.take (ARG_SIZE - 1) = "immutable".toList ∨
      s2.take (ARG_SIZE - 1) = "appendonly".toList)
    (hlock : w.glock_nq_init = 0) :
    (i_di.di_uid ≠ cur.fsuid → cur.cap_fowner = false →
      gi_set_file_flag k w cur i_di gi =
        ⟨-EACCES, i_di, [flag_event.glock_nq_init 0, flag_event.glock_dq_uninit]⟩) ∧
    ((i_di.di_uid = cur.fsuid ∨ cur.cap_fowner = true) → cur.cap_linux_immutable = false →
      gi_set_file_flag k w cur i_di gi =
        ⟨-EPERM, i_di, [flag_event.glock_nq_init 0, flag_event.glock_dq_uninit]⟩) := by
  have hs : ¬ (s1.take (ARG_SIZE - 1) ≠ "set".toList ∧ s1.take (ARG_SIZE - 1) ≠ "clear".toList) := by
    intro h; rcases hset with h1 | h1
    · exact h.1 h1
    · exact h.2 h1
  constructor
  · intro hu hc
    unfold gi_set_file_flag
    simp only [hargc, harg1, harg2, hlock, hs, hu, hc, set_file_flag_out, ne_eq,
      not_true_eq_false, not_false_eq_true, if_false, if_true, and_self, List.singleton_append]
  · intro ho hc
    have hno : ¬ (i_di.di_uid ≠ cur.fsuid ∧ cur.cap_fowner = false) := by
      intro h; rcases ho with h1 | h1
      · exact h.1 h1
      · rw [h1] at h; exact Bool.noConfusion h.2
    have hsel : set_file_flag_select k cur i_di (s2.take (ARG_SIZE - 1)) = Except.error (-EPERM) := by
      rcases hflag with h | h <;> rw [h] <;> simp [set_file_flag_select, hc]
    unfold gi_set_file_flag
    simp only [hargc, harg1, harg2, hlock, hs, hno, hsel, set_file_flag_out, ne_eq,
      not_true_eq_false, if_false, List.singleton_append]

/-- C12 at the owner of a file, without `CAP_LINUX_IMMUTABLE`, asking to set
`immutable`. -/
theorem set_file_flag_immutable_denied_witness :
    gi_set_file_flag fconsts0 fworld0 task500 di_regular gi_set_immutable =
      ⟨-EPERM, di_regular, [flag_event.glock_nq_init 0, flag_event.glock_dq_uninit]⟩ :=
  (set_file_flag_immutable_denied fconsts0 fworld0 task500 di_regular gi_set_immutable
    "set".toList "immutable".toList rfl rfl (Or.inl (by decide)) rfl (Or.inl (by decide)) rfl).2
    (Or.inl rfl) rfl

/-! ## `gfs_acl_validate_remove` -/

/-- C14: on a mount without ACL support `gfs_acl_validate_remove` returns
`-EOPNOTSUPP`, whatever the object, the kind and the caller. -/
theorem acl_validate_remove_no_acls (k : acl_consts) (cur : task) (ip : acl_inode)
    (access : Int) (h : ip.ar_posix_acls = 0) :
    gfs_acl_validate_remove k cur ip access = -EOPNOTSUPP := by
  simp [gfs_acl_validate_remove, h]

/-- C14 at the access ACL of a regular file, asked for by its owner. -/
theorem acl_validate_remove_no_acls_witness :
    gfs_acl_validate_remove aconsts0 task500 ip_no_acls 1 = -EOPNOTSUPP :=
  acl_validate_remove_no_acls aconsts0 task500 ip_no_acls 1 rfl

/-- C15, as stated, fails: the owner of a regular file on a mount with ACL
support who asks for the default kind gets `-EACCES`, which is not
`-EOPNOTSUPP`. -/
theorem acl_validate_remove_default_not_eopnotsupp :
    ip_regular.ar_posix_acls ≠ 0 ∧
    task500.fsuid = ip_regular.i_di.di_uid ∧
    ip_regular.i_di.di_type ≠ aconsts0.GFS_FILE_DIR ∧
    ip_regular.i_di.di_type ≠ aconsts0.GFS_FILE_LNK ∧
    gfs_acl_validate_remove aconsts0 task500 ip_regular 0 = -EACCES ∧
    gfs_acl_validate_remove aconsts0 task500 ip_regular 0 ≠ -EOPNOTSUPP := by
  decide

/-- C15, amended: on a mount with ACL support, for a caller who owns the object
or holds `CAP_FOWNER` and an object that is neither a directory nor a symbolic
link, `gfs_acl_validate_remove` with `access = 0` returns `-EACCES`. -/
theorem acl_validate_remove_default_eacces (k : acl_consts) (cur : task) (ip : acl_inode)
    (hacls : ip.ar_posix_acls ≠ 0)
    (hauth : cur.fsuid = ip.i_di.di_uid ∨ cur.cap_fowner = true)
    (hdir : ip.i_di.di_type ≠ k.GFS_FILE_DIR)
    (hlnk : ip.i_di.di_type ≠ k.GFS_FILE_LNK) :
    gfs_acl_validate_remove k cur ip 0 = -EACCES := by
  have hno : ¬ (cur.fsuid ≠ ip.i_di.di_uid ∧ cur.cap_fowner = false) := by
    intro h; rcases hauth with h1 | h1
    · exact h.1 h1
    · rw [h1] at h; exact Bool.noConfusion h.2
  simp only [gfs_acl_validate_remove, hacls, hno, hlnk, hdir, if_false, ne_eq,
    not_false_eq_true, and_self, if_true]

/-- C15, amended, at a regular file and its owner. -/
theorem acl_validate_remove_default_eacces_witness :
    gfs_acl_validate_remove aconsts0 task500 ip_regular 0 = -EACCES :=
  acl_validate_remove_default_eacces aconsts0 task500 ip_regular (by decide) (Or.inl rfl)
    (by decide) (by decide)

/-- C16: `gfs_acl_validate_remove` returns 0 exactly when the mount has ACL
support, the caller owns the object or holds `CAP_FOWNER`, the object is not a
symbolic link, and the kind is access or the object is a directory; and on a
mount with ACL support a caller who neither owns the object nor holds
`CAP_FOWNER` gets `-EPERM`, whatever the type of the object and the kind. -/
theorem acl_validate_remove_success_iff (k : acl_consts) (cur : task) (ip : acl_inode)
    (access : Int) :
    (gfs_acl_validate_remove k cur ip access = 0 ↔
      ip.ar_posix_acls ≠ 0 ∧
      (cur.fsuid = ip.i_di.di_uid ∨ cur.cap_fowner = true) ∧
      ip.i_di.di_type ≠ k.GFS_FILE_LNK ∧
      (access ≠ 0 ∨ ip.i_di.di_type = k.GFS_FILE_DIR)) ∧
    (ip.ar_posix_acls ≠ 0 → cur.fsuid ≠ ip.i_di.di_uid → cur.cap_fowner = false →
      gfs_acl_validate_remove k cur ip access = -EPERM) := by
  constructor
  · unfold gfs_acl_validate_remove
    by_cases h1 : ip.ar_posix_acls = 0
    · simp [h1, EOPNOTSUPP]
    by_cases h2 : cur.fsuid = ip.i_di.di_uid
    · by_cases h3 : ip.i_di.di_type = k.GFS_FILE_LNK
      · simp [h1, h2, h3, EOPNOTSUPP]
      · by_cases h4 : access = 0
        · by_cases h5 : ip.i_di.di_type = k.GFS_FILE_DIR
          · have h3' : ¬ k.GFS_FILE_DIR = k.GFS_FILE_LNK := h5 ▸ h3
            simp [h1, h2, h3', h4, h5]
          · simp [h1, h2, h3, h4, h5, EACCES]
        · simp [h1, h2, h3, h4]
    · cases hc : cur.cap_fowner
      · simp [h1, h2, hc, EPERM]
      · by_cases h3 : ip.i_di.di_type = k.GFS_FILE_LNK
        · simp [h1, h2, hc, h3, EOPNOTSUPP]
        · by_cases h4 : access = 0
          · by_cases h5 : ip.i_di.di_type = k.GFS_FILE_DIR
            · have h3' : ¬ k.GFS_FILE_DIR = k.GFS_FILE_LNK := h5 ▸ h3
              simp [h1, h2, hc, h3', h4, h5]
            · simp [h1, h2, hc, h3, h4, h5, EACCES]
          · simp [h1, h2, hc, h3, h4]
  · intro h1 h2 h3
    simp [gfs_acl_validate_remove, h1, h2, h3]

/-- C16 at user 501 asking for the access ACL of a file of user 500. -/
theorem acl_validate_remove_success_iff_witness :
    gfs_acl_validate_remove aconsts0 task501 ip_regular 1 = -EPERM :=
  (acl_validate_remove_success_iff aconsts0 task501 ip_regular 1).2 (by decide) (by decide) rfl

/-! ## `gfs_acl_validate_set` -/

/-- C17: for the default kind `gfs_acl_validate_set` never writes `*mode` or
`*remove`; for the access kind, on a request that passes
`gfs_acl_validate_remove` and carries an ACL that parses and is valid, `*mode`
is what `posix_acl_equiv_mode` leaves there, and `*remove` is set to `TRUE`
when `posix_acl_equiv_mode` returns 0 and left alone when it returns a positive
value (extended entries) or an error, which is then returned. -/
theorem acl_validate_set_remove_flag (k : acl_consts) (w : acl_world) (cur : task)
    (ip : acl_inode) (access : Int) (er : gfs_ea_request) (mode : Nat) (remove : Int) :
    (access = 0 → ∀ r, gfs_acl_validate_set k w cur ip access er mode remove = some r →
      r.mode = mode ∧ r.remove = remove) ∧
    (∀ data acl, gfs_acl_validate_remove k cur ip access = 0 →
      er.er_data = some data →
      w.posix_acl_from_xattr data er.er_data_len = acl_ptr.ptr acl →
      w.posix_acl_valid acl = 0 →
      access ≠ 0 →
      ∃ r, gfs_acl_validate_set k w cur ip access er mode remove = some r ∧
        r.mode = (w.posix_acl_equiv_mode acl mode).2 ∧
        ((w.posix_acl_equiv_mode acl mode).1 = 0 → r.ret = 0 ∧ r.remove = TRUE) ∧
        (0 < (w.posix_acl_equiv_mode acl mode).1 → r.ret = 0 ∧ r.remove = remove) ∧
        ((w.posix_acl_equiv_mode acl mode).1 < 0 →
          r.ret = (w.posix_acl_equiv_mode acl mode).1 ∧ r.remove = remove)) := by
  constructor
  · intro ha r hr
    subst ha
    unfold gfs_acl_validate_set at hr
    by_cases h1 : gfs_acl_validate_remove k cur ip 0 = 0
    swap
    · simp only [h1, ne_eq, not_false_eq_true, if_true, Option.some.injEq] at hr
      subst hr; exact ⟨rfl, rfl⟩
    cases h2 : er.er_data with
    | none =>
      simp only [h1, h2, ne_eq, not_true_eq_false, if_false, Option.some.injEq] at hr
      subst hr; exact ⟨rfl, rfl⟩
    | some data =>
      cases h3 : w.posix_acl_from_xattr data er.er_data_len with
      | NULL => simp [h1, h2, h3] at hr
      | ERR_PTR e =>
        simp only [h1, h2, h3, ne_eq, not_true_eq_false, if_false, Option.some.injEq] at hr
        subst hr; exact ⟨rfl, rfl⟩
      | ptr acl =>
        by_cases h4 : w.posix_acl_valid acl = 0
        · simp only [h1, h2, h3, h4, ne_eq, not_true_eq_false, if_false,
            Option.some.injEq] at hr
          subst hr; exact ⟨rfl, rfl⟩
        · simp only [h1, h2, h3, h4, ne_eq, not_true_eq_false, not_false_eq_true, if_false,
            if_true, Option.some.injEq] at hr
          subst hr; exact ⟨rfl, rfl⟩
  · intro data acl h1 h2 h3 h4 ha
    unfold gfs_acl_validate_set
    simp only [h1, h2, h3, h4, ha, ne_eq, not_true_eq_false, not_false_eq_true, if_false,
      if_true]
    by_cases hneg : (w.posix_acl_equiv_mode acl mode).1 < 0
    · refine ⟨_, by rw [if_pos hneg], rfl, ?_, ?_, ?_⟩
      · intro h; omega
      · intro h; omega
      · intro _; exact ⟨rfl, rfl⟩
    · refine ⟨_, by rw [if_neg hneg], rfl, ?_, ?_, ?_⟩
      · intro h; exact ⟨rfl, by simp [h]⟩
      · intro h
        have hne : ¬ (w.posix_acl_equiv_mode acl mode).1 = 0 := by omega
        exact ⟨rfl, by simp [hne]⟩
      · intro h; exact absurd h hneg

/-- C17 at an access ACL that says what the mode 0644 says: the flag is set and
the mode 0100600 becomes 0100644. -/
theorem acl_validate_set_remove_flag_witness :
    ∃ r, gfs_acl_validate_set aconsts0 aworld0 task500 ip_regular 1 er_blob 0o100600 0 = some r ∧
      r.mode = 0o100644 ∧ r.ret = 0 ∧ r.remove = TRUE := by
  obtain ⟨r, hr, hm, h0, _, _⟩ :=
    (acl_validate_set_remove_flag aconsts0 aworld0 task500 ip_regular 1 er_blob 0o100600 0).2
      [2, 0, 0, 0] acl_0644 (by decide) rfl (by decide) rfl (by decide)
  exact ⟨r, hr, hm.trans (by decide), (h0 (by decide)).1, (h0 (by decide)).2⟩

/-! ## `gfs_acl_get` -/

/-- C18: `gfs_acl_get` returns 0 and leaves `*acl` as it was when the object
has no attribute store, when `gfs_ea_find` succeeds without finding a record,
and when the record found has no data; the request it looks up has the name
`GFS_POSIX_ACL_ACCESS` for the access kind and `GFS_POSIX_ACL_DEFAULT` for the
default kind, the type `GFS_EATYPE_SYS` in both, and every `gfs_ea_find` it
makes is for that request. On an object with an attribute store the first call
made is that lookup, with the name of the kind asked for and the type
`GFS_EATYPE_SYS`, and no second lookup follows; an error of the lookup is
returned with `*acl` as it was. -/
theorem acl_get_no_acl (k : acl_consts) (w : acl_world) (ip : acl_inode) (access : Int)
    (acl : acl_ptr) :
    (ip.i_di.di_eattr = 0 → gfs_acl_get k w ip access acl = ⟨0, acl, []⟩) ∧
    (w.ea_find ip (acl_get_request k access) = (0, ⟨none⟩) →
      (gfs_acl_get k w ip access acl).ret = 0 ∧ (gfs_acl_get k w ip access acl).acl = acl) ∧
    (∀ ea, w.ea_find ip (acl_get_request k access) = (0, ⟨some ea⟩) → ea.ea_data_len = 0 →
      (gfs_acl_get k w ip access acl).ret = 0 ∧ (gfs_acl_get k w ip access acl).acl = acl) ∧
    (access ≠ 0 → acl_get_request k access =
      ⟨some k.GFS_POSIX_ACL_ACCESS, k.GFS_POSIX_ACL_ACCESS_LEN, k.GFS_EATYPE_SYS, none, 0⟩) ∧
    (access = 0 → acl_get_request k access =
      ⟨some k.GFS_POSIX_ACL_DEFAULT, k.GFS_POSIX_ACL_DEFAULT_LEN, k.GFS_EATYPE_SYS, none, 0⟩) ∧
    (∀ er error, acl_event.ea_find er error ∈ (gfs_acl_get k w ip access acl).trace →
      er = acl_get_request k access) ∧
    (ip.i_di.di_eattr ≠ 0 →
      ∃ rest, (gfs_acl_get k w ip access acl).trace =
          acl_event.ea_find (acl_get_request k access)
            (w.ea_find ip (acl_get_request k access)).1 :: rest ∧
        ∀ er error, acl_event.ea_find er error ∉ rest) ∧
    (ip.i_di.di_eattr ≠ 0 → access ≠ 0 →
      (gfs_acl_get k w ip access acl).trace.head? = some (acl_event.ea_find
        ⟨some k.GFS_POSIX_ACL_ACCESS, k.GFS_POSIX_ACL_ACCESS_LEN, k.GFS_EATYPE_SYS, none, 0⟩
        (w.ea_find ip ⟨some k.GFS_POSIX_ACL_ACCESS, k.GFS_POSIX_ACL_ACCESS_LEN,
          k.GFS_EATYPE_SYS, none, 0⟩).1)) ∧
    (ip.i_di.di_eattr ≠ 0 → access = 0 →
      (gfs_acl_get k w ip access acl).trace.head? = some (acl_event.ea_find
        ⟨some k.GFS_POSIX_ACL_DEFAULT, k.GFS_POSIX_ACL_DEFAULT_LEN, k.GFS_EATYPE_SYS, none, 0⟩
        (w.ea_find ip ⟨some k.GFS_POSIX_ACL_DEFAULT, k.GFS_POSIX_ACL_DEFAULT_LEN,
          k.GFS_EATYPE_SYS, none, 0⟩).1)) ∧
    (ip.i_di.di_eattr ≠ 0 → (w.ea_find ip (acl_get_request k access)).1 ≠ 0 →
      (gfs_acl_get k w ip access acl).ret = (w.ea_find ip (acl_get_request k access)).1 ∧
      (gfs_acl_get k w ip access acl).acl = acl) ∧
    (ip.i_di.di_eattr ≠ 0 → w.ea_find ip (acl_get_request k access) = (0, ⟨none⟩) →
      gfs_acl_get k w ip access acl =
        ⟨0, acl, [acl_event.ea_find (acl_get_request k access) 0]⟩) ∧
    (ip.i_di.di_eattr ≠ 0 →
      ∀ ea, w.ea_find ip (acl_get_request k access) = (0, ⟨some ea⟩) → ea.ea_data_len = 0 →
      gfs_acl_get k w ip access acl =
        ⟨0, acl, [acl_event.ea_find (acl_get_request k access) 0, acl_event.brelse]⟩) := by
  have htrace : ip.i_di.di_eattr ≠ 0 →
      ∃ rest, (gfs_acl_get k w ip access acl).trace =
          acl_event.ea_find (acl_get_request k access)
            (w.ea_find ip (acl_get_request k access)).1 :: rest ∧
        ∀ er error, acl_event.ea_find er error ∉ rest := by
    intro he
    unfold gfs_acl_get
    simp only [he, if_false]
    by_cases h1 : (w.ea_find ip (acl_get_request k access)).1 = 0
    swap
    · exact ⟨[], by simp [h1], by simp⟩
    simp only [h1, ne_eq, not_true_eq_false, if_false]
    cases h2 : (w.ea_find ip (acl_get_request k access)).2.el_ea with
    | none => exact ⟨[], by simp, by simp⟩
    | some ea =>
      simp only
      by_cases h3 : ea.ea_data_len = 0
      · exact ⟨[acl_event.brelse], by simp [h3], by simp⟩
      by_cases h4 : w.kmalloc ea.ea_data_len = false
      · exact ⟨[acl_event.kmalloc, acl_event.brelse], by simp [h3, h4], by simp⟩
      by_cases h5 : (w.ea_get_copy ip (w.ea_find ip (acl_get_request k access)).2).1 = 0
      · exact ⟨[acl_event.kmalloc, acl_event.ea_get_copy 0, acl_event.posix_acl_from_xattr,
          acl_event.kfree, acl_event.brelse], by simp [h3, h4, h5], by simp⟩
      · exact ⟨[acl_event.kmalloc,
          acl_event.ea_get_copy (w.ea_get_copy ip (w.ea_find ip (acl_get_request k access)).2).1,
          acl_event.kfree, acl_event.brelse], by simp [h3, h4, h5], by simp⟩
  have hacc : access ≠ 0 → acl_get_request k access =
      ⟨some k.GFS_POSIX_ACL_ACCESS, k.GFS_POSIX_ACL_ACCESS_LEN, k.GFS_EATYPE_SYS, none, 0⟩ := by
    intro h
    simp [acl_get_request, ea_request_zero, h]
  have hdef : access = 0 → acl_get_request k access =
      ⟨some k.GFS_POSIX_ACL_DEFAULT, k.GFS_POSIX_ACL_DEFAULT_LEN, k.GFS_EATYPE_SYS, none, 0⟩ := by
    intro h
    simp [acl_get_request, ea_request_zero, h]
  refine ⟨?_, ?_, ?_, hacc, hdef, ?_, htrace, ?_, ?_, ?_, ?_, ?_⟩
  · intro h
    simp [gfs_acl_get, h]
  · intro h
    by_cases he : ip.i_di.di_eattr = 0
    · simp [gfs_acl_get, he]
    · simp [gfs_acl_get, he, h]
  · intro ea h hz
    by_cases he : ip.i_di.di_eattr = 0
    · simp [gfs_acl_get, he]
    · simp [gfs_acl_get, he, h, hz]
  · intro er error hmem
    by_cases he : ip.i_di.di_eattr = 0
    · simp [gfs_acl_get, he] at hmem
    obtain ⟨rest, htr, hrest⟩ := htrace he
    rw [htr] at hmem
    rcases List.mem_cons.mp hmem with h | h
    · injection h with h1 _
    · exact absurd h (hrest er error)
  · intro he ha
    obtain ⟨rest, htr, _⟩ := htrace he
    rw [htr, hacc ha]
    rfl
  · intro he ha
    obtain ⟨rest, htr, _⟩ := htrace he
    rw [htr, hdef ha]
    rfl
  · intro he h1
    simp [gfs_acl_get, he, h1]
  · intro he h
    simp [gfs_acl_get, he, h]
  · intro he ea h hz
    simp [gfs_acl_get, he, h, hz]

/-- C18 at a directory without an access ACL. -/
theorem acl_get_no_acl_witness :
    (gfs_acl_get aconsts0 aworld0 dip_attrs 1 acl_ptr.NULL).ret = 0 ∧
    (gfs_acl_get aconsts0 aworld0 dip_attrs 1 acl_ptr.NULL).acl = acl_ptr.NULL ∧
    (gfs_acl_get aconsts0 aworld0 dip_attrs 1 acl_ptr.NULL).trace.head? =
      some (acl_event.ea_find ⟨some "posix_acl_access".toList, 16, 2, none, 0⟩ 0) :=
  ⟨((acl_get_no_acl aconsts0 aworld0 dip_attrs 1 acl_ptr.NULL).2.1 (by decide)).1,
   ((acl_get_no_acl aconsts0 aworld0 dip_attrs 1 acl_ptr.NULL).2.1 (by decide)).2,
   (acl_get_no_acl aconsts0 aworld0 dip_attrs 1 acl_ptr.NULL).2.2.2.2.2.2.2.1
     (by decide) (by decide)⟩

/-! ## `gfs_acl_new_prep` -/

/-- What `gfs_acl_get` returns when no ACL of the kind is stored. -/
theorem acl_get_of_no_record (k : acl_consts) (w : acl_world) (ip : acl_inode)
    (access : Int) (acl : acl_ptr)
    (hnone : ip.i_di.di_eattr = 0 ∨
      w.ea_find ip (acl_get_request k access) = (0, ⟨none⟩) ∨
      ∃ ea, w.ea_find ip (acl_get_request k access) = (0, ⟨some ea⟩) ∧ ea.ea_data_len = 0) :
    (gfs_acl_get k w ip access acl).ret = 0 ∧ (gfs_acl_get k w ip access acl).acl = acl := by
  by_cases he : ip.i_di.di_eattr = 0
  · simp [gfs_acl_get, he]
  · rcases hnone with h | h | ⟨ea, h, hz⟩
    · exact absurd h he
    · simp [gfs_acl_get, he, h]
    · simp [gfs_acl_get, he, h, hz]

/-- When `gfs_acl_get`, entered with `*acl = NULL`, leaves an error pointer in
`*acl`, it returns the error of that pointer: after a return of 0 the pointer
is `NULL` or valid, as `gfs_acl_new_prep` relies on. -/
theorem acl_get_err_ptr (k : acl_consts) (w : acl_world) (ip : acl_inode) (access : Int)
    (e : Int) (h : (gfs_acl_get k w ip access acl_ptr.NULL).acl = acl_ptr.ERR_PTR e) :
    (gfs_acl_get k w ip access acl_ptr.NULL).ret = e := by
  unfold gfs_acl_get at h ⊢
  by_cases he : ip.i_di.di_eattr = 0
  · simp [he] at h
  simp only [he, if_false] at h ⊢
  by_cases h1 : (w.ea_find ip (acl_get_request k access)).1 = 0
  swap
  · simp [h1] at h
  simp only [h1, ne_eq, not_true_eq_false, if_false] at h ⊢
  cases h2 : (w.ea_find ip (acl_get_request k access)).2.el_ea with
  | none => simp [h2] at h
  | some ea =>
    simp only [h2] at h ⊢
    by_cases h3 : ea.ea_data_len = 0
    · simp [h3] at h
    by_cases h4 : w.kmalloc ea.ea_data_len = false
    · simp [h3, h4] at h
    by_cases h5 : (w.ea_get_copy ip (w.ea_find ip (acl_get_request k access)).2).1 = 0
    swap
    · simp [h3, h4, h5] at h
    simp only [h3, h4, h5, if_false, ne_eq, not_true_eq_false] at h ⊢
    have hf : ¬ (true = false) := Bool.noConfusion
    rw [if_neg hf] at h ⊢
    dsimp only at h ⊢
    rw [h]

/-- The bits of a 32-bit mode after `mode &= ~umask`. -/
theorem testBit_and_not32 (m u i : Nat) (hm : m < 2 ^ 32) :
    (u32 (m &&& not32 u)).testBit i = (m.testBit i && !u.testBit i) := by
  have hmask : (0xFFFFFFFF : Nat) = 2 ^ 32 - 1 := by norm_num
  unfold u32 not32 u32
  rw [Nat.testBit_mod_two_pow, Nat.testBit_and, Nat.testBit_xor, hmask,
    Nat.testBit_two_pow_sub_one, Nat.testBit_mod_two_pow]
  by_cases hi : i < 32
  · simp [hi]
  · have hlt : m < 2 ^ i := lt_of_lt_of_le hm (Nat.pow_le_pow_right (by norm_num) (by omega))
    simp [hi, Nat.testBit_lt_two_pow hlt]

/-- C19: on a mount with ACL support, for a child that is not a symbolic link
and a parent with no stored default ACL (no attribute store, no record, or a
record without data), `gfs_acl_new_prep` returns 0, leaves `*a_data`,
`*d_data`, `*size` and `*blocks` as they were, and applies the umask to
`*mode`: a bit of the result is set exactly when it is set in the requested
mode and clear in the umask. -/
theorem acl_new_prep_no_default (k : acl_consts) (w : acl_world) (cur : task)
    (dip : acl_inode) (type : Nat) (vars : new_prep_vars)
    (hacls : dip.ar_posix_acls ≠ 0) (htype : type ≠ k.GFS_FILE_LNK)
    (hnone : dip.i_di.di_eattr = 0 ∨
      w.ea_find dip (acl_get_request k FALSE) = (0, ⟨none⟩) ∨
      ∃ ea, w.ea_find dip (acl_get_request k FALSE) = (0, ⟨some ea⟩) ∧ ea.ea_data_len = 0)
    (hmode : vars.mode < 2 ^ 32) :
    (gfs_acl_new_prep k w cur dip type vars).ret = 0 ∧
    (gfs_acl_new_prep k w cur dip type vars).vars.a_data = vars.a_data ∧
    (gfs_acl_new_prep k w cur dip type vars).vars.d_data = vars.d_data ∧
    (gfs_acl_new_prep k w cur dip type vars).vars.size = vars.size ∧
    (gfs_acl_new_prep k w cur dip type vars).vars.blocks = vars.blocks ∧
    (∀ i, (gfs_acl_new_prep k w cur dip type vars).vars.mode.testBit i =
      (vars.mode.testBit i && !cur.umask.testBit i)) := by
  obtain ⟨hret, hacl⟩ := acl_get_of_no_record k w dip FALSE acl_ptr.NULL hnone
  have hr : gfs_acl_new_prep k w cur dip type vars =
      ⟨0, { vars with mode := u32 (vars.mode &&& not32 cur.umask) },
        (gfs_acl_get k w dip FALSE acl_ptr.NULL).trace⟩ := by
    unfold gfs_acl_new_prep
    simp only [hacls, htype, hret, hacl, if_false, ne_eq, not_true_eq_false]
  rw [hr]
  exact ⟨rfl, rfl, rfl, rfl, rfl, fun i => testBit_and_not32 _ _ i hmode⟩

/-- C19 at a parent without an attribute store: the mode 0666 under the umask
022 becomes 0644. -/
theorem acl_new_prep_no_default_witness :
    (gfs_acl_new_prep aconsts0 aworld0 task500 dip_plain 1 vars0).ret = 0 ∧
    (gfs_acl_new_prep aconsts0 aworld0 task500 dip_plain 1 vars0).vars.a_data = none ∧
    (gfs_acl_new_prep aconsts0 aworld0 task500 dip_plain 1 vars0).vars.d_data = none ∧
    (gfs_acl_new_prep aconsts0 aworld0 task500 dip_plain 1 vars0).vars.mode = 0o644 :=
  ⟨(acl_new_prep_no_default aconsts0 aworld0 task500 dip_plain 1 vars0 (by decide) (by decide)
      (Or.inl rfl) (by decide)).1,
   (acl_new_prep_no_default aconsts0 aworld0 task500 dip_plain 1 vars0 (by decide) (by decide)
      (Or.inl rfl) (by decide)).2.1,
   (acl_new_prep_no_default aconsts0 aworld0 task500 dip_plain 1 vars0 (by decide) (by decide)
      (Or.inl rfl) (by decide)).2.2.1,
   by decide⟩

/-- Without overflow `DIV_RU` is the division rounded up. -/
theorem DIV_RU_eq (s j : Nat) (hj : 0 < j) (hfit : s + j ≤ 2 ^ 32) :
    DIV_RU s j = (s + j - 1) / j := by
  have h : u32 (s + j + (2 ^ 32 - 1)) = s + j - 1 := by
    unfold u32; omega
  unfold DIV_RU
  rw [h]

/-- The division rounded up is the least number of blocks of `j` bytes that
hold `s` bytes. -/
theorem div_round_up_least (s j : Nat) (hj : 0 < j) :
    s ≤ (s + j - 1) / j * j ∧ ∀ c, s ≤ c * j → (s + j - 1) / j ≤ c := by
  constructor
  · have h1 := Nat.div_add_mod (s + j - 1) j
    have h2 := Nat.mod_lt (s + j - 1) hj
    rw [Nat.mul_comm] at h1
    omega
  · intro c hc
    have h : (s + j - 1) / j < c + 1 := by
      rw [Nat.div_lt_iff_lt_mul hj, Nat.add_mul]
      omega
    omega

/-- C20: when the caller starts with no blobs and `gfs_acl_new_prep` hands one
back, the default ACL of the parent was read and cloned, `*size` is
`posix_acl_xattr_size` of the entry count of the clone as masked, and with `c`
the least number of journal blocks that hold that many bytes `*blocks` is
`2 * c + 1` when both blobs are produced and `c + 1` when one is; the journal
block size is positive and the sizes are taken to fit in 31 bits, so that no
`unsigned int` overflows. -/
theorem acl_new_prep_blocks (k : acl_consts) (w : acl_world) (cur : task)
    (dip : acl_inode) (type : Nat) (vars : new_prep_vars)
    (hj : 0 < dip.sd_jbsize) (hjfit : dip.sd_jbsize ≤ 2 ^ 31)
    (hsfit : ∀ acl0 clone,
      (gfs_acl_get k w dip FALSE acl_ptr.NULL).acl = acl_ptr.ptr acl0 →
      w.posix_acl_clone acl0 = some clone →
      w.posix_acl_xattr_size (w.posix_acl_create_masq clone vars.mode).2.1.a_count < 2 ^ 31)
    (ha : vars.a_data = none) (hd : vars.d_data = none)
    (hblob : (gfs_acl_new_prep k w cur dip type vars).vars.a_data ≠ none ∨
      (gfs_acl_new_prep k w cur dip type vars).vars.d_data ≠ none) :
    ∃ acl0 clone c,
      (gfs_acl_get k w dip FALSE acl_ptr.NULL).acl = acl_ptr.ptr acl0 ∧
      w.posix_acl_clone acl0 = some clone ∧
      (gfs_acl_new_prep k w cur dip type vars).vars.size =
        w.posix_acl_xattr_size (w.posix_acl_create_masq clone vars.mode).2.1.a_count ∧
      (gfs_acl_new_prep k w cur dip type vars).vars.size ≤ c * dip.sd_jbsize ∧
      (∀ c', (gfs_acl_new_prep k w cur dip type vars).vars.size ≤ c' * dip.sd_jbsize →
        c ≤ c') ∧
      ((gfs_acl_new_prep k w cur dip type vars).vars.a_data ≠ none ∧
        (gfs_acl_new_prep k w cur dip type vars).vars.d_data ≠ none →
        (gfs_acl_new_prep k w cur dip type vars).vars.blocks = 2 * c + 1) ∧
      ((gfs_acl_new_prep k w cur dip type vars).vars.a_data = none ∨
        (gfs_acl_new_prep k w cur dip type vars).vars.d_data = none →
        (gfs_acl_new_prep k w cur dip type vars).vars.blocks = c + 1) := by
  by_cases h1 : dip.ar_posix_acls = 0
  · simp [gfs_acl_new_prep, h1, ha, hd] at hblob
  by_cases h2 : type = k.GFS_FILE_LNK
  · simp [gfs_acl_new_prep, h1, h2, ha, hd] at hblob
  by_cases h3 : (gfs_acl_get k w dip FALSE acl_ptr.NULL).ret = 0
  swap
  · simp [gfs_acl_new_prep, h1, h2, h3, ha, hd] at hblob
  cases h4 : (gfs_acl_get k w dip FALSE acl_ptr.NULL).acl with
  | NULL => simp [gfs_acl_new_prep, h1, h2, h3, h4, ha, hd] at hblob
  | ERR_PTR e => simp [gfs_acl_new_prep, h1, h2, h3, h4, ha, hd] at hblob
  | ptr acl0 =>
    cases h5 : w.posix_acl_clone acl0 with
    | none => simp [gfs_acl_new_prep, new_prep_out, h1, h2, h3, h4, h5, ha, hd] at hblob
    | some clone =>
      have hsz := hsfit acl0 clone h4 h5
      have hs : u32 (w.posix_acl_xattr_size
          (w.posix_acl_create_masq clone vars.mode).2.1.a_count) =
          w.posix_acl_xattr_size (w.posix_acl_create_masq clone vars.mode).2.1.a_count :=
        u32_of_lt (lt_trans hsz (by norm_num))
      have hdiv := DIV_RU_eq
        (w.posix_acl_xattr_size (w.posix_acl_create_masq clone vars.mode).2.1.a_count)
        dip.sd_jbsize hj (by omega)
      obtain ⟨hc1, hc2⟩ := div_round_up_least
        (w.posix_acl_xattr_size (w.posix_acl_create_masq clone vars.mode).2.1.a_count)
        dip.sd_jbsize hj
      have hcle : (w.posix_acl_xattr_size (w.posix_acl_create_masq clone vars.mode).2.1.a_count
          + dip.sd_jbsize - 1) / dip.sd_jbsize ≤
          w.posix_acl_xattr_size (w.posix_acl_create_masq clone vars.mode).2.1.a_count :=
        hc2 _ (Nat.le_mul_of_pos_right _ hj)
      refine ⟨acl0, clone,
        (w.posix_acl_xattr_size (w.posix_acl_create_masq clone vars.mode).2.1.a_count +
          dip.sd_jbsize - 1) / dip.sd_jbsize, rfl, h5, ?_⟩
      have hlen : ∀ s, (new_prep_request k s).er_data_len = s := fun _ => rfl
      have h3' : (gfs_acl_get k w dip 0 acl_ptr.NULL).ret = 0 := h3
      have h4' : (gfs_acl_get k w dip 0 acl_ptr.NULL).acl = acl_ptr.ptr acl0 := h4
      by_cases h6 : (w.posix_acl_create_masq clone vars.mode).1 < 0
      · simp [gfs_acl_new_prep, new_prep_out, h1, h2, h3', h4', h5, h6, ha, hd, FALSE] at hblob
      by_cases h7 : 0 < (w.posix_acl_create_masq clone vars.mode).1
      · by_cases h7d : type = k.GFS_FILE_DIR
        · have h2' : ¬ k.GFS_FILE_DIR = k.GFS_FILE_LNK := h7d ▸ h2
          by_cases h8 : w.ea_check_size (new_prep_request k (u32 (w.posix_acl_xattr_size (w.posix_acl_create_masq clone vars.mode).2.1.a_count))) = 0
          swap
          · simp [gfs_acl_new_prep, new_prep_out, h1, h2, h3', h4', h5, h6, h7, h7d, h2', h8, ha, hd,
              TRUE, FALSE] at hblob
          by_cases h9 : w.kmalloc (u32 (w.posix_acl_xattr_size (w.posix_acl_create_masq clone vars.mode).2.1.a_count)) = false
          · simp [gfs_acl_new_prep, new_prep_out, h1, h2, h3', h4', h5, h6, h7, h7d, h2', h8, h9, ha,
              hd, TRUE, FALSE] at hblob
          have hr : (gfs_acl_new_prep k w cur dip type vars).vars =
              ⟨(w.posix_acl_create_masq clone vars.mode).2.2,
               some (w.posix_acl_to_xattr (w.posix_acl_create_masq clone vars.mode).2.1
                (u32 (w.posix_acl_xattr_size (w.posix_acl_create_masq clone vars.mode).2.1.a_count))),
               some (w.posix_acl_to_xattr (w.posix_acl_create_masq clone vars.mode).2.1
                (u32 (w.posix_acl_xattr_size (w.posix_acl_create_masq clone vars.mode).2.1.a_count))),
               u32 (w.posix_acl_xattr_size (w.posix_acl_create_masq clone vars.mode).2.1.a_count),
               u32 (u32 (DIV_RU (u32 (w.posix_acl_xattr_size (w.posix_acl_create_masq clone vars.mode).2.1.a_count)) dip.sd_jbsize * 2) + 1)⟩ := by
            simp [gfs_acl_new_prep, new_prep_out, h1, h2, h3', h4', h5, h6, h7, h7d, h2', h8, h9, hlen,
              ha, hd, TRUE, FALSE]
          rw [hr]
          simp only [hs, hdiv]
          refine ⟨trivial, hc1, hc2, ?_, ?_⟩
          · intro _
            have e1 : u32 (((w.posix_acl_xattr_size (w.posix_acl_create_masq clone vars.mode).2.1.a_count) + dip.sd_jbsize - 1) / dip.sd_jbsize * 2) =
                ((w.posix_acl_xattr_size (w.posix_acl_create_masq clone vars.mode).2.1.a_count) + dip.sd_jbsize - 1) / dip.sd_jbsize * 2 := u32_of_lt (by omega)
            rw [e1, u32_of_lt (by omega)]; omega
          · intro h
            rcases h with h | h <;> exact absurd h (by simp)
        · have h7e : ¬ k.GFS_FILE_DIR = type := fun h => h7d h.symm
          by_cases h8 : w.ea_check_size (new_prep_request k (u32 (w.posix_acl_xattr_size (w.posix_acl_create_masq clone vars.mode).2.1.a_count))) = 0
          swap
          · simp [gfs_acl_new_prep, new_prep_out, h1, h2, h3', h4', h5, h6, h7, h7d, h7e, h8, ha, hd,
              TRUE, FALSE] at hblob
          by_cases h9 : w.kmalloc (u32 (w.posix_acl_xattr_size (w.posix_acl_create_masq clone vars.mode).2.1.a_count)) = false
          · simp [gfs_acl_new_prep, new_prep_out, h1, h2, h3', h4', h5, h6, h7, h7d, h7e, h8, h9, ha,
              hd, TRUE, FALSE] at hblob
          have hr : (gfs_acl_new_prep k w cur dip type vars).vars =
              ⟨(w.posix_acl_create_masq clone vars.mode).2.2,
               some (w.posix_acl_to_xattr (w.posix_acl_create_masq clone vars.mode).2.1
                (u32 (w.posix_acl_xattr_size (w.posix_acl_create_masq clone vars.mode).2.1.a_count))),
               none,
               u32 (w.posix_acl_xattr_size (w.posix_acl_create_masq clone vars.mode).2.1.a_count),
               u32 (DIV_RU (u32 (w.posix_acl_xattr_size (w.posix_acl_create_masq clone vars.mode).2.1.a_count)) dip.sd_jbsize + 1)⟩ := by
            simp [gfs_acl_new_prep, new_prep_out, h1, h2, h3', h4', h5, h6, h7, h7d, h7e, h8, h9, hlen,
              ha, hd, TRUE, FALSE]
          rw [hr]
          simp only [hs, hdiv]
          refine ⟨trivial, hc1, hc2, ?_, ?_⟩
          · intro h
            exact absurd rfl h.2
          · intro _
            rw [u32_of_lt (by omega)]
      · by_cases h7d : type = k.GFS_FILE_DIR
        · have h2' : ¬ k.GFS_FILE_DIR = k.GFS_FILE_LNK := h7d ▸ h2
          by_cases h8 : w.ea_check_size (new_prep_request k (u32 (w.posix_acl_xattr_size (w.posix_acl_create_masq clone vars.mode).2.1.a_count))) = 0
          swap
          · simp [gfs_acl_new_prep, new_prep_out, h1, h2, h3', h4', h5, h6, h7, h7d, h2', h8, ha, hd,
              TRUE, FALSE] at hblob
          by_cases h9 : w.kmalloc (u32 (w.posix_acl_xattr_size (w.posix_acl_create_masq clone vars.mode).2.1.a_count)) = false
          · simp [gfs_acl_new_prep, new_prep_out, h1, h2, h3', h4', h5, h6, h7, h7d, h2', h8, h9, ha,
              hd, TRUE, FALSE] at hblob
          have hr : (gfs_acl_new_prep k w cur dip type vars).vars =
              ⟨(w.posix_acl_create_masq clone vars.mode).2.2,
               none,
               some (w.posix_acl_to_xattr (w.posix_acl_create_masq clone vars.mode).2.1
                (u32 (w.posix_acl_xattr_size (w.posix_acl_create_masq clone vars.mode).2.1.a_count))),
               u32 (w.posix_acl_xattr_size (w.posix_acl_create_masq clone vars.mode).2.1.a_count),
               u32 (DIV_RU (u32 (w.posix_acl_xattr_size (w.posix_acl_create_masq clone vars.mode).2.1.a_count)) dip.sd_jbsize + 1)⟩ := by
            simp [gfs_acl_new_prep, new_prep_out, h1, h2, h3', h4', h5, h6, h7, h7d, h2', h8, h9, hlen,
              ha, hd, TRUE, FALSE]
          rw [hr]
          simp only [hs, hdiv]
          refine ⟨trivial, hc1, hc2, ?_, ?_⟩
          · intro h
            exact absurd rfl h.1
          · intro _
            rw [u32_of_lt (by omega)]
        · simp [gfs_acl_new_prep, new_prep_out, h1, h2, h3', h4', h5, h6, h7, h7d, ha, hd, TRUE,
            FALSE] at hblob

/-- C20 at a directory created under a default ACL of three entries: both blobs
are produced, 28 bytes each, and 3 journal blocks are reported. -/
theorem acl_new_prep_blocks_witness :
    ∃ acl0 clone c,
      (gfs_acl_get aconsts0 aworld0 dip_attrs FALSE acl_ptr.NULL).acl = acl_ptr.ptr acl0 ∧
      aworld0.posix_acl_clone acl0 = some clone ∧
      (gfs_acl_new_prep aconsts0 aworld0 task500 dip_attrs 2 vars0).vars.size =
        aworld0.posix_acl_xattr_size
          (aworld0.posix_acl_create_masq clone vars0.mode).2.1.a_count ∧
      (gfs_acl_new_prep aconsts0 aworld0 task500 dip_attrs 2 vars0).vars.size ≤
        c * dip_attrs.sd_jbsize ∧
      (∀ c', (gfs_acl_new_prep aconsts0 aworld0 task500 dip_attrs 2 vars0).vars.size ≤
        c' * dip_attrs.sd_jbsize → c ≤ c') ∧
      ((gfs_acl_new_prep aconsts0 aworld0 task500 dip_attrs 2 vars0).vars.a_data ≠ none ∧
        (gfs_acl_new_prep aconsts0 aworld0 task500 dip_attrs 2 vars0).vars.d_data ≠ none →
        (gfs_acl_new_prep aconsts0 aworld0 task500 dip_attrs 2 vars0).vars.blocks = 2 * c + 1) ∧
      ((gfs_acl_new_prep aconsts0 aworld0 task500 dip_attrs 2 vars0).vars.a_data = none ∨
        (gfs_acl_new_prep aconsts0 aworld0 task500 dip_attrs 2 vars0).vars.d_data = none →
        (gfs_acl_new_prep aconsts0 aworld0 task500 dip_attrs 2 vars0).vars.blocks = c + 1) :=
  acl_new_prep_blocks aconsts0 aworld0 task500 dip_attrs 2 vars0 (by decide) (by decide)
    (fun acl0 clone h1 h2 => by
      have e : (gfs_acl_get aconsts0 aworld0 dip_attrs FALSE acl_ptr.NULL).acl =
          acl_ptr.ptr acl_0644 := by decide
      rw [e] at h1
      cases h1
      cases h2
      decide)
    rfl rfl (Or.inl (by decide))

/-- The values behind the example of C20. -/
theorem acl_new_prep_example :
    (gfs_acl_new_prep aconsts0 aworld0 task500 dip_attrs 2 vars0).vars =
      ⟨0o644, some [6, 4, 4], some [6, 4, 4], 28, 3⟩ := by
  decide

/-! ## `handle_roll` -/

/-- C28: for a counter value `x` of type `int`, `handle_roll` returns `x` and
leaves the counter alone when `x ≥ 0`, returns 0 and resets the counter to 0
when `x < 0`; so it returns `max x 0`, the counter is not negative afterwards,
and a second call returns what the first returned. -/
theorem handle_roll_clamps (x : Int) (hlo : -2 ^ 31 ≤ x) (hhi : x < 2 ^ 31) :
    (0 ≤ x → handle_roll x = (x.toNat, x)) ∧
    (x < 0 → handle_roll x = (0, 0)) ∧
    ((handle_roll x).1 : Int) = max x 0 ∧
    0 ≤ (handle_roll x).2 ∧
    (handle_roll (handle_roll x).2).1 = (handle_roll x).1 := by
  by_cases h : x < 0
  · have hr : handle_roll x = (0, 0) := by simp [handle_roll, h]
    refine ⟨fun h0 => absurd h (by omega), fun _ => hr, ?_, ?_, ?_⟩
    · rw [hr]; simp; omega
    · rw [hr]
    · rw [hr]; simp [handle_roll, u32]
  · have hu : u32 x.toNat = x.toNat := u32_of_lt (by omega)
    have hr : handle_roll x = (x.toNat, x) := by simp [handle_roll, h, hu]
    refine ⟨fun _ => hr, fun h0 => absurd h0 h, ?_, ?_, ?_⟩
    · rw [hr]; simp
    · rw [hr]; simp; omega
    · rw [hr]; simp [handle_roll, h, hu]

/-- C28 at a counter that has wrapped to -5. -/
theorem handle_roll_clamps_witness :
    handle_roll (-5) = (0, 0) :=
  (handle_roll_clamps (-5) (by decide) (by decide)).2.1 (by decide)


/-! ## `gfs_acl_new_prep`: errors and blobs -/

/-- On an error return `gfs_acl_new_prep` has either written nothing or only
`*mode`, as `posix_acl_create_masq` left it. -/
theorem acl_new_prep_error_vars (k : acl_consts) (w : acl_world) (cur : task)
    (dip : acl_inode) (type : Nat) (vars : new_prep_vars)
    (herr : (gfs_acl_new_prep k w cur dip type vars).ret ≠ 0) :
    (((gfs_acl_get k w dip FALSE acl_ptr.NULL).ret ≠ 0 ∨
        (∃ e, (gfs_acl_get k w dip FALSE acl_ptr.NULL).acl = acl_ptr.ERR_PTR e) ∨
        ∃ acl0, (gfs_acl_get k w dip FALSE acl_ptr.NULL).acl = acl_ptr.ptr acl0 ∧
          w.posix_acl_clone acl0 = none) ∧
      (gfs_acl_new_prep k w cur dip type vars).vars = vars) ∨
    ∃ acl0 clone,
      (gfs_acl_get k w dip FALSE acl_ptr.NULL).acl = acl_ptr.ptr acl0 ∧
      w.posix_acl_clone acl0 = some clone ∧
      (gfs_acl_new_prep k w cur dip type vars).vars =
        { vars with mode := (w.posix_acl_create_masq clone vars.mode).2.2 } := by
  by_cases h1 : dip.ar_posix_acls = 0
  · exact absurd (by simp [gfs_acl_new_prep, h1]) herr
  by_cases h2 : type = k.GFS_FILE_LNK
  · exact absurd (by simp [gfs_acl_new_prep, h1, h2]) herr
  by_cases h3 : (gfs_acl_get k w dip FALSE acl_ptr.NULL).ret = 0
  swap
  · left
    exact ⟨Or.inl h3, by simp [gfs_acl_new_prep, h1, h2, h3]⟩
  cases h4 : (gfs_acl_get k w dip FALSE acl_ptr.NULL).acl with
  | NULL => exact absurd (by simp [gfs_acl_new_prep, h1, h2, h3, h4]) herr
  | ERR_PTR e =>
    left
    exact ⟨Or.inr (Or.inl ⟨e, rfl⟩), by simp [gfs_acl_new_prep, h1, h2, h3, h4]⟩
  | ptr acl0 =>
    cases h5 : w.posix_acl_clone acl0 with
    | none =>
      left
      exact ⟨Or.inr (Or.inr ⟨acl0, rfl, h5⟩), by
        simp [gfs_acl_new_prep, new_prep_out, h1, h2, h3, h4, h5]⟩
    | some clone =>
      have h3' : (gfs_acl_get k w dip 0 acl_ptr.NULL).ret = 0 := h3
      have h4' : (gfs_acl_get k w dip 0 acl_ptr.NULL).acl = acl_ptr.ptr acl0 := h4
      by_cases h6 : (w.posix_acl_create_masq clone vars.mode).1 < 0
      · right
        exact ⟨acl0, clone, rfl, h5, by
          simp [gfs_acl_new_prep, new_prep_out, h1, h2, h3', h4', h5, h6, FALSE]⟩
      by_cases h7 : 0 < (w.posix_acl_create_masq clone vars.mode).1
      · by_cases h7d : type = k.GFS_FILE_DIR
        · have h2' : ¬ k.GFS_FILE_DIR = k.GFS_FILE_LNK := h7d ▸ h2
          by_cases h8 : w.ea_check_size (new_prep_request k (u32 (w.posix_acl_xattr_size (w.posix_acl_create_masq clone vars.mode).2.1.a_count))) = 0
          swap
          · right
            exact ⟨acl0, clone, rfl, h5, by
              simp [gfs_acl_new_prep, new_prep_out, h1, h2, h3', h4', h5, h6, h7, h7d, h2', h8, TRUE, FALSE]⟩
          by_cases h9 : w.kmalloc (u32 (w.posix_acl_xattr_size (w.posix_acl_create_masq clone vars.mode).2.1.a_count)) = false
          · right
            exact ⟨acl0, clone, rfl, h5, by
              simp [gfs_acl_new_prep, new_prep_out, h1, h2, h3', h4', h5, h6, h7, h7d, h2', h8, h9, TRUE, FALSE]⟩
          exfalso
          apply herr
          simp [gfs_acl_new_prep, new_prep_out, h1, h2, h3', h4', h5, h6, h7, h7d, h2', h8, h9, TRUE, FALSE]
        · have h7e : ¬ k.GFS_FILE_DIR = type := fun h => h7d h.symm
          by_cases h8 : w.ea_check_size (new_prep_request k (u32 (w.posix_acl_xattr_size (w.posix_acl_create_masq clone vars.mode).2.1.a_count))) = 0
          swap
          · right
            exact ⟨acl0, clone, rfl, h5, by
              simp [gfs_acl_new_prep, new_prep_out, h1, h2, h3', h4', h5, h6, h7, h7d, h7e, h8, TRUE, FALSE]⟩
          by_cases h9 : w.kmalloc (u32 (w.posix_acl_xattr_size (w.posix_acl_create_masq clone vars.mode).2.1.a_count)) = false
          · right
            exact ⟨acl0, clone, rfl, h5, by
              simp [gfs_acl_new_prep, new_prep_out, h1, h2, h3', h4', h5, h6, h7, h7d, h7e, h8, h9, TRUE, FALSE]⟩
          exfalso
          apply herr
          simp [gfs_acl_new_prep, new_prep_out, h1, h2, h3', h4', h5, h6, h7, h7d, h7e, h8, h9, TRUE, FALSE]
      · by_cases h7d : type = k.GFS_FILE_DIR
        · have h2' : ¬ k.GFS_FILE_DIR = k.GFS_FILE_LNK := h7d ▸ h2
          by_cases h8 : w.ea_check_size (new_prep_request k (u32 (w.posix_acl_xattr_size (w.posix_acl_create_masq clone vars.mode).2.1.a_count))) = 0
          swap
          · right
            exact ⟨acl0, clone, rfl, h5, by
              simp [gfs_acl_new_prep, new_prep_out, h1, h2, h3', h4', h5, h6, h7, h7d, h2', h8, TRUE, FALSE]⟩
          by_cases h9 : w.kmalloc (u32 (w.posix_acl_xattr_size (w.posix_acl_create_masq clone vars.mode).2.1.a_count)) = false
          · right
            exact ⟨acl0, clone, rfl, h5, by
              simp [gfs_acl_new_prep, new_prep_out, h1, h2, h3', h4', h5, h6, h7, h7d, h2', h8, h9, TRUE, FALSE]⟩
          exfalso
          apply herr
          simp [gfs_acl_new_prep, new_prep_out, h1, h2, h3', h4', h5, h6, h7, h7d, h2', h8, h9, TRUE, FALSE]
        · exfalso
          apply herr
          have h0 : (w.posix_acl_create_masq clone vars.mode).1 = 0 := by omega
          simp [gfs_acl_new_prep, new_prep_out, h1, h2, h3', h4', h5, h6, h7, h7d, h0, TRUE, FALSE]

/-- C22, as stated, fails: a directory is created under a default ACL, the
create-time masking turns the mode 0666 into 0644, and `gfs_ea_check_size` then
rejects the blob: the error is returned with `*mode` changed. -/
theorem acl_new_prep_error_changes_mode :
    vars0.mode = 0o666 ∧
    (gfs_acl_new_prep aconsts0 aworld_reject task500 dip_attrs 2 vars0).ret = -ERANGE ∧
    (gfs_acl_new_prep aconsts0 aworld_reject task500 dip_attrs 2 vars0).vars.mode = 0o644 := by
  decide

/-- C22, amended: on every error return of `gfs_acl_new_prep` the outputs
`*a_data`, `*d_data`, `*size` and `*blocks` are as they were on entry; `*mode`
is as it was on entry when the error comes from reading the default ACL or
from the clone, and otherwise, once `posix_acl_create_masq` has run, it is what
that call left there: whenever the default ACL was read and cloned, an error
return leaves in `*mode` the mode that `posix_acl_create_masq` wrote. -/
theorem acl_new_prep_error_outputs (k : acl_consts) (w : acl_world) (cur : task)
    (dip : acl_inode) (type : Nat) (vars : new_prep_vars)
    (herr : (gfs_acl_new_prep k w cur dip type vars).ret ≠ 0) :
    (gfs_acl_new_prep k w cur dip type vars).vars.a_data = vars.a_data ∧
    (gfs_acl_new_prep k w cur dip type vars).vars.d_data = vars.d_data ∧
    (gfs_acl_new_prep k w cur dip type vars).vars.size = vars.size ∧
    (gfs_acl_new_prep k w cur dip type vars).vars.blocks = vars.blocks ∧
    ((gfs_acl_get k w dip FALSE acl_ptr.NULL).ret ≠ 0 →
      (gfs_acl_new_prep k w cur dip type vars).vars.mode = vars.mode) ∧
    (∀ acl0, (gfs_acl_get k w dip FALSE acl_ptr.NULL).acl = acl_ptr.ptr acl0 →
      w.posix_acl_clone acl0 = none →
      (gfs_acl_new_prep k w cur dip type vars).vars.mode = vars.mode) ∧
    ((gfs_acl_new_prep k w cur dip type vars).vars.mode = vars.mode ∨
      ∃ acl0 clone,
        (gfs_acl_get k w dip FALSE acl_ptr.NULL).acl = acl_ptr.ptr acl0 ∧
        w.posix_acl_clone acl0 = some clone ∧
        (gfs_acl_new_prep k w cur dip type vars).vars.mode =
          (w.posix_acl_create_masq clone vars.mode).2.2) ∧
    ((gfs_acl_get k w dip FALSE acl_ptr.NULL).ret = 0 →
      ∀ acl0 clone, (gfs_acl_get k w dip FALSE acl_ptr.NULL).acl = acl_ptr.ptr acl0 →
        w.posix_acl_clone acl0 = some clone →
        (gfs_acl_new_prep k w cur dip type vars).vars.mode =
          (w.posix_acl_create_masq clone vars.mode).2.2) := by
  have hv := acl_new_prep_error_vars k w cur dip type vars herr
  refine ⟨?_, ?_, ?_, ?_, ?_, ?_, ?_, ?_⟩
  · rcases hv with ⟨_, h⟩ | ⟨_, _, _, _, h⟩ <;> rw [h]
  · rcases hv with ⟨_, h⟩ | ⟨_, _, _, _, h⟩ <;> rw [h]
  · rcases hv with ⟨_, h⟩ | ⟨_, _, _, _, h⟩ <;> rw [h]
  · rcases hv with ⟨_, h⟩ | ⟨_, _, _, _, h⟩ <;> rw [h]
  · intro hg
    rcases hv with ⟨_, h⟩ | ⟨acl0, clone, ha, hc, h⟩
    · rw [h]
    · by_cases h1 : dip.ar_posix_acls = 0
      · exact absurd (by simp [gfs_acl_new_prep, h1]) herr
      by_cases h2 : type = k.GFS_FILE_LNK
      · exact absurd (by simp [gfs_acl_new_prep, h1, h2]) herr
      simp [gfs_acl_new_prep, h1, h2, hg]
  · intro acl0 ha hc
    rcases hv with ⟨_, h⟩ | ⟨acl1, clone, ha1, hc1, h⟩
    · rw [h]
    · rw [ha] at ha1
      cases ha1
      rw [hc] at hc1
      cases hc1
  · rcases hv with ⟨_, h⟩ | ⟨acl0, clone, ha, hc, h⟩
    · left; rw [h]
    · right; exact ⟨acl0, clone, ha, hc, by rw [h]⟩
  · intro hg acl0 clone ha hc
    rcases hv with ⟨hwhy, _⟩ | ⟨acl1, clone1, ha1, hc1, h⟩
    · rcases hwhy with hne | ⟨e, he⟩ | ⟨acl1, ha1, hc1⟩
      · exact absurd hg hne
      · rw [ha] at he
        cases he
      · rw [ha] at ha1
        cases ha1
        rw [hc] at hc1
        cases hc1
    · rw [ha] at ha1
      cases ha1
      rw [hc] at hc1
      cases hc1
      rw [h]

/-- C22, amended, at the rejected blob: the error comes back with the two
pointers, the size and the block count as they were, and with the mode that
the masking wrote. -/
theorem acl_new_prep_error_outputs_witness :
    (gfs_acl_new_prep aconsts0 aworld_reject task500 dip_attrs 2 vars0).ret = -ERANGE ∧
    (gfs_acl_new_prep aconsts0 aworld_reject task500 dip_attrs 2 vars0).vars.mode =
      (aworld_reject.posix_acl_create_masq acl_0644 vars0.mode).2.2 ∧
    (gfs_acl_new_prep aconsts0 aworld_reject task500 dip_attrs 2 vars0).vars.a_data = none ∧
    (gfs_acl_new_prep aconsts0 aworld_reject task500 dip_attrs 2 vars0).vars.d_data = none ∧
    (gfs_acl_new_prep aconsts0 aworld_reject task500 dip_attrs 2 vars0).vars.size = 0 ∧
    (gfs_acl_new_prep aconsts0 aworld_reject task500 dip_attrs 2 vars0).vars.blocks = 0 :=
  ⟨by decide,
   (acl_new_prep_error_outputs aconsts0 aworld_reject task500 dip_attrs 2 vars0
      (by decide)).2.2.2.2.2.2.2 (by decide) acl_0644 acl_0644 (by decide) (by decide),
   (acl_new_prep_error_outputs aconsts0 aworld_reject task500 dip_attrs 2 vars0
      (by decide)).1,
   (acl_new_prep_error_outputs aconsts0 aworld_reject task500 dip_attrs 2 vars0
      (by decide)).2.1,
   (acl_new_prep_error_outputs aconsts0 aworld_reject task500 dip_attrs 2 vars0
      (by decide)).2.2.1,
   (acl_new_prep_error_outputs aconsts0 aworld_reject task500 dip_attrs 2 vars0
      (by decide)).2.2.2.1⟩

/-- C24: when ACL support is on, the child is no symbolic link, `gfs_acl_get`
hands `gfs_acl_new_prep` the parent's Default ACL and the function returns 0,
then the clone exists and, with `masq` the outcome of `posix_acl_create_masq`
on the clone and `blob` the serialisation of the ACL as masking left it:
`*a_data` is `blob` if masking returned a value above 0 and is untouched
otherwise; `*d_data` is `blob` if the child is a directory and is untouched
otherwise, so both blobs, when produced, are the same bytes; and for a
non-directory whose masking returned 0 neither pointer, nor `*size`, nor
`*blocks` is written. With both pointers `NULL` on entry, an access blob comes
back exactly when masking returned a value above 0 and a default blob exactly
when the child is a directory. -/
theorem acl_new_prep_blobs (k : acl_consts) (w : acl_world) (cur : task)
    (dip : acl_inode) (type : Nat) (vars : new_prep_vars) (acl0 : posix_acl)
    (hacls : dip.ar_posix_acls ≠ 0) (htype : type ≠ k.GFS_FILE_LNK)
    (hget : (gfs_acl_get k w dip FALSE acl_ptr.NULL).acl = acl_ptr.ptr acl0)
    (hok : (gfs_acl_new_prep k w cur dip type vars).ret = 0) :
    ∃ clone, w.posix_acl_clone acl0 = some clone ∧
      ((gfs_acl_new_prep k w cur dip type vars).vars.a_data =
        if 0 < (w.posix_acl_create_masq clone vars.mode).1 then
          some (w.posix_acl_to_xattr (w.posix_acl_create_masq clone vars.mode).2.1
            (u32 (w.posix_acl_xattr_size (w.posix_acl_create_masq clone vars.mode).2.1.a_count)))
        else vars.a_data) ∧
      ((gfs_acl_new_prep k w cur dip type vars).vars.d_data =
        if type = k.GFS_FILE_DIR then
          some (w.posix_acl_to_xattr (w.posix_acl_create_masq clone vars.mode).2.1
            (u32 (w.posix_acl_xattr_size (w.posix_acl_create_masq clone vars.mode).2.1.a_count)))
        else vars.d_data) ∧
      (¬ 0 < (w.posix_acl_create_masq clone vars.mode).1 → type ≠ k.GFS_FILE_DIR →
        (gfs_acl_new_prep k w cur dip type vars).vars.size = vars.size ∧
        (gfs_acl_new_prep k w cur dip type vars).vars.blocks = vars.blocks) ∧
      (vars.a_data = none →
        ((gfs_acl_new_prep k w cur dip type vars).vars.a_data ≠ none ↔
          0 < (w.posix_acl_create_masq clone vars.mode).1)) ∧
      (vars.d_data = none →
        ((gfs_acl_new_prep k w cur dip type vars).vars.d_data ≠ none ↔
          type = k.GFS_FILE_DIR)) := by
  by_cases h3 : (gfs_acl_get k w dip FALSE acl_ptr.NULL).ret = 0
  swap
  · exact absurd hok (by simp [gfs_acl_new_prep, hacls, htype, h3])
  cases h5 : w.posix_acl_clone acl0 with
  | none => exact absurd hok (by simp [gfs_acl_new_prep, new_prep_out, hacls, htype, h3, hget, h5, ENOMEM])
  | some clone =>
    have h3' : (gfs_acl_get k w dip 0 acl_ptr.NULL).ret = 0 := h3
    have h4' : (gfs_acl_get k w dip 0 acl_ptr.NULL).acl = acl_ptr.ptr acl0 := hget
    by_cases h6 : (w.posix_acl_create_masq clone vars.mode).1 < 0
    · exact absurd hok (by
        simp [gfs_acl_new_prep, new_prep_out, hacls, htype, h3', h4', h5, h6, FALSE]
        omega)
    by_cases h7 : 0 < (w.posix_acl_create_masq clone vars.mode).1
    · by_cases h7d : type = k.GFS_FILE_DIR
      · have h2' : ¬ k.GFS_FILE_DIR = k.GFS_FILE_LNK := h7d ▸ htype
        by_cases h8 : w.ea_check_size (new_prep_request k (u32 (w.posix_acl_xattr_size (w.posix_acl_create_masq clone vars.mode).2.1.a_count))) = 0
        swap
        · exact absurd hok (by simp [gfs_acl_new_prep, new_prep_out, hacls, htype, h3', h4', h5, h6, h7, h7d, h2', h8, TRUE, FALSE])
        by_cases h9 : w.kmalloc (u32 (w.posix_acl_xattr_size (w.posix_acl_create_masq clone vars.mode).2.1.a_count)) = false
        · exact absurd hok (by simp [gfs_acl_new_prep, new_prep_out, hacls, htype, h3', h4', h5, h6, h7, h7d, h2', h8, h9, ENOMEM, TRUE, FALSE])
        refine ⟨clone, rfl, ?_⟩
        simp [gfs_acl_new_prep, new_prep_out, hacls, htype, h3', h4', h5, h6, h7, h7d, h2', h8, h9, TRUE, FALSE]
      · have h7e : ¬ k.GFS_FILE_DIR = type := fun h => h7d h.symm
        by_cases h8 : w.ea_check_size (new_prep_request k (u32 (w.posix_acl_xattr_size (w.posix_acl_create_masq clone vars.mode).2.1.a_count))) = 0
        swap
        · exact absurd hok (by simp [gfs_acl_new_prep, new_prep_out, hacls, htype, h3', h4', h5, h6, h7, h7d, h7e, h8, TRUE, FALSE])
        by_cases h9 : w.kmalloc (u32 (w.posix_acl_xattr_size (w.posix_acl_create_masq clone vars.mode).2.1.a_count)) = false
        · exact absurd hok (by simp [gfs_acl_new_prep, new_prep_out, hacls, htype, h3', h4', h5, h6, h7, h7d, h7e, h8, h9, ENOMEM, TRUE, FALSE])
        refine ⟨clone, rfl, ?_⟩
        simp [gfs_acl_new_prep, new_prep_out, hacls, htype, h3', h4', h5, h6, h7, h7d, h7e, h8, h9, TRUE, FALSE]
    · by_cases h7d : type = k.GFS_FILE_DIR
      · have h2' : ¬ k.GFS_FILE_DIR = k.GFS_FILE_LNK := h7d ▸ htype
        by_cases h8 : w.ea_check_size (new_prep_request k (u32 (w.posix_acl_xattr_size (w.posix_acl_create_masq clone vars.mode).2.1.a_count))) = 0
        swap
        · exact absurd hok (by simp [gfs_acl_new_prep, new_prep_out, hacls, htype, h3', h4', h5, h6, h7, h7d, h2', h8, TRUE, FALSE])
        by_cases h9 : w.kmalloc (u32 (w.posix_acl_xattr_size (w.posix_acl_create_masq clone vars.mode).2.1.a_count)) = false
        · exact absurd hok (by simp [gfs_acl_new_prep, new_prep_out, hacls, htype, h3', h4', h5, h6, h7, h7d, h2', h8, h9, ENOMEM, TRUE, FALSE])
        refine ⟨clone, rfl, ?_⟩
        simp [gfs_acl_new_prep, new_prep_out, hacls, htype, h3', h4', h5, h6, h7, h7d, h2', h8, h9, TRUE, FALSE]
      · refine ⟨clone, rfl, ?_⟩
        simp [gfs_acl_new_prep, new_prep_out, hacls, htype, h3', h4', h5, h6, h7, h7d, TRUE, FALSE]

/-- C24 at work: a directory created under the Default ACL of `dip_attrs`, with
masking that reports a change, gets the same blob in both places. -/
theorem acl_new_prep_blobs_witness :
    ∃ clone, aworld0.posix_acl_clone acl_0644 = some clone ∧
      (gfs_acl_new_prep aconsts0 aworld0 task500 dip_attrs 2 vars0).vars.a_data =
        (gfs_acl_new_prep aconsts0 aworld0 task500 dip_attrs 2 vars0).vars.d_data ∧
      (gfs_acl_new_prep aconsts0 aworld0 task500 dip_attrs 2 vars0).vars.a_data ≠ none :=
  (acl_new_prep_blobs aconsts0 aworld0 task500 dip_attrs 2 vars0 acl_0644
    (by decide) (by decide) (by decide) (by decide)).imp
    (fun _ h => ⟨h.1, by decide, by decide⟩)

/-! ## `gfs_acl_chmod` -/

/-- Running a trace in two parts. -/
theorem export_held_append (a b : List export_event) (held : List export_resource) :
    export_held held (a ++ b) = (export_held held a).bind (fun s => export_held s b) := by
  induction a generalizing held with
  | nil => simp [export_held]
  | cons e es ih =>
    simp only [List.cons_append, export_held]
    split_ifs with h
    · rfl
    · cases export_acquires e with
      | some r => exact ih _
      | none =>
        cases export_releases e with
        | none => exact ih _
        | some r =>
          cases held with
          | nil => rfl
          | cons top rest =>
            simp only
            split_ifs
            · exact ih rest
            · rfl

/-- From the label `out` on, entered with the inode lock alone held, the calls
of `gfs_get_dentry` leave nothing held. -/
theorem export_held_out (w : export_world) (cookie : inode_cookie) (sdp : gfs_sbd)
    (tr : List export_event) (ip : gfs_inode)
    (h : export_held [] tr = some [export_resource.lock holder.i_gh]) :
    export_held [] (get_dentry_out w cookie sdp tr ip).trace = some [] := by
  unfold get_dentry_out
  cases hi : w.iget ip with
  | none =>
    simp [export_held_append, h, export_held, export_acquires, export_releases,
      export_after_out]
  | some inode =>
    dsimp only
    split_ifs <;>
      simp [export_held_append, h, export_held, export_acquires, export_releases,
        export_after_out]

/-- C23: whatever the collaborators of `gfs_get_dentry` return, its calls are
well bracketed over the inode lock, the resource-index hold, the region lock
and the block buffer: every release names the resource acquired last, nothing
is held when the function returns, and `gfs_iget`, and with it the generation
check, `iput` and `d_alloc_anon`, run with nothing held. -/
theorem get_dentry_releases_all (bo : ByteOrder) (k : ondisk_consts) (w : export_world)
    (sdp : gfs_sbd) (cookie : inode_cookie) :
    export_held [] (gfs_get_dentry bo k w sdp cookie).trace = some [] := by
  unfold gfs_get_dentry
  by_cases h1 : cookie_rejected
      { sdp with sd_ops_export := atomic_inc sdp.sd_ops_export } cookie
  · simp [h1, export_held]
  by_cases h2 : w.glock_nq_num cookie.formal_ino = 0
  swap
  · simp [h1, h2, export_held, export_acquires, export_releases, export_after_out]
  by_cases h3 : (w.inode_get_nocreate ⟨cookie.formal_ino, cookie.formal_ino⟩).1 = 0
  swap
  · simp [h1, h2, h3, get_dentry_fail, export_held, export_acquires, export_releases,
      export_after_out]
  cases hip : (w.inode_get_nocreate ⟨cookie.formal_ino, cookie.formal_ino⟩).2 with
  | some ip =>
    simp only [h1, h2, h3, hip, if_false, ne_eq, not_true_eq_false]
    apply export_held_out
    simp [export_held, export_acquires, export_releases, export_after_out]
  | none =>
    by_cases h4 : w.rindex_hold = 0
    swap
    · simp [h1, h2, h3, hip, h4, get_dentry_fail, export_held, export_acquires,
        export_releases, export_after_out]
    cases hrgd : w.blk2rgrpd cookie.formal_ino with
    | none =>
      simp [h1, h2, h3, hip, h4, hrgd, get_dentry_fail_rindex, get_dentry_fail, export_held,
        export_acquires, export_releases, export_after_out]
    | some rgd =>
      by_cases h5 : w.glock_nq_init rgd = 0
      swap
      · simp [h1, h2, h3, hip, h4, hrgd, h5, get_dentry_fail_rindex, get_dentry_fail,
          export_held, export_acquires, export_releases, export_after_out]
      by_cases h6 : w.get_block_type rgd cookie.formal_ino = k.GFS_BLKST_USEDMETA
      swap
      · simp [h1, h2, h3, hip, h4, hrgd, h5, h6, get_dentry_fail_rgd, get_dentry_fail_rindex,
          get_dentry_fail, export_held, export_acquires, export_releases, export_after_out]
      by_cases h7 : (w.dread cookie.formal_ino).1 = 0
      swap
      · simp [h1, h2, h3, hip, h4, hrgd, h5, h6, h7, get_dentry_fail_rgd,
          get_dentry_fail_rindex, get_dentry_fail, export_held, export_acquires,
          export_releases, export_after_out]
      by_cases h8 : dinode_header_mismatch bo k (w.dread cookie.formal_ino).2
      · simp [h1, h2, h3, hip, h4, hrgd, h5, h6, h7, h8, get_dentry_fail_relse,
          get_dentry_fail_rgd, get_dentry_fail_rindex, get_dentry_fail, export_held,
          export_acquires, export_releases, export_after_out]
      by_cases h9 : (w.inode_get_create ⟨cookie.formal_ino, cookie.formal_ino⟩).1 = 0
      swap
      · simp [h1, h2, h3, hip, h4, hrgd, h5, h6, h7, h8, h9, get_dentry_fail, export_held,
          export_acquires, export_releases, export_after_out]
      simp only [h1, h2, h3, hip, h4, hrgd, h5, h6, h7, h8, h9, if_false, ne_eq,
        not_true_eq_false, not_false_eq_true]
      apply export_held_out
      simp [export_held, export_acquires, export_releases, export_after_out]

/-! ## The miss counter of `gfs_get_dentry` -/

/-- The label `out` leaves the superblock as it finds it. -/
theorem get_dentry_out_sdp (w : export_world) (cookie : inode_cookie) (sdp : gfs_sbd)
    (tr : List export_event) (ip : gfs_inode) :
    (get_dentry_out w cookie sdp tr ip).sdp = sdp := by
  unfold get_dentry_out
  cases w.iget ip with
  | none => rfl
  | some inode =>
    dsimp only
    split_ifs <;> rfl

theorem atomic_inc_ne (v : Int) : atomic_inc v ≠ v := by
  unfold atomic_inc
  split_ifs <;> omega

/-- C25, as stated, fails: inode 100 is read from its block, the miss is
counted, and the generation check then fails with `-ESTALE`; the counter has
gone from 0 to 1 on a failure path. -/
theorem get_dentry_miss_counted_before_failure :
    sbd0.sd_fh2dentry_misses = 0 ∧
    (gfs_get_dentry bigEndianHost consts0 world_reused sbd0 cookie100).ret
      = dentry_ptr.ERR_PTR (-ESTALE) ∧
    (gfs_get_dentry bigEndianHost consts0 world_reused sbd0 cookie100).sdp.sd_fh2dentry_misses
      = 1 := by
  decide

/-- C25, amended: `gfs_get_dentry` applies `atomic_inc` to `sd_fh2dentry_misses`
once when no in-memory inode existed and the inode was materialised after the
bitmap and header checks, and leaves the counter as it was on every other
path, a failure after the materialisation keeping the increment; when an
in-memory inode exists the counter is unchanged and no call is made on the
resource index, the region, its bitmap or the block. `atomic_inc` changes the
counter, by one below `INT_MAX`. -/
theorem get_dentry_miss_count (bo : ByteOrder) (k : ondisk_consts) (w : export_world)
    (sdp : gfs_sbd) (cookie : inode_cookie) :
    (∀ ip, materialised bo k w sdp cookie ip →
      (gfs_get_dentry bo k w sdp cookie).sdp.sd_fh2dentry_misses =
        atomic_inc sdp.sd_fh2dentry_misses) ∧
    ((¬ ∃ ip, materialised bo k w sdp cookie ip) →
      (gfs_get_dentry bo k w sdp cookie).sdp.sd_fh2dentry_misses = sdp.sd_fh2dentry_misses) ∧
    (∀ ip, found_in_memory w sdp cookie ip →
      (gfs_get_dentry bo k w sdp cookie).sdp.sd_fh2dentry_misses = sdp.sd_fh2dentry_misses ∧
      export_region_calls (gfs_get_dentry bo k w sdp cookie).trace = []) ∧
    atomic_inc sdp.sd_fh2dentry_misses ≠ sdp.sd_fh2dentry_misses ∧
    (sdp.sd_fh2dentry_misses < 2 ^ 31 - 1 →
      atomic_inc sdp.sd_fh2dentry_misses = sdp.sd_fh2dentry_misses + 1) := by
  refine ⟨?_, ?_, ?_, atomic_inc_ne _, ?_⟩
  · intro ip h
    rw [get_dentry_of_materialised bo k w sdp cookie ip h, get_dentry_out_sdp]
  · intro hno
    unfold gfs_get_dentry
    by_cases h1 : cookie_rejected
        { sdp with sd_ops_export := atomic_inc sdp.sd_ops_export } cookie
    · simp [h1]
    by_cases h2 : w.glock_nq_num cookie.formal_ino = 0
    swap
    · simp [h1, h2]
    by_cases h3 : (w.inode_get_nocreate ⟨cookie.formal_ino, cookie.formal_ino⟩).1 = 0
    swap
    · simp [h1, h2, h3, get_dentry_fail]
    cases hip : (w.inode_get_nocreate ⟨cookie.formal_ino, cookie.formal_ino⟩).2 with
    | some ip =>
      simp only [h1, h2, h3, hip, if_false, ne_eq, not_true_eq_false]
      rw [get_dentry_out_sdp]
    | none =>
      by_cases h4 : w.rindex_hold = 0
      swap
      · simp [h1, h2, h3, hip, h4, get_dentry_fail]
      cases hrgd : w.blk2rgrpd cookie.formal_ino with
      | none => simp [h1, h2, h3, hip, h4, hrgd, get_dentry_fail_rindex, get_dentry_fail]
      | some rgd =>
        by_cases h5 : w.glock_nq_init rgd = 0
        swap
        · simp [h1, h2, h3, hip, h4, hrgd, h5, get_dentry_fail_rindex, get_dentry_fail]
        by_cases h6 : w.get_block_type rgd cookie.formal_ino = k.GFS_BLKST_USEDMETA
        swap
        · simp [h1, h2, h3, hip, h4, hrgd, h5, h6, get_dentry_fail_rgd,
            get_dentry_fail_rindex, get_dentry_fail]
        by_cases h7 : (w.dread cookie.formal_ino).1 = 0
        swap
        · simp [h1, h2, h3, hip, h4, hrgd, h5, h6, h7, get_dentry_fail_rgd,
            get_dentry_fail_rindex, get_dentry_fail]
        by_cases h8 : dinode_header_mismatch bo k (w.dread cookie.formal_ino).2
        · simp [h1, h2, h3, hip, h4, hrgd, h5, h6, h7, h8, get_dentry_fail_relse,
            get_dentry_fail_rgd, get_dentry_fail_rindex, get_dentry_fail]
        by_cases h9 : (w.inode_get_create ⟨cookie.formal_ino, cookie.formal_ino⟩).1 = 0
        swap
        · simp [h1, h2, h3, hip, h4, hrgd, h5, h6, h7, h8, h9, get_dentry_fail]
        exfalso
        apply hno
        refine ⟨(w.inode_get_create ⟨cookie.formal_ino, cookie.formal_ino⟩).2,
          (cookie_rejected_counter sdp cookie _).not.mp h1, h2, ?_, h4,
          ⟨rgd, hrgd, h5, h6⟩, h7, h8, ?_⟩
        · exact Prod.ext h3 hip
        · exact Prod.ext h9 rfl
  · intro ip h
    rw [get_dentry_of_found bo k w sdp cookie ip h, get_dentry_out_sdp,
      get_dentry_out_region_calls]
    exact ⟨rfl, by simp [export_region_calls]⟩
  · intro h
    unfold atomic_inc
    split_ifs <;> omega

/-- C25, amended, at inode 100 found in memory: the counter stays 0. -/
theorem get_dentry_miss_count_witness :
    (gfs_get_dentry bigEndianHost consts0 world_cached sbd0 cookie100).sdp.sd_fh2dentry_misses
      = 0 ∧
    export_region_calls (gfs_get_dentry bigEndianHost consts0 world_cached sbd0 cookie100).trace
      = [] :=
  (get_dentry_miss_count bigEndianHost consts0 world_cached sbd0 cookie100).2.2.1 ip100
    ⟨by decide, rfl, rfl⟩

/-! ## `gfs_get_name` -/

/-- The scan leaves the first byte of the buffer alone if no entry handed to
the callback has the number looked for, and it leaves there the first byte of
a name if one has; the names have at least one byte and none starts with a
NUL byte. -/
theorem dir_scan_first_byte (entries : List dir_entry) (gnfd : struct_get_name_filldir)
    (hwf : ∀ e ∈ entries, 0 < e.length ∧ e.name.getD 0 0 ≠ 0) :
    ((∀ e ∈ entries, e.inum.no_formal_ino ≠ gnfd.formal_ino) ∧
      dir_scan entries gnfd = (false, gnfd)) ∨
    ((∃ e ∈ entries, e.inum.no_formal_ino = gnfd.formal_ino) ∧
      (dir_scan entries gnfd).1 = true ∧ (dir_scan entries gnfd).2.name 0 ≠ 0) := by
  induction entries with
  | nil => left; simp [dir_scan]
  | cons e es ih =>
    have hes : ∀ e ∈ es, 0 < e.length ∧ e.name.getD 0 0 ≠ 0 :=
      fun x hx => hwf x (List.mem_cons_of_mem _ hx)
    have he := hwf e (List.mem_cons_self _ _)
    by_cases hm : e.inum.no_formal_ino = gnfd.formal_ino
    · right
      refine ⟨⟨e, List.mem_cons_self _ _, hm⟩, ?_, ?_⟩
      · simp [dir_scan, get_name_filldir, hm]
      · have hl : (0 : Nat) ≠ e.length := by omega
        simpa [dir_scan, get_name_filldir, hm, memcpy, Function.update, hl, he.1] using he.2
    · rcases ih hes with ⟨h1, h2⟩ | ⟨⟨x, hx, hxm⟩, h2, h3⟩
      · left
        refine ⟨?_, ?_⟩
        · intro x hx
          rcases List.mem_cons.mp hx with rfl | hx
          · exact hm
          · exact h1 x hx
        · simp [dir_scan, get_name_filldir, hm, h2]
      · right
        refine ⟨⟨x, List.mem_cons_of_mem _ hx, hxm⟩, ?_, ?_⟩
        · simp [dir_scan, get_name_filldir, hm, h2]
        · simpa [dir_scan, get_name_filldir, hm] using h3

/-- C26: the test `!error & !*name` of `gfs_get_name`, read with the bitwise
operator, holds for the same values of `error` and `*name` as the documented
test with the logical operator, namely when both are 0. So once the lock of
the directory is taken, `gfs_get_name` returns `-ENOENT` if the scan returned 0
and the first byte of the buffer is still 0, and what the scan returned
otherwise; the lock taken is released before the return in both cases; and,
the names of a directory having a first byte other than NUL, the first byte of
the buffer is still 0 exactly when no entry handed to the callback carries the
formal inode number of the child. -/
theorem get_name_not_found (w : name_world) (sd_ops_export : Int) (dir inode : name_inode)
    (name : Nat → Nat) :
    (∀ error name0, get_name_test error name0 = get_name_test_documented error name0) ∧
    (∀ error name0, get_name_test error name0 = true ↔ error = 0 ∧ name0 = 0) ∧
    (w.S_ISDIR dir.i_mode = true → w.glock_nq_init = 0 →
      (gfs_get_name w sd_ops_export (some dir) name (some inode)).ret =
        (if (gfs_dir_read w ⟨inode.ip.i_num.no_formal_ino, Function.update name 0 0⟩).1 = 0 ∧
            (gfs_dir_read w ⟨inode.ip.i_num.no_formal_ino, Function.update name 0 0⟩).2.name 0 = 0
         then -ENOENT
         else (gfs_dir_read w ⟨inode.ip.i_num.no_formal_ino, Function.update name 0 0⟩).1) ∧
      (gfs_get_name w sd_ops_export (some dir) name (some inode)).trace =
        [name_event.glock_nq_init 0,
         name_event.dir_read
           (gfs_dir_read w ⟨inode.ip.i_num.no_formal_ino, Function.update name 0 0⟩).1,
         name_event.glock_dq_uninit] ∧
      ((∀ e ∈ w.dir_entries, 0 < e.length ∧ e.name.getD 0 0 ≠ 0) →
        ((gfs_dir_read w ⟨inode.ip.i_num.no_formal_ino, Function.update name 0 0⟩).2.name 0 = 0 ↔
          ∀ e ∈ w.dir_entries, e.inum.no_formal_ino ≠ inode.ip.i_num.no_formal_ino))) ∧
    name_lock_held false
      (gfs_get_name w sd_ops_export (some dir) name (some inode)).trace = some false := by
  have htest : ∀ (error : Int) (name0 : Nat),
      get_name_test error name0 = true ↔ error = 0 ∧ name0 = 0 := by
    intro error name0
    by_cases h1 : error = 0 <;> by_cases h2 : name0 = 0 <;>
      simp [get_name_test, c_lnot, h1, h2]
  refine ⟨?_, htest, ?_, ?_⟩
  · intro error name0
    by_cases h1 : error = 0 <;> by_cases h2 : name0 = 0 <;>
      simp [get_name_test, get_name_test_documented, c_lnot, h1, h2]
  · intro hdir hlock
    refine ⟨?_, ?_, ?_⟩
    · simp only [gfs_get_name, hdir, hlock, htest]
      simp
    · simp [gfs_get_name, hdir, hlock]
    · intro hwf
      rcases dir_scan_first_byte w.dir_entries
          ⟨inode.ip.i_num.no_formal_ino, Function.update name 0 0⟩ hwf with
        ⟨h1, h2⟩ | ⟨⟨x, hx, hxm⟩, _, h3⟩
      · simp only [gfs_dir_read, h2]
        simpa using h1
      · simp only [gfs_dir_read]
        constructor
        · intro h0
          exact absurd h0 h3
        · intro hall
          exact absurd hxm (hall x hx)
  · by_cases hdir : w.S_ISDIR dir.i_mode = true
    · by_cases hlock : w.glock_nq_init = 0
      · simp [gfs_get_name, hdir, hlock, name_lock_held]
      · simp [gfs_get_name, hdir, hlock, name_lock_held]
    · simp [gfs_get_name, hdir, name_lock_held]

/-- C26 at work: in the directory of `nworld0` the child with number 9 gets
its name `bc`, and the child with number 8, which has no entry, gets
`-ENOENT`. -/
theorem get_name_not_found_witness :
    (gfs_get_name nworld0 0 (some inode_dir) (fun _ => 255) (some inode_9)).ret = 0 ∧
    (gfs_get_name nworld0 0 (some inode_dir) (fun _ => 255) (some inode_9)).name 0 = 98 ∧
    (gfs_get_name nworld0 0 (some inode_dir) (fun _ => 255) (some inode_8)).ret = -ENOENT :=
  ⟨((get_name_not_found nworld0 0 inode_dir inode_9 (fun _ => 255)).2.2.1
      (by decide) (by decide)).1.trans (by decide),
   by decide,
   ((get_name_not_found nworld0 0 inode_dir inode_8 (fun _ => 255)).2.2.1
      (by decide) (by decide)).1.trans (by decide)⟩

/-! ## `gi_set_tune` -/

theorem tune_branch_outcome (w : tune_world) (gt : gfs_tune) (value : List Char)
    (set : gfs_tune → Nat → gfs_tune) (after : List tune_event)
    (hset : ∀ gt x, (set gt x).gt_quota_enforce = gt.gt_quota_enforce ∧
      (set gt x).gt_quota_account = gt.gt_quota_account) :
    tune_outcome gt (tune_branch w gt value set after) := by
  unfold tune_branch tune_outcome
  cases w.sscanf_u value with
  | none => left; exact ⟨rfl, rfl, rfl⟩
  | some x => right; exact ⟨rfl, Or.inr (Or.inr (hset _ _))⟩

theorem tune_branch_nonzero_outcome (w : tune_world) (gt : gfs_tune) (value : List Char)
    (set : gfs_tune → Nat → gfs_tune)
    (hset : ∀ gt x, (set gt x).gt_quota_enforce = gt.gt_quota_enforce ∧
      (set gt x).gt_quota_account = gt.gt_quota_account) :
    tune_outcome gt (tune_branch_nonzero w gt value set) := by
  unfold tune_branch_nonzero tune_outcome
  cases w.sscanf_u value with
  | none => left; exact ⟨rfl, rfl, rfl⟩
  | some x =>
    by_cases hx : u32 x = 0
    · left; simp [hx]
    · right
      simp only [hx, if_false]
      exact ⟨trivial, Or.inr (Or.inr (hset _ _))⟩

theorem tune_branch_quota_scale_outcome (w : tune_world) (gt : gfs_tune)
    (value : List Char) : tune_outcome gt (tune_branch_quota_scale w gt value) := by
  unfold tune_branch_quota_scale tune_outcome
  cases w.sscanf_uu value with
  | none => left; exact ⟨rfl, rfl, rfl⟩
  | some xy =>
    by_cases hy : u32 xy.2 = 0
    · left; simp [hy]
    · right; simp [hy]

theorem tune_branch_quota_enforce_outcome (w : tune_world) (gt : gfs_tune)
    (value : List Char) : tune_outcome gt (tune_branch_quota_enforce w gt value) := by
  unfold tune_branch_quota_enforce tune_outcome
  cases w.sscanf_u value with
  | none => left; exact ⟨rfl, rfl, rfl⟩
  | some x =>
    right
    by_cases hx : u32 x = 0 <;> simp [c_lnot_lnot, hx]

theorem tune_branch_quota_account_outcome (w : tune_world) (gt : gfs_tune)
    (value : List Char) : tune_outcome gt (tune_branch_quota_account w gt value) := by
  unfold tune_branch_quota_account tune_outcome
  cases w.sscanf_u value with
  | none => left; exact ⟨rfl, rfl, rfl⟩
  | some x =>
    right
    by_cases hx : u32 x = 0 <;> simp [c_lnot_lnot, hx]

theorem tune_outcome_ite (gt : gfs_tune) (c : Prop) [Decidable c] (a b : tune_result)
    (ha : tune_outcome gt a) (hb : tune_outcome gt b) :
    tune_outcome gt (if c then a else b) := by
  split_ifs <;> assumption

theorem set_tune_param_outcome (w : tune_world) (gt : gfs_tune) (param value : List Char) :
    tune_outcome gt (set_tune_param w gt param value) := by
  unfold set_tune_param
  repeat' apply tune_outcome_ite
  all_goals first
    | exact tune_branch_outcome _ _ _ _ _ (fun _ _ => ⟨rfl, rfl⟩)
    | exact tune_branch_nonzero_outcome _ _ _ _ (fun _ _ => ⟨rfl, rfl⟩)
    | exact tune_branch_quota_scale_outcome _ _ _
    | exact tune_branch_quota_enforce_outcome _ _ _
    | exact tune_branch_quota_account_outcome _ _ _
    | exact Or.inl ⟨rfl, rfl, rfl⟩

theorem set_tune_outcome (w : tune_world) (gt : gfs_tune) (gi : gfs_ioctl) :
    ((gi_set_tune w gt gi).ret ≠ 0 ∧ (gi_set_tune w gt gi).gt = gt ∧
      (gi_set_tune w gt gi).trace = []) ∨
    tune_outcome gt (gi_set_tune w gt gi) := by
  unfold gi_set_tune
  by_cases hcap : w.capable_sys_admin = false
  · left; simp [hcap, EACCES]
  by_cases hargc : gi.gi_argc = 3
  swap
  · left; simp [hcap, hargc, EINVAL]
  cases h1 : gi.gi_argv 1 with
  | none => left; simp [hcap, hargc, EFAULT]
  | some p =>
    cases h2 : gi.gi_argv 2 with
    | none => left; simp [hcap, hargc, EFAULT]
    | some v =>
      right
      simp only [hcap, hargc, if_false, ne_eq, not_true_eq_false]
      exact set_tune_param_outcome _ _ _ _

theorem tune_ret_ite (e : Int) (c : Prop) [Decidable c] (a b : tune_result)
    (ha : c → a.ret = e) (hb : ¬ c → b.ret = e) : (if c then a else b).ret = e := by
  split_ifs with h
  · exact ha h
  · exact hb h

theorem set_tune_param_unknown (w : tune_world) (gt : gfs_tune) (param value : List Char)
    (h : param ∉ tune_names) : (set_tune_param w gt param value).ret = -EINVAL := by
  unfold set_tune_param
  repeat' (apply tune_ret_ite <;> intro _)
  all_goals first
    | rfl
    | (rename_i hc; exact absurd (by rw [hc]; decide) h)

theorem set_tune_param_unparsable (w : tune_world) (gt : gfs_tune) (param value : List Char)
    (hs : param ≠ "quota_scale".toList) (hv : w.sscanf_u value = none) :
    (set_tune_param w gt param value).ret = -EINVAL := by
  unfold set_tune_param
  repeat' (apply tune_ret_ite <;> intro _)
  all_goals first
    | rfl
    | (rename_i hc; exact absurd hc hs)
    | simp [tune_branch, tune_branch_nonzero, tune_branch_quota_enforce,
        tune_branch_quota_account, hv]

theorem set_tune_param_zero (w : tune_world) (gt : gfs_tune) (param value : List Char)
    (x : Nat) (hmem : param ∈ tune_names_nonzero) (hx : w.sscanf_u value = some x)
    (h0 : u32 x = 0) : (set_tune_param w gt param value).ret = -EINVAL := by
  unfold set_tune_param
  repeat' (apply tune_ret_ite <;> intro _)
  all_goals first
    | rfl
    | simp [tune_branch_nonzero, hx, h0]
    | (rename_i hc; rw [hc] at hmem; exact absurd hmem (by decide))

theorem set_tune_param_quota_scale (w : tune_world) (gt : gfs_tune) (value : List Char) :
    set_tune_param w gt "quota_scale".toList value = tune_branch_quota_scale w gt value := by
  simp +decide [set_tune_param]

theorem set_tune_param_quota_enforce (w : tune_world) (gt : gfs_tune) (value : List Char) :
    set_tune_param w gt "quota_enforce".toList value =
      tune_branch_quota_enforce w gt value := by
  simp +decide [set_tune_param]

theorem set_tune_param_quota_account (w : tune_world) (gt : gfs_tune) (value : List Char) :
    set_tune_param w gt "quota_account".toList value =
      tune_branch_quota_account w gt value := by
  simp +decide [set_tune_param]

theorem set_tune_of_strings (w : tune_world) (gt : gfs_tune) (gi : gfs_ioctl)
    (p v : List Char) (hcap : w.capable_sys_admin = true) (hargc : gi.gi_argc = 3)
    (h1 : gi.gi_argv 1 = some p) (h2 : gi.gi_argv 2 = some v) :
    gi_set_tune w gt gi =
      set_tune_param w gt (p.take (ARG_SIZE - 1)) (v.take (ARG_SIZE - 1)) := by
  simp [gi_set_tune, hcap, hargc, h1, h2]

/-- C27: `gi_set_tune` keeps the invariant that quota enforcement at 1 implies
quota accounting at 1, whoever calls it, with whatever name and value; a call
that returns an error leaves every tunable as it was; the calls that return an
error are those without `CAP_SYS_ADMIN` (`-EACCES`), with `gi_argc` other than
3, with a name that is none of the known ones, with a value that `sscanf` does
not read, with the value 0 for one of the tunables that must not be 0, and
with a zero denominator for `quota_scale` (all `-EINVAL`); setting
`quota_enforce` stores 0 or 1 and, if 1, sets `quota_account` to 1; setting
`quota_account` stores 0 or 1 and, if 0, sets `quota_enforce` to 0. -/
theorem set_tune_invariant (w : tune_world) (gt : gfs_tune) (gi : gfs_ioctl)
    (hinv : tune_invariant gt) :
    tune_invariant (gi_set_tune w gt gi).gt ∧
    ((gi_set_tune w gt gi).ret ≠ 0 → (gi_set_tune w gt gi).gt = gt) ∧
    (w.capable_sys_admin = false → (gi_set_tune w gt gi).ret = -EACCES) ∧
    (w.capable_sys_admin = true → gi.gi_argc ≠ 3 → (gi_set_tune w gt gi).ret = -EINVAL) ∧
    (∀ p v, w.capable_sys_admin = true → gi.gi_argc = 3 →
      gi.gi_argv 1 = some p → gi.gi_argv 2 = some v →
      (p.take (ARG_SIZE - 1) ∉ tune_names → (gi_set_tune w gt gi).ret = -EINVAL) ∧
      (p.take (ARG_SIZE - 1) ≠ "quota_scale".toList →
        w.sscanf_u (v.take (ARG_SIZE - 1)) = none → (gi_set_tune w gt gi).ret = -EINVAL) ∧
      (∀ x, p.take (ARG_SIZE - 1) ∈ tune_names_nonzero →
        w.sscanf_u (v.take (ARG_SIZE - 1)) = some x → u32 x = 0 →
        (gi_set_tune w gt gi).ret = -EINVAL) ∧
      (p.take (ARG_SIZE - 1) = "quota_scale".toList →
        (w.sscanf_uu (v.take (ARG_SIZE - 1)) = none → (gi_set_tune w gt gi).ret = -EINVAL) ∧
        (∀ x y, w.sscanf_uu (v.take (ARG_SIZE - 1)) = some (x, y) → u32 y = 0 →
          (gi_set_tune w gt gi).ret = -EINVAL)) ∧
      (∀ x, p.take (ARG_SIZE - 1) = "quota_enforce".toList →
        w.sscanf_u (v.take (ARG_SIZE - 1)) = some x →
        (gi_set_tune w gt gi).ret = 0 ∧
        (gi_set_tune w gt gi).gt.gt_quota_enforce = c_lnot_lnot (u32 x) ∧
        (gi_set_tune w gt gi).gt.gt_quota_enforce ≤ 1 ∧
        (u32 x ≠ 0 → (gi_set_tune w gt gi).gt.gt_quota_account = 1) ∧
        (u32 x = 0 → (gi_set_tune w gt gi).gt.gt_quota_account = gt.gt_quota_account)) ∧
      (∀ x, p.take (ARG_SIZE - 1) = "quota_account".toList →
        w.sscanf_u (v.take (ARG_SIZE - 1)) = some x →
        (gi_set_tune w gt gi).ret = 0 ∧
        (gi_set_tune w gt gi).gt.gt_quota_account = c_lnot_lnot (u32 x) ∧
        (gi_set_tune w gt gi).gt.gt_quota_account ≤ 1 ∧
        (u32 x = 0 → (gi_set_tune w gt gi).gt.gt_quota_enforce = 0) ∧
        (u32 x ≠ 0 → (gi_set_tune w gt gi).gt.gt_quota_enforce = gt.gt_quota_enforce))) := by
  refine ⟨?_, ?_, ?_, ?_, ?_⟩
  · rcases set_tune_outcome w gt gi with ⟨_, h, _⟩ | ⟨_, h, _⟩ | ⟨_, h | h | ⟨h1, h2⟩⟩
    · rw [h]; exact hinv
    · rw [h]; exact hinv
    · intro he
      rw [h] at he
      exact absurd he (by decide)
    · intro _
      exact h
    · intro he
      rw [h2]
      exact hinv (h1 ▸ he)
  · intro hret
    rcases set_tune_outcome w gt gi with ⟨_, h, _⟩ | ⟨_, h, _⟩ | ⟨h, _⟩
    · exact h
    · exact h
    · exact absurd h hret
  · intro hcap
    simp [gi_set_tune, hcap]
  · intro hcap hargc
    simp [gi_set_tune, hcap, hargc]
  · intro p v hcap hargc h1 h2
    rw [set_tune_of_strings w gt gi p v hcap hargc h1 h2]
    refine ⟨?_, ?_, ?_, ?_, ?_, ?_⟩
    · exact set_tune_param_unknown w gt _ _
    · exact set_tune_param_unparsable w gt _ _
    · intro x hmem hx h0
      exact set_tune_param_zero w gt _ _ x hmem hx h0
    · intro hp
      rw [hp, set_tune_param_quota_scale]
      refine ⟨?_, ?_⟩
      · intro hn
        simp [tune_branch_quota_scale, hn]
      · intro x y hxy h0
        simp [tune_branch_quota_scale, hxy, h0]
    · intro x hp hx
      rw [hp, set_tune_param_quota_enforce]
      by_cases h0 : u32 x = 0 <;> simp [tune_branch_quota_enforce, hx, h0, c_lnot_lnot]
    · intro x hp hx
      rw [hp, set_tune_param_quota_account]
      by_cases h0 : u32 x = 0 <;> simp [tune_branch_quota_account, hx, h0, c_lnot_lnot]

/-- C27 at work: with quota enforcement and accounting on, the request to set
`quota_account` to 0 turns both off, and the invariant holds afterwards. -/
theorem set_tune_invariant_witness :
    tune_invariant tune0 ∧
    tune_invariant (gi_set_tune tworld0 tune0 (gi_tune "quota_account" "0")).gt ∧
    (gi_set_tune tworld0 tune0 (gi_tune "quota_account" "0")).gt.gt_quota_enforce = 0 ∧
    (gi_set_tune tworld0 tune0 (gi_tune "quota_account" "0")).gt.gt_quota_account = 0 :=
  ⟨by decide,
   (set_tune_invariant tworld0 tune0 (gi_tune "quota_account" "0") (by decide)).1,
   by decide, by decide⟩

end GFS
